import Mathlib

/-
Verification of the sf-it-roi service-portfolio manager.

The program is a Streamlit CRUD application over a single SQLite file.
The authoritative data layer is src/database.py (the refactored variant used
by src/ui.py); src/app.py is the legacy monolith variant of the same code.
This file is a shallow embedding of that data layer:

  * a SQLite value is modelled by `Value` (dynamic typing: NULL, INTEGER,
    REAL as a rational, TEXT);
  * a table is a column-name list, a flag recording whether a unique
    autoindex on the `name` column exists, and a list of positional rows;
  * the database file is `DBState`, one `Option Table` per table the code
    creates (`none` models an absent table);
  * each Python function of database.py becomes a Lean function of the same
    name; SQL statements are modelled by the executable helpers below
    (`insertRow`, `updateWhere`, `deleteWhere`, ...) which return
    `Except String` results so that statements that SQLite would reject
    (missing table, missing column, UNIQUE violation) are visible errors;
  * `datetime.now()` is modelled by threading an explicit `now : String`
    parameter through the mutating functions;
  * rowid assignment for an omitted INTEGER PRIMARY KEY is modelled as one
    more than the largest integer id in the table (0 if all are below 0),
    matching SQLite for the non-negative ids the application produces.
-/

/-- A dynamically typed SQLite value.  REAL is modelled as a rational. -/
inductive Value where
  | null : Value
  | int : Int → Value
  | real : ℚ → Value
  | text : String → Value
deriving DecidableEq

/-- The value a Python data-layer function returns to its caller:
`True`, `None` (falling off the end), a message string, or an integer id. -/
inductive PyRet where
  | pyTrue : PyRet
  | pyNone : PyRet
  | pyStr : String → PyRet
  | pyInt : Int → PyRet
deriving DecidableEq

/-- One SQLite table: its column names in order, whether a unique autoindex
on `name` exists (created by a `UNIQUE` constraint on that column), and its
rows.  A row is positional: entry `i` belongs to column `cols[i]`. -/
structure Table where
  cols : List String
  nameUnique : Bool
  rows : List (List Value)
deriving DecidableEq

/-- The database file: one optional table per table the code creates.
`none` means the table does not exist in the file. -/
structure DBState where
  it_units : Option Table
  vendors : Option Table
  service_types : Option Table
  categories : Option Table
  sla_levels : Option Table
  service_methods : Option Table
  applications : Option Table
  it_services : Option Table
  infrastructure : Option Table
  audit_log : Option Table
deriving DecidableEq

/-- Index of column `c` in the column list (first occurrence). -/
def colIdx (cols : List String) (c : String) : Option Nat :=
  match cols with
  | [] => none
  | d :: ds => if d == c then some 0 else (colIdx ds c).map (fun i => i + 1)

/-- Reading column `c` of a positional row, NULL when absent (callers that
would make SQLite error on a missing column check presence first). -/
def getVal (cols : List String) (r : List Value) (c : String) : Value :=
  match colIdx cols c with
  | some i => r.getD i Value.null
  | none => Value.null

/-- Writing column `c` of a positional row. -/
def setVal (cols : List String) (c : String) (v : Value) (r : List Value) :
    List Value :=
  match colIdx cols c with
  | some i => r.set i v
  | none => r

/-- `ALTER TABLE ... ADD COLUMN c`: the new column is appended and every
existing row gets NULL there. -/
def Table.addCol (t : Table) (c : String) : Table :=
  { t with cols := t.cols ++ [c],
           rows := t.rows.map (fun r => r ++ [Value.null]) }

/-- The introspect-and-patch loop shared by every table migration: for each
required column absent from the table, `ADD COLUMN` it. -/
def addMissingCols (t : Table) (req : List String) : Table :=
  req.foldl (fun t c => if c ∈ t.cols then t else t.addCol c) t

/-- `ALTER TABLE ... RENAME COLUMN old TO new`. -/
def Table.renameCol (t : Table) (old new : String) : Table :=
  { t with cols := t.cols.map (fun c => if c = old then new else c) }

/-- `CREATE TABLE IF NOT EXISTS`: keep an existing table untouched,
otherwise create an empty one with the given columns. -/
def createIfAbsent (o : Option Table) (cols : List String) (uniq : Bool) :
    Table :=
  match o with
  | some t => t
  | none => { cols := cols, nameUnique := uniq, rows := [] }

/-- Largest integer id in the table (0 if none larger than 0). -/
def Table.maxId (t : Table) : Int :=
  t.rows.foldl
    (fun a r =>
      max a (match getVal t.cols r "id" with | Value.int n => n | _ => 0)) 0

/-- The rowid SQLite assigns to an INSERT that omits the INTEGER PRIMARY
KEY column. -/
def Table.nextRowId (t : Table) : Int := t.maxId + 1

def lookupA (l : List (String × Value)) (c : String) : Option Value :=
  (l.find? (fun cv => cv.1 == c)).map (fun cv => cv.2)

/-- Whether an INSERT carrying the given named values into `t` violates the
unique autoindex on `name`.  SQLite exempts NULL from UNIQUE. -/
def dupNameOnInsert (t : Table) (assigns : List (String × Value)) : Bool :=
  t.nameUnique &&
    (match lookupA assigns "name" with
     | some v =>
         !(v == Value.null) &&
           t.rows.any (fun r => getVal t.cols r "name" == v)
     | none => false)

/-- The full-width row an INSERT produces: named columns get their values,
an omitted id gets the fresh rowid, every other omitted column NULL. -/
def newRowFor (t : Table) (assigns : List (String × Value)) : List Value :=
  t.cols.map (fun c =>
    match lookupA assigns c with
    | some v => v
    | none => if c == "id" then Value.int t.nextRowId else Value.null)

/-- `INSERT INTO t (c1, ...) VALUES (v1, ...)`: errors on an unknown column
or a UNIQUE violation on `name`; otherwise appends one full-width row. -/
def Table.insertRow (t : Table) (assigns : List (String × Value)) :
    Except String Table :=
  if !(assigns.all (fun cv => cv.1 ∈ t.cols)) then
    .error "no such column"
  else if dupNameOnInsert t assigns then
    .error "UNIQUE constraint failed"
  else
    .ok { t with rows := t.rows ++ [newRowFor t assigns] }

/-- Rows after `UPDATE t SET assigns WHERE wcol = wval` (no checks). -/
def Table.updateWhere (t : Table) (assigns : List (String × Value))
    (wcol : String) (wval : Value) : Table :=
  { t with rows := t.rows.map (fun r =>
      if getVal t.cols r wcol == wval then
        assigns.foldl (fun r cv => setVal t.cols cv.1 cv.2 r) r
      else r) }

/-- Whether two distinct rows now share a non-NULL `name` value. -/
def hasDupNames (cols : List String) : List (List Value) → Bool
  | [] => false
  | r :: rs =>
      (!(getVal cols r "name" == Value.null) &&
        rs.any (fun r2 => getVal cols r2 "name" == getVal cols r "name"))
      || hasDupNames cols rs

/-- `UPDATE ... WHERE wcol = wval`, raising the UNIQUE violation SQLite
raises when a unique `name` column is set to a value another row holds. -/
def Table.updateWhereChecked (t : Table) (assigns : List (String × Value))
    (wcol : String) (wval : Value) : Except String Table :=
  if !(assigns.all (fun cv => cv.1 ∈ t.cols)) || !(wcol ∈ t.cols) then
    .error "no such column"
  else
    let t2 := t.updateWhere assigns wcol wval
    if t.nameUnique && assigns.any (fun cv => cv.1 == "name") &&
        hasDupNames t2.cols t2.rows then
      .error "UNIQUE constraint failed"
    else .ok t2

/-- `DELETE FROM t WHERE wcol = wval`. -/
def Table.deleteWhere (t : Table) (wcol : String) (wval : Value) : Table :=
  { t with rows := t.rows.filter (fun r => !(getVal t.cols r wcol == wval)) }

/-- Run `k` on the table if it exists and carries the columns the SQL
statement names, otherwise produce the SQLite error. -/
def withTable (o : Option Table) (req : List String)
    (k : Table → Except String α) : Except String α :=
  match o with
  | none => .error "no such table"
  | some t => if req.all (fun c => c ∈ t.cols) then k t
              else .error "no such column"

def tblRows (o : Option Table) : List (List Value) :=
  match o with | some t => t.rows | none => []

def tblCols (o : Option Table) : List String :=
  match o with | some t => t.cols | none => []

def DBState.setItUnits (s : DBState) (t : Table) : DBState :=
  { s with it_units := some t }

def DBState.setApplications (s : DBState) (t : Table) : DBState :=
  { s with applications := some t }

def DBState.setItServices (s : DBState) (t : Table) : DBState :=
  { s with it_services := some t }

def DBState.setInfrastructure (s : DBState) (t : Table) : DBState :=
  { s with infrastructure := some t }

def DBState.setAudit (s : DBState) (t : Table) : DBState :=
  { s with audit_log := some t }

/- ------------------------------------------------------------------
SCHEMA MIGRATION — database.py init_db and its two rebuild helpers.
------------------------------------------------------------------- -/

/-- `required_it_unit_columns` of init_db (types TEXT/INTEGER/REAL are
carried by the values, not the schema, in this model). -/
def required_it_unit_columns : List String :=
  ["contact_person", "contact_email", "notes", "total_fte", "budget_amount"]

def required_app_columns : List String :=
  ["it_unit_id", "vendor_id", "renewal_date", "annual_cost",
   "service_type_id", "category_id", "integrations", "description",
   "similar_applications", "service_owner", "status"]

def required_it_services_columns : List String :=
  ["it_unit_id", "fte_count", "dependencies", "service_owner", "status",
   "sla_level_id", "service_method_id", "budget_allocation"]

def required_infra_columns : List String :=
  ["it_unit_id", "vendor_id", "location", "status",
   "annual_maintenance_cost", "description"]

def auditCols : List String :=
  ["id", "timestamp", "user_email", "action", "item_type", "item_name",
   "details"]

/-- Target column list of the applications table rebuild. -/
def newAppCols : List String :=
  ["id", "name", "it_unit_id", "vendor_id", "renewal_date", "annual_cost",
   "service_type_id", "category_id", "integrations", "description",
   "similar_applications", "service_owner", "status"]

/-- Columns the rebuild INSERT ... SELECT reads from the old table. -/
def rebuildAppSelCols : List String :=
  ["id", "name", "it_unit_id", "vendor_id", "renewal_date", "annual_cost",
   "service_type_id", "category_id", "integrations", "description",
   "other_units", "similar_applications", "service_owner", "status"]

def coalesce (a b : Value) : Value := if a = Value.null then b else a

/-- database.py rebuild_applications_table: rename aside, recreate with the
target columns, copy every row across with
`COALESCE(description, other_units)` merged into `description`, drop the old
table.  The SELECT errors when the old table lacks a referenced column. -/
def rebuild_applications_table (t : Table) : Except String Table :=
  if rebuildAppSelCols.all (fun c => c ∈ t.cols) then
    .ok { cols := newAppCols, nameUnique := false,
          rows := t.rows.map (fun r =>
            let g := getVal t.cols r
            [g "id", g "name", g "it_unit_id", g "vendor_id",
             g "renewal_date", g "annual_cost", g "service_type_id",
             g "category_id", g "integrations",
             coalesce (g "description") (g "other_units"),
             g "similar_applications", g "service_owner", g "status"]) }
  else .error "no such column"

/-- Target (and selected) column list of the it_services rebuild. -/
def newServiceCols : List String :=
  ["id", "name", "description", "it_unit_id", "fte_count", "dependencies",
   "service_owner", "status", "sla_level_id", "service_method_id",
   "budget_allocation"]

/-- database.py rebuild_services_table: recreate it_services without the
UNIQUE constraint on name, copying all rows. -/
def rebuild_services_table (t : Table) : Except String Table :=
  if newServiceCols.all (fun c => c ∈ t.cols) then
    .ok { cols := newServiceCols, nameUnique := false,
          rows := t.rows.map (fun r =>
            newServiceCols.map (fun c => getVal t.cols r c)) }
  else .error "no such column"

/-- init_db, it_units section: create if absent, add missing columns. -/
def migrate_it_units (o : Option Table) : Table :=
  addMissingCols (createIfAbsent o ["id", "name"] true)
    required_it_unit_columns

/-- init_db, lookup-table section (vendors, service_types, categories,
sla_levels, service_methods): create if absent with a UNIQUE name. -/
def migrate_lookup (o : Option Table) : Table :=
  createIfAbsent o ["id", "name"] true

/-- init_db, applications section: create if absent; if both `other_units`
and `description` exist, rebuild; else if only `other_units` exists, rename
it to `description`; then add missing columns. -/
def apps_pre (t : Table) : Except String Table :=
  if "other_units" ∈ t.cols ∧ "description" ∈ t.cols then
    rebuild_applications_table t
  else if "other_units" ∈ t.cols then
    .ok (t.renameCol "other_units" "description")
  else .ok t

def migrate_applications (o : Option Table) : Except String Table :=
  match apps_pre (createIfAbsent o ["id", "name"] false) with
  | .ok t2 => .ok (addMissingCols t2 required_app_columns)
  | .error e => .error e

/-- init_db, it_services section: create if absent; if a
`sqlite_autoindex_it_services*` index exists (the UNIQUE name constraint),
rebuild; then add missing columns. -/
def services_pre (t : Table) : Except String Table :=
  if t.nameUnique then rebuild_services_table t else .ok t

def migrate_it_services (o : Option Table) : Except String Table :=
  match services_pre (createIfAbsent o ["id", "name", "description"] false)
      with
  | .ok t2 => .ok (addMissingCols t2 required_it_services_columns)
  | .error e => .error e

/-- init_db, infrastructure section: create if absent; rename legacy
`notes` to `description` when the latter is missing; add missing columns. -/
def infra_pre (t : Table) : Table :=
  if "notes" ∈ t.cols ∧ ¬ "description" ∈ t.cols then
    t.renameCol "notes" "description"
  else t

def migrate_infrastructure (o : Option Table) : Table :=
  addMissingCols (infra_pre (createIfAbsent o ["id", "name"] false))
    required_infra_columns

/-- init_db, audit_log section. -/
def migrate_audit (o : Option Table) : Table :=
  createIfAbsent o auditCols false

/-- database.py init_db without its `except sqlite3.Error` handler: the
whole migration pass, each table introspected and patched forward.  An
error is a statement SQLite would reject (only the two rebuild copies can
fail, when the old table lacks a column their SELECT names). -/
def init_db_raw (s : DBState) : Except String DBState :=
  match migrate_applications s.applications with
  | .error e => .error e
  | .ok apps =>
    match migrate_it_services s.it_services with
    | .error e => .error e
    | .ok its =>
      .ok { it_units := some (migrate_it_units s.it_units),
            vendors := some (migrate_lookup s.vendors),
            service_types := some (migrate_lookup s.service_types),
            categories := some (migrate_lookup s.categories),
            sla_levels := some (migrate_lookup s.sla_levels),
            service_methods := some (migrate_lookup s.service_methods),
            applications := some apps, it_services := some its,
            infrastructure := some (migrate_infrastructure s.infrastructure),
            audit_log := some (migrate_audit s.audit_log) }

/-- database.py init_db as written: `except sqlite3.Error as e` catches any
storage error and turns it into the `st.error` message shown in the UI; the
caller receives no exception.  The result is the message displayed, `none`
when the pass succeeded. -/
def init_db (s : DBState) : Option String :=
  match init_db_raw s with
  | .ok _ => none
  | .error e => some ("Database error during initialization: " ++ e)

/-- Control flow of the application entry point (app.py main and the ui.py
equivalent): after the authentication gate passes, init_db is called, its
outcome is ignored (it returns nothing and swallows storage errors), and
the tabs are rendered unconditionally.  Whether the process serves requests
therefore depends only on authentication. -/
def main_serves (authenticated : Bool) (_s : DBState) : Bool :=
  authenticated

/- ------------------------------------------------------------------
DATA-LAYER CRUD FUNCTIONS — database.py.
------------------------------------------------------------------- -/

/-- Python truthiness of a string field. -/
def truthyStr (s : String) : Bool := !(s == "")

/-- Python truthiness of an optional integer id (None and 0 are falsy). -/
def truthyOpt : Option Int → Bool
  | none => false
  | some n => !(n == 0)

def optVal : Option Int → Value
  | none => Value.null
  | some n => Value.int n

/-- database.py log_change: one row appended to audit_log with a wall-clock
timestamp (threaded in as `now`). -/
def auditAssigns (user_email action item_type item_name details now :
    String) : List (String × Value) :=
  [("timestamp", Value.text now), ("user_email", Value.text user_email),
   ("action", Value.text action), ("item_type", Value.text item_type),
   ("item_name", Value.text item_name), ("details", Value.text details)]

def log_change (user_email action item_type item_name details now : String)
    (s : DBState) : Except String DBState :=
  withTable s.audit_log
    ["timestamp", "user_email", "action", "item_type", "item_name",
     "details"] fun t => do
    let t2 ← t.insertRow
      (auditAssigns user_email action item_type item_name details now)
    .ok (s.setAudit t2)

def itUnitAssigns (name contact_person contact_email : String)
    (total_fte : Int) (budget_amount : ℚ) (notes : String) :
    List (String × Value) :=
  [("name", Value.text name),
   ("contact_person", Value.text contact_person),
   ("contact_email", Value.text contact_email),
   ("total_fte", Value.int total_fte),
   ("budget_amount", Value.real budget_amount),
   ("notes", Value.text notes)]

/-- database.py add_it_unit: validates name and contact person, returns the
duplicate-name message when the name exists, otherwise inserts one row and
logs a CREATE audit record, returning True. -/
def add_it_unit (user_email name contact_person contact_email : String)
    (total_fte : Int) (budget_amount : ℚ) (notes : String) (bulk : Bool)
    (now : String) (s : DBState) : Except String (DBState × PyRet) :=
  if !(truthyStr name) || !(truthyStr contact_person) then
    .ok (s, .pyStr "Unit Name and Contact Person are required.")
  else
    withTable s.it_units ["id", "name"] fun t =>
      if t.rows.any (fun r => getVal t.cols r "name" == Value.text name) then
        .ok (s, .pyStr ("IT Unit \x27" ++ name ++ "\x27 already exists."))
      else do
        let t2 ← t.insertRow (itUnitAssigns name contact_person
          contact_email total_fte budget_amount notes)
        let s2 ← log_change user_email "CREATE" "IT Unit" name
          (if bulk then "Bulk Import" else "") now (s.setItUnits t2)
        .ok (s2, .pyTrue)

/-- app.py add_it_unit (legacy monolith variant): no required-field
validation; on a duplicate name it shows st.warning and returns the
EXISTING id; otherwise inserts, logs, and returns the new rowid. -/
def app_add_it_unit (user_email name contact_person contact_email : String)
    (total_fte : Int) (budget_amount : ℚ) (notes : String)
    (now : String) (s : DBState) : Except String (DBState × PyRet) :=
  withTable s.it_units ["id", "name"] fun t =>
    match t.rows.find?
        (fun r => getVal t.cols r "name" == Value.text name) with
    | some r =>
        .ok (s, .pyInt (match getVal t.cols r "id" with
                        | Value.int n => n | _ => 0))
    | none => do
        let newId := t.nextRowId
        let t2 ← t.insertRow (itUnitAssigns name contact_person
          contact_email total_fte budget_amount notes)
        let s2 ← log_change user_email "CREATE" "IT Unit" name "" now
          (s.setItUnits t2)
        .ok (s2, .pyInt newId)

/-- database.py update_it_unit_details. -/
def update_it_unit_details (user_email : String) (unit_id : Int)
    (name contact_person contact_email : String) (total_fte : Int)
    (budget_amount : ℚ) (notes : String) (now : String) (s : DBState) :
    Except String (DBState × PyRet) :=
  if !(truthyStr name) || !(truthyStr contact_person) then
    .ok (s, .pyStr "Unit Name and Contact Person cannot be empty.")
  else
    withTable s.it_units ["id", "name"] fun t => do
      let t2 ← t.updateWhereChecked (itUnitAssigns name contact_person
        contact_email total_fte budget_amount notes)
        "id" (Value.int unit_id)
      let s2 ← log_change user_email "UPDATE" "IT Unit" name "" now
        (s.setItUnits t2)
      .ok (s2, .pyTrue)

/-- database.py delete_it_unit: deletes the unit row, then nulls
`it_unit_id` on applications, it_services and infrastructure, then logs one
DELETE audit record — all before one commit. -/
def delete_it_unit (user_email : String) (unit_id : Int)
    (unit_name : String) (now : String) (s : DBState) :
    Except String (DBState × PyRet) :=
  withTable s.it_units ["id"] fun tu =>
  withTable s.applications ["it_unit_id"] fun ta =>
  withTable s.it_services ["it_unit_id"] fun ts =>
  withTable s.infrastructure ["it_unit_id"] fun ti => do
    let s3 ← log_change user_email "DELETE" "IT Unit" unit_name "" now
      ((((s.setItUnits
        (tu.deleteWhere "id" (Value.int unit_id))).setApplications
        (ta.updateWhere [("it_unit_id", Value.null)] "it_unit_id"
          (Value.int unit_id))).setItServices
        (ts.updateWhere [("it_unit_id", Value.null)] "it_unit_id"
          (Value.int unit_id))).setInfrastructure
        (ti.updateWhere [("it_unit_id", Value.null)] "it_unit_id"
          (Value.int unit_id)))
    .ok (s3, .pyNone)

/-- The five name-only lookup tables of the Settings tab. -/
inductive LookupTable where
  | vendors | service_types | categories | sla_levels | service_methods
deriving DecidableEq

def LookupTable.tableName : LookupTable → String
  | .vendors => "vendors"
  | .service_types => "service_types"
  | .categories => "categories"
  | .sla_levels => "sla_levels"
  | .service_methods => "service_methods"

def DBState.lookupGet (s : DBState) : LookupTable → Option Table
  | .vendors => s.vendors
  | .service_types => s.service_types
  | .categories => s.categories
  | .sla_levels => s.sla_levels
  | .service_methods => s.service_methods

def DBState.lookupSet (s : DBState) (lt : LookupTable) (t : Table) :
    DBState :=
  match lt with
  | .vendors => { s with vendors := some t }
  | .service_types => { s with service_types := some t }
  | .categories => { s with categories := some t }
  | .sla_levels => { s with sla_levels := some t }
  | .service_methods => { s with service_methods := some t }

/-- database.py add_lookup_item: plain INSERT (a duplicate name raises the
UNIQUE IntegrityError uncaught) plus one CREATE audit record. -/
def add_lookup_item (user_email : String) (lt : LookupTable)
    (name : String) (now : String) (s : DBState) :
    Except String (DBState × PyRet) :=
  withTable (s.lookupGet lt) ["name"] fun t => do
    let t2 ← t.insertRow [("name", Value.text name)]
    let s2 ← log_change user_email "CREATE"
      ("Lookup: " ++ lt.tableName) name "" now (s.lookupSet lt t2)
    .ok (s2, .pyNone)

/-- database.py update_lookup_item. -/
def update_lookup_item (user_email : String) (lt : LookupTable)
    (item_id : Int) (new_name : String) (now : String) (s : DBState) :
    Except String (DBState × PyRet) :=
  withTable (s.lookupGet lt) ["id", "name"] fun t => do
    let t2 ← t.updateWhereChecked [("name", Value.text new_name)]
      "id" (Value.int item_id)
    let s2 ← log_change user_email "UPDATE"
      ("Lookup: " ++ lt.tableName) new_name "" now (s.lookupSet lt t2)
    .ok (s2, .pyNone)

/-- database.py delete_lookup_item. -/
def delete_lookup_item (user_email : String) (lt : LookupTable)
    (item_id : Int) (item_name : String) (now : String) (s : DBState) :
    Except String (DBState × PyRet) :=
  withTable (s.lookupGet lt) ["id"] fun t => do
    let s2 ← log_change user_email "DELETE"
      ("Lookup: " ++ lt.tableName) item_name "" now
      (s.lookupSet lt (t.deleteWhere "id" (Value.int item_id)))
    .ok (s2, .pyNone)

def appInsertAssigns (name : String)
    (it_unit_id vendor_id category_id service_type_id : Option Int)
    (annual_cost : ℚ)
    (renewal_date integrations description similar_apps service_owner
     status : String) : List (String × Value) :=
  [("name", Value.text name), ("it_unit_id", optVal it_unit_id),
   ("vendor_id", optVal vendor_id), ("category_id", optVal category_id),
   ("service_type_id", optVal service_type_id),
   ("annual_cost", Value.real annual_cost),
   ("renewal_date", Value.text renewal_date),
   ("integrations", Value.text integrations),
   ("description", Value.text description),
   ("similar_applications", Value.text similar_apps),
   ("service_owner", Value.text service_owner),
   ("status", Value.text status)]

/-- database.py add_application: requires name, managing IT unit, vendor
and category (Python truthiness, so `not all([...])`); on success inserts
one row and logs one CREATE audit record. -/
def add_application (user_email name : String)
    (it_unit_id vendor_id category_id service_type_id : Option Int)
    (annual_cost : ℚ)
    (renewal_date integrations description similar_apps service_owner
     status : String) (bulk : Bool) (now : String) (s : DBState) :
    Except String (DBState × PyRet) :=
  if !(truthyStr name && truthyOpt it_unit_id && truthyOpt vendor_id &&
       truthyOpt category_id) then
    .ok (s, .pyStr
      "Application Name, Managing IT Unit, Vendor, and Category are required.")
  else
    withTable s.applications [] fun t => do
      let t2 ← t.insertRow (appInsertAssigns name it_unit_id vendor_id
        category_id service_type_id annual_cost renewal_date integrations
        description similar_apps service_owner status)
      let s2 ← log_change user_email "CREATE" "Application" name
        (if bulk then "Bulk Import" else "") now (s.setApplications t2)
      .ok (s2, .pyTrue)

/-- database.py update_application. -/
def update_application (user_email : String) (app_id : Int) (name : String)
    (it_unit_id vendor_id category_id service_type_id : Option Int)
    (annual_cost : ℚ)
    (renewal_date integrations description similar_apps service_owner
     status : String) (now : String) (s : DBState) :
    Except String (DBState × PyRet) :=
  if !(truthyStr name && truthyOpt it_unit_id && truthyOpt vendor_id &&
       truthyOpt category_id) then
    .ok (s, .pyStr
      "Application Name, Managing IT Unit, Vendor, and Category cannot be empty.")
  else
    withTable s.applications ["id"] fun t => do
      let t2 ← t.updateWhereChecked (appInsertAssigns name it_unit_id
        vendor_id category_id service_type_id annual_cost renewal_date
        integrations description similar_apps service_owner status)
        "id" (Value.int app_id)
      let s2 ← log_change user_email "UPDATE" "Application" name "" now
        (s.setApplications t2)
      .ok (s2, .pyTrue)

/-- database.py delete_application. -/
def delete_application (user_email : String) (app_id : Int)
    (app_name : String) (now : String) (s : DBState) :
    Except String (DBState × PyRet) :=
  withTable s.applications ["id"] fun t => do
    let s2 ← log_change user_email "DELETE" "Application" app_name "" now
      (s.setApplications (t.deleteWhere "id" (Value.int app_id)))
    .ok (s2, .pyNone)

def serviceInsertAssigns (name : String) (it_unit_id : Option Int)
    (desc : String) (fte : Int) (deps owner status : String)
    (sla_id method_id : Option Int) (budget : ℚ) :
    List (String × Value) :=
  [("name", Value.text name), ("it_unit_id", optVal it_unit_id),
   ("description", Value.text desc), ("fte_count", Value.int fte),
   ("dependencies", Value.text deps),
   ("service_owner", Value.text owner), ("status", Value.text status),
   ("sla_level_id", optVal sla_id),
   ("service_method_id", optVal method_id),
   ("budget_allocation", Value.real budget)]

/-- database.py add_it_service. -/
def add_it_service (user_email name : String) (it_unit_id : Option Int)
    (desc : String) (fte : Int) (deps owner status : String)
    (sla_id method_id : Option Int) (budget : ℚ) (bulk : Bool)
    (now : String) (s : DBState) : Except String (DBState × PyRet) :=
  if !(truthyStr name) || !(truthyOpt it_unit_id) then
    .ok (s, .pyStr "Service Name and Providing IT Unit are required.")
  else
    withTable s.it_services [] fun t => do
      let t2 ← t.insertRow (serviceInsertAssigns name it_unit_id desc fte
        deps owner status sla_id method_id budget)
      let s2 ← log_change user_email "CREATE" "IT Service" name
        (if bulk then "Bulk Import" else "") now (s.setItServices t2)
      .ok (s2, .pyTrue)

/-- database.py update_it_service. -/
def update_it_service (user_email : String) (service_id : Int)
    (name : String) (it_unit_id : Option Int) (desc : String) (fte : Int)
    (deps owner status : String) (sla_id method_id : Option Int)
    (budget : ℚ) (now : String) (s : DBState) :
    Except String (DBState × PyRet) :=
  if !(truthyStr name) || !(truthyOpt it_unit_id) then
    .ok (s, .pyStr "Service Name and Providing IT Unit cannot be empty.")
  else
    withTable s.it_services ["id"] fun t => do
      let t2 ← t.updateWhereChecked (serviceInsertAssigns name it_unit_id
        desc fte deps owner status sla_id method_id budget)
        "id" (Value.int service_id)
      let s2 ← log_change user_email "UPDATE" "IT Service" name "" now
        (s.setItServices t2)
      .ok (s2, .pyTrue)

/-- database.py delete_it_service. -/
def delete_it_service (user_email : String) (service_id : Int)
    (service_name : String) (now : String) (s : DBState) :
    Except String (DBState × PyRet) :=
  withTable s.it_services ["id"] fun t => do
    let s2 ← log_change user_email "DELETE" "IT Service" service_name ""
      now (s.setItServices (t.deleteWhere "id" (Value.int service_id)))
    .ok (s2, .pyNone)

def infraInsertAssigns (name : String) (it_unit_id vendor_id : Option Int)
    (location status : String) (cost : ℚ) (description : String) :
    List (String × Value) :=
  [("name", Value.text name), ("it_unit_id", optVal it_unit_id),
   ("vendor_id", optVal vendor_id), ("location", Value.text location),
   ("status", Value.text status),
   ("annual_maintenance_cost", Value.real cost),
   ("description", Value.text description)]

/-- database.py add_infrastructure. -/
def add_infrastructure (user_email name : String)
    (it_unit_id vendor_id : Option Int) (location status : String)
    (cost : ℚ) (description : String) (bulk : Bool) (now : String)
    (s : DBState) : Except String (DBState × PyRet) :=
  if !(truthyStr name) || !(truthyOpt it_unit_id) then
    .ok (s, .pyStr "Infrastructure Name and Managing IT Unit are required.")
  else
    withTable s.infrastructure [] fun t => do
      let t2 ← t.insertRow (infraInsertAssigns name it_unit_id vendor_id
        location status cost description)
      let s2 ← log_change user_email "CREATE" "Infrastructure" name
        (if bulk then "Bulk Import" else "") now (s.setInfrastructure t2)
      .ok (s2, .pyTrue)

/-- database.py update_infrastructure. -/
def update_infrastructure (user_email : String) (infra_id : Int)
    (name : String) (it_unit_id vendor_id : Option Int)
    (location status : String) (cost : ℚ) (description : String)
    (now : String) (s : DBState) : Except String (DBState × PyRet) :=
  if !(truthyStr name) || !(truthyOpt it_unit_id) then
    .ok (s, .pyStr
      "Infrastructure Name and Managing IT Unit cannot be empty.")
  else
    withTable s.infrastructure ["id"] fun t => do
      let t2 ← t.updateWhereChecked (infraInsertAssigns name it_unit_id
        vendor_id location status cost description)
        "id" (Value.int infra_id)
      let s2 ← log_change user_email "UPDATE" "Infrastructure" name "" now
        (s.setInfrastructure t2)
      .ok (s2, .pyTrue)

/-- database.py delete_infrastructure. -/
def delete_infrastructure (user_email : String) (infra_id : Int)
    (infra_name : String) (now : String) (s : DBState) :
    Except String (DBState × PyRet) :=
  withTable s.infrastructure ["id"] fun t => do
    let s2 ← log_change user_email "DELETE" "Infrastructure" infra_name ""
      now (s.setInfrastructure (t.deleteWhere "id" (Value.int infra_id)))
    .ok (s2, .pyNone)

/-- `SELECT * FROM t WHERE id = ?` returning `dict(row)` or None: the first
matching row as a column-name/value association. -/
def getDetails (o : Option Table) (rid : Int) :
    Except String (Option (List (String × Value))) :=
  withTable o ["id"] fun t =>
    .ok ((t.rows.find?
      (fun r => getVal t.cols r "id" == Value.int rid)).map
      (fun r => t.cols.zip r))

/-- database.py get_it_unit_details. -/
def get_it_unit_details (unit_id : Int) (s : DBState) :
    Except String (Option (List (String × Value))) :=
  getDetails s.it_units unit_id

/-- database.py get_application_details. -/
def get_application_details (app_id : Int) (s : DBState) :
    Except String (Option (List (String × Value))) :=
  getDetails s.applications app_id

/-- database.py get_it_service_details. -/
def get_it_service_details (service_id : Int) (s : DBState) :
    Except String (Option (List (String × Value))) :=
  getDetails s.it_services service_id

/-- database.py get_infrastructure_details. -/
def get_infrastructure_details (infra_id : Int) (s : DBState) :
    Except String (Option (List (String × Value))) :=
  getDetails s.infrastructure infra_id

/- ------------------------------------------------------------------
OVERLAP REPORTER — the dashboard duplicate detection
(ui.py render_dashboard_tab / app.py main):
`df[df.duplicated(subset=[key], keep=False)].sort_values(by=key)`.
------------------------------------------------------------------- -/

/-- Lexicographic order on character lists by code point. -/
def charListLe : List Char → List Char → Bool
  | [], _ => true
  | _ :: _, [] => false
  | a :: as, b :: bs =>
    if a.toNat < b.toNat then true
    else if b.toNat < a.toNat then false
    else charListLe as bs

/-- Lexicographic order on strings by code point. -/
def strLe (a b : String) : Bool := charListLe a.data b.data

/-- A total order on SQLite values used for `sort_values`: rank by type
(NULL, INTEGER, REAL, TEXT), then by payload.  The dashboard only sorts by
TEXT name/category keys. -/
def valueLe : Value → Value → Bool
  | Value.null, _ => true
  | _, Value.null => false
  | Value.int a, Value.int b => a ≤ b
  | Value.int _, _ => true
  | _, Value.int _ => false
  | Value.real a, Value.real b => a ≤ b
  | Value.real _, _ => true
  | _, Value.real _ => false
  | Value.text a, Value.text b => strLe a b

def insertLe (le : α → α → Bool) (x : α) : List α → List α
  | [] => [x]
  | y :: ys => if le x y then x :: y :: ys else y :: insertLe le x ys

/-- Sorting by a key (`pandas.sort_values`; the order among equal keys is
not specified by the source, which uses an unstable quicksort). -/
def sortLe (le : α → α → Bool) : List α → List α
  | [] => []
  | x :: xs => insertLe le x (sortLe le xs)

/-- The dashboard duplicate report: keep every row whose `key` value occurs
at least twice in the listing (`duplicated(keep=False)`), sorted by the
key. -/
def find_duplicates (rows : List (List Value)) (cols : List String)
    (key : String) : List (List Value) :=
  sortLe (fun a b => valueLe (getVal cols a key) (getVal cols b key))
    (rows.filter (fun r =>
      2 ≤ rows.countP (fun r2 => getVal cols r2 key == getVal cols r key)))

/- ------------------------------------------------------------------
WELL-FORMED STATES AND CONCRETE STATES.
------------------------------------------------------------------- -/

/-- The columns each table carries after a successful migration pass (the
columns the CRUD statements reference). -/
def itUnitCanonCols : List String :=
  ["id", "name", "contact_person", "contact_email", "notes", "total_fte",
   "budget_amount"]

def lookupCanonCols : List String := ["id", "name"]

def infraCanonCols : List String :=
  ["id", "name", "it_unit_id", "vendor_id", "location", "status",
   "annual_maintenance_cost", "description"]

def hasCols (o : Option Table) (req : List String) : Bool :=
  match o with
  | none => false
  | some t => req.all (fun c => c ∈ t.cols)

/-- A well-formed (post-migration) database: every table exists and has at
least the columns the CRUD statements name. -/
def WF (s : DBState) : Bool :=
  hasCols s.it_units itUnitCanonCols &&
  hasCols s.vendors lookupCanonCols &&
  hasCols s.service_types lookupCanonCols &&
  hasCols s.categories lookupCanonCols &&
  hasCols s.sla_levels lookupCanonCols &&
  hasCols s.service_methods lookupCanonCols &&
  hasCols s.applications newAppCols &&
  hasCols s.it_services newServiceCols &&
  hasCols s.infrastructure infraCanonCols &&
  hasCols s.audit_log auditCols

/-- A database file that does not exist yet. -/
def emptyDB : DBState :=
  { it_units := none, vendors := none, service_types := none,
    categories := none, sla_levels := none, service_methods := none,
    applications := none, it_services := none, infrastructure := none,
    audit_log := none }

def emptyLookupTable : Table :=
  { cols := ["id", "name"], nameUnique := true, rows := [] }

/-- The state init_db produces from a fresh file. -/
def dbAfterInit : DBState :=
  { it_units := some { cols := itUnitCanonCols, nameUnique := true,
                       rows := [] },
    vendors := some emptyLookupTable,
    service_types := some emptyLookupTable,
    categories := some emptyLookupTable,
    sla_levels := some emptyLookupTable,
    service_methods := some emptyLookupTable,
    applications := some { cols := newAppCols, nameUnique := false,
                           rows := [] },
    it_services := some { cols := newServiceCols, nameUnique := false,
                          rows := [] },
    infrastructure := some { cols := infraCanonCols, nameUnique := false,
                             rows := [] },
    audit_log := some { cols := auditCols, nameUnique := false,
                        rows := [] } }

theorem init_db_raw_fresh : init_db_raw emptyDB = .ok dbAfterInit := by
  rfl

theorem WF_dbAfterInit : WF dbAfterInit = true := by rfl

/- ------------------------------------------------------------------
LEMMAS ABOUT THE MIGRATION BUILDING BLOCKS.
------------------------------------------------------------------- -/

theorem addMissingCols_nil (t : Table) : addMissingCols t [] = t := rfl

theorem addMissingCols_cons (t : Table) (c : String) (req : List String) :
    addMissingCols t (c :: req) =
      addMissingCols (if c ∈ t.cols then t else t.addCol c) req := rfl

theorem mem_addCol_cols (t : Table) (c d : String) (h : c ∈ t.cols) :
    c ∈ (t.addCol d).cols := by
  simp only [Table.addCol, List.mem_append]
  exact Or.inl h

theorem mem_addCol_self (t : Table) (d : String) : d ∈ (t.addCol d).cols := by
  simp [Table.addCol]

theorem mem_addMissingCols_of_mem (req : List String) (t : Table)
    (c : String) (h : c ∈ t.cols) : c ∈ (addMissingCols t req).cols := by
  induction req generalizing t with
  | nil => exact h
  | cons d ds ih =>
      rw [addMissingCols_cons]
      by_cases hd : d ∈ t.cols
      · rw [if_pos hd]; exact ih t h
      · rw [if_neg hd]; exact ih _ (mem_addCol_cols t c d h)

theorem mem_addMissingCols_of_req (req : List String) (t : Table)
    (c : String) (h : c ∈ req) : c ∈ (addMissingCols t req).cols := by
  induction req generalizing t with
  | nil => cases h
  | cons d ds ih =>
      rw [addMissingCols_cons]
      rcases List.mem_cons.mp h with rfl | hmem
      · by_cases hd : c ∈ t.cols
        · rw [if_pos hd]; exact mem_addMissingCols_of_mem ds t c hd
        · rw [if_neg hd]
          exact mem_addMissingCols_of_mem ds _ c (mem_addCol_self t c)
      · by_cases hd : d ∈ t.cols
        · rw [if_pos hd]; exact ih t hmem
        · rw [if_neg hd]; exact ih _ hmem

theorem addMissingCols_eq_self (req : List String) (t : Table)
    (h : ∀ c ∈ req, c ∈ t.cols) : addMissingCols t req = t := by
  induction req with
  | nil => rfl
  | cons d ds ih =>
      rw [addMissingCols_cons, if_pos (h d (List.mem_cons_self d ds))]
      exact ih (fun c hc => h c (List.mem_cons_of_mem d hc))

theorem not_mem_addMissingCols (req : List String) (t : Table) (c : String)
    (hc : ¬ c ∈ t.cols) (hr : ¬ c ∈ req) :
    ¬ c ∈ (addMissingCols t req).cols := by
  induction req generalizing t with
  | nil => exact hc
  | cons d ds ih =>
      rw [addMissingCols_cons]
      have hcd : c ≠ d := fun h => hr (h ▸ List.mem_cons_self d ds)
      have hr2 : ¬ c ∈ ds := fun h => hr (List.mem_cons_of_mem d h)
      by_cases hd : d ∈ t.cols
      · rw [if_pos hd]; exact ih t hc hr2
      · rw [if_neg hd]
        refine ih _ ?_ hr2
        simp only [Table.addCol, List.mem_append, List.mem_singleton]
        rintro (h | h)
        · exact hc h
        · exact hcd h

theorem addMissingCols_nameUnique (req : List String) (t : Table) :
    (addMissingCols t req).nameUnique = t.nameUnique := by
  induction req generalizing t with
  | nil => rfl
  | cons d ds ih =>
      rw [addMissingCols_cons]
      by_cases hd : d ∈ t.cols
      · rw [if_pos hd]; exact ih t
      · rw [if_neg hd, ih]; rfl

theorem not_mem_renameCol (t : Table) (o n : String) (h : o ≠ n) :
    ¬ o ∈ (t.renameCol o n).cols := by
  simp only [Table.renameCol, List.mem_map, not_exists]
  intro c
  rintro ⟨_, hfc⟩
  by_cases hco : c = o
  · rw [if_pos hco] at hfc; exact h hfc.symm
  · rw [if_neg hco] at hfc; exact hco hfc

/- ------------------------------------------------------------------
IDEMPOTENCE OF EACH SECTION OF init_db.
------------------------------------------------------------------- -/

theorem createIfAbsent_some (t : Table) (cols : List String) (u : Bool) :
    createIfAbsent (some t) cols u = t := rfl

theorem migrate_it_units_idem (o : Option Table) :
    migrate_it_units (some (migrate_it_units o)) = migrate_it_units o := by
  unfold migrate_it_units
  rw [createIfAbsent_some]
  exact addMissingCols_eq_self _ _
    (fun c hc => mem_addMissingCols_of_req _ _ c hc)

theorem migrate_lookup_idem (o : Option Table) :
    migrate_lookup (some (migrate_lookup o)) = migrate_lookup o := rfl

theorem migrate_audit_idem (o : Option Table) :
    migrate_audit (some (migrate_audit o)) = migrate_audit o := rfl

theorem infra_pre_of_desc (t : Table) (h : "description" ∈ t.cols) :
    infra_pre t = t := by
  unfold infra_pre
  rw [if_neg (fun hc => hc.2 h)]

theorem migrate_infrastructure_idem (o : Option Table) :
    migrate_infrastructure (some (migrate_infrastructure o)) =
      migrate_infrastructure o := by
  unfold migrate_infrastructure
  rw [createIfAbsent_some,
      infra_pre_of_desc _ (mem_addMissingCols_of_req _ _ _ (by decide))]
  exact addMissingCols_eq_self _ _
    (fun c hc => mem_addMissingCols_of_req _ _ c hc)

theorem apps_pre_post (t t2 : Table) (h : apps_pre t = .ok t2) :
    ¬ "other_units" ∈ t2.cols := by
  unfold apps_pre at h
  by_cases h1 : "other_units" ∈ t.cols ∧ "description" ∈ t.cols
  · rw [if_pos h1] at h
    unfold rebuild_applications_table at h
    by_cases h2 : rebuildAppSelCols.all (fun c => c ∈ t.cols) = true
    · rw [if_pos h2] at h
      injection h with h
      subst h
      show ¬ "other_units" ∈ newAppCols
      decide
    · rw [if_neg h2] at h; cases h
  · rw [if_neg h1] at h
    by_cases h3 : "other_units" ∈ t.cols
    · rw [if_pos h3] at h
      injection h with h
      subst h
      exact not_mem_renameCol t _ _ (by decide)
    · rw [if_neg h3] at h
      injection h with h
      subst h
      exact h3

theorem apps_pre_of_no_other (t : Table)
    (h : ¬ "other_units" ∈ t.cols) : apps_pre t = .ok t := by
  unfold apps_pre
  rw [if_neg (fun hc => h hc.1), if_neg h]

theorem migrate_applications_idem (o : Option Table) (t : Table)
    (h : migrate_applications o = .ok t) :
    migrate_applications (some t) = .ok t := by
  unfold migrate_applications at h ⊢
  rw [createIfAbsent_some]
  cases hp : apps_pre (createIfAbsent o ["id", "name"] false) with
  | error e => rw [hp] at h; cases h
  | ok t2 =>
      rw [hp] at h
      have h3 := Except.ok.inj h
      subst h3
      rw [apps_pre_of_no_other _
        (not_mem_addMissingCols _ _ _ (apps_pre_post _ _ hp) (by decide))]
      exact congrArg Except.ok (addMissingCols_eq_self _ _
        (fun c hc => mem_addMissingCols_of_req _ _ c hc))

theorem services_pre_post (t t2 : Table) (h : services_pre t = .ok t2) :
    t2.nameUnique = false := by
  unfold services_pre at h
  by_cases h1 : t.nameUnique = true
  · rw [if_pos h1] at h
    unfold rebuild_services_table at h
    by_cases h2 : newServiceCols.all (fun c => c ∈ t.cols) = true
    · rw [if_pos h2] at h
      injection h with h
      subst h
      rfl
    · rw [if_neg h2] at h; cases h
  · rw [if_neg h1] at h
    injection h with h
    subst h
    simpa using h1

theorem services_pre_of_not_unique (t : Table)
    (h : t.nameUnique = false) : services_pre t = .ok t := by
  simp [services_pre, h]

theorem migrate_it_services_idem (o : Option Table) (t : Table)
    (h : migrate_it_services o = .ok t) :
    migrate_it_services (some t) = .ok t := by
  unfold migrate_it_services at h ⊢
  rw [createIfAbsent_some]
  cases hp : services_pre
      (createIfAbsent o ["id", "name", "description"] false) with
  | error e => rw [hp] at h; cases h
  | ok t2 =>
      rw [hp] at h
      have h3 := Except.ok.inj h
      subst h3
      rw [services_pre_of_not_unique _
        (by rw [addMissingCols_nameUnique]; exact services_pre_post _ _ hp)]
      exact congrArg Except.ok (addMissingCols_eq_self _ _
        (fun c hc => mem_addMissingCols_of_req _ _ c hc))

/-- C1.  The schema migration pass is idempotent: whenever a first run of
init_db succeeds and turns the database file `s` into `s2`, running it a
second time on `s2` succeeds and returns `s2` itself — identical table
structures, no row lost or altered. -/
theorem init_db_idempotent (s s2 : DBState)
    (h : init_db_raw s = .ok s2) : init_db_raw s2 = .ok s2 := by
  unfold init_db_raw at h
  cases ha : migrate_applications s.applications with
  | error e => rw [ha] at h; cases h
  | ok apps =>
    rw [ha] at h
    cases hb : migrate_it_services s.it_services with
    | error e => rw [hb] at h; cases h
    | ok its =>
      rw [hb] at h
      have h3 := Except.ok.inj h
      subst h3
      unfold init_db_raw
      simp only [migrate_applications_idem _ _ ha,
        migrate_it_services_idem _ _ hb, migrate_it_units_idem,
        migrate_lookup_idem, migrate_infrastructure_idem,
        migrate_audit_idem]

/-- Witness for C1: on a fresh (absent) database file the first run
produces `dbAfterInit` and the second run is the identity on it. -/
theorem init_db_idempotent_witness :
    init_db_raw emptyDB = .ok dbAfterInit ∧
      init_db_raw dbAfterInit = .ok dbAfterInit :=
  ⟨by rfl, init_db_idempotent emptyDB dbAfterInit (by rfl)⟩

/- ------------------------------------------------------------------
C7 — what happens to a storage error raised during the migration pass.
------------------------------------------------------------------- -/

/-- A legacy database file on which the migration pass genuinely fails:
the applications table still has both `other_units` and `description`, so
init_db rebuilds it, but the old table lacks the other columns the rebuild
SELECT names (`it_unit_id`, ...), which SQLite rejects. -/
def badAppLegacyTable : Table :=
  { cols := ["id", "name", "other_units", "description"],
    nameUnique := false, rows := [] }

def badMigrationState : DBState :=
  { emptyDB with applications := some badAppLegacyTable }

/-- Counterexample to C7.  The migration pass raises a storage error on
`badMigrationState`, yet init_db converts it into a UI message instead of a
fatal error, and the entry point still serves requests (authentication is
the only gate): the process does proceed against the half-migrated store. -/
theorem init_db_error_not_fatal_cx :
    init_db_raw badMigrationState = .error "no such column" ∧
      init_db badMigrationState =
        some "Database error during initialization: no such column" ∧
      main_serves true badMigrationState = true :=
  ⟨by rfl, by rfl, by rfl⟩

/-- C7 as amended.  A storage error during the migration pass is caught
inside init_db and reduced to an error message shown in the UI; it is not
surfaced to the caller as a fatal initialization error, and the process
proceeds to serve requests against the possibly half-migrated store. -/
theorem init_db_error_swallowed (s : DBState) (e : String)
    (h : init_db_raw s = .error e) :
    init_db s = some ("Database error during initialization: " ++ e) ∧
      main_serves true s = true := by
  unfold init_db
  rw [h]
  exact ⟨rfl, rfl⟩

/-- Witness for the amended C7 at the concrete failing store. -/
theorem init_db_error_swallowed_witness :
    init_db badMigrationState =
        some ("Database error during initialization: " ++ "no such column")
      ∧ main_serves true badMigrationState = true :=
  init_db_error_swallowed badMigrationState "no such column" (by rfl)

/- ------------------------------------------------------------------
MACHINERY FOR REASONING ABOUT THE CRUD LAYER ON WELL-FORMED STATES.
------------------------------------------------------------------- -/

theorem hasCols_elim (o : Option Table) (req : List String)
    (h : hasCols o req = true) :
    ∃ t, o = some t ∧ req.all (fun c => c ∈ t.cols) = true := by
  cases o with
  | none => simp [hasCols] at h
  | some t => exact ⟨t, rfl, h⟩

theorem WF_unfold (s : DBState) (h : WF s = true) :
    hasCols s.it_units itUnitCanonCols = true ∧
    hasCols s.vendors lookupCanonCols = true ∧
    hasCols s.service_types lookupCanonCols = true ∧
    hasCols s.categories lookupCanonCols = true ∧
    hasCols s.sla_levels lookupCanonCols = true ∧
    hasCols s.service_methods lookupCanonCols = true ∧
    hasCols s.applications newAppCols = true ∧
    hasCols s.it_services newServiceCols = true ∧
    hasCols s.infrastructure infraCanonCols = true ∧
    hasCols s.audit_log auditCols = true := by
  simp only [WF, Bool.and_eq_true] at h
  exact ⟨h.1.1.1.1.1.1.1.1.1, h.1.1.1.1.1.1.1.1.2, h.1.1.1.1.1.1.1.2,
    h.1.1.1.1.1.1.2, h.1.1.1.1.1.2, h.1.1.1.1.2, h.1.1.1.2, h.1.1.2,
    h.1.2, h.2⟩

theorem all_sub (req canon : List String) (t : Table)
    (hsub : ∀ c, c ∈ req → c ∈ canon)
    (h : canon.all (fun c => c ∈ t.cols) = true) :
    req.all (fun c => c ∈ t.cols) = true := by
  rw [List.all_eq_true] at h ⊢
  intro c hc
  exact h c (hsub c hc)

theorem withTable_eq {α : Type} (o : Option Table) (t : Table)
    (req : List String) (ht : o = some t)
    (hreq : req.all (fun c => c ∈ t.cols) = true)
    (k : Table → Except String α) : withTable o req k = k t := by
  subst ht
  show (if (req.all fun c => decide (c ∈ t.cols)) = true then k t
        else Except.error "no such column") = k t
  rw [if_pos hreq]

theorem bind_ok_ex {α β : Type} (a : α) (f : α → Except String β) :
    (Except.ok a >>= f : Except String β) = f a := rfl

theorem insertRow_ok (t : Table) (assigns : List (String × Value))
    (hcols : assigns.all (fun cv => cv.1 ∈ t.cols) = true)
    (hdup : dupNameOnInsert t assigns = false) :
    t.insertRow assigns = .ok { t with rows := t.rows ++ [newRowFor t assigns] } := by
  unfold Table.insertRow
  rw [hcols, hdup]
  rfl

theorem updateWhereChecked_ok (t : Table) (assigns : List (String × Value))
    (wcol : String) (wval : Value)
    (hcols : assigns.all (fun cv => cv.1 ∈ t.cols) = true)
    (hw : wcol ∈ t.cols)
    (hnodup : (t.nameUnique && assigns.any (fun cv => cv.1 == "name") &&
      hasDupNames (t.updateWhere assigns wcol wval).cols
        (t.updateWhere assigns wcol wval).rows) = false) :
    t.updateWhereChecked assigns wcol wval =
      .ok (t.updateWhere assigns wcol wval) := by
  unfold Table.updateWhereChecked
  rw [hcols]
  simp only [decide_eq_true hw, Bool.not_true, Bool.or_self,
    Bool.false_eq_true, if_false]
  rw [if_neg (by rw [hnodup]; exact Bool.false_ne_true)]

theorem assigns_all_cols (assigns : List (String × Value))
    (canon : List String) (t : Table)
    (hsub : ∀ cv ∈ assigns, cv.1 ∈ canon)
    (h : canon.all (fun c => c ∈ t.cols) = true) :
    assigns.all (fun cv => cv.1 ∈ t.cols) = true := by
  rw [List.all_eq_true] at h ⊢
  intro cv hcv
  exact h cv.1 (hsub cv hcv)

theorem log_change_eq (s : DBState) (ta : Table)
    (u a ty nm det now : String) (ht : s.audit_log = some ta)
    (hcols : auditCols.all (fun c => c ∈ ta.cols) = true) :
    log_change u a ty nm det now s =
      .ok (s.setAudit { ta with rows := ta.rows ++
            [newRowFor ta (auditAssigns u a ty nm det now)] }) := by
  have hsub : ∀ cv ∈ auditAssigns u a ty nm det now, cv.1 ∈ auditCols := by
    intro cv hcv
    simp only [auditAssigns, List.mem_cons, List.not_mem_nil, or_false]
      at hcv
    rcases hcv with rfl | rfl | rfl | rfl | rfl | rfl <;> simp [auditCols]
  have hdup : dupNameOnInsert ta (auditAssigns u a ty nm det now) = false :=
    by
    unfold dupNameOnInsert
    rw [show lookupA (auditAssigns u a ty nm det now) "name" = none
      from rfl]
    exact Bool.and_false _
  unfold log_change
  rw [withTable_eq s.audit_log ta _ ht
    (all_sub _ auditCols ta (by decide) hcols)]
  rw [insertRow_ok ta _ (assigns_all_cols _ auditCols ta hsub hcols) hdup]
  rfl

theorem bind_err_ex {α β : Type} (e : String)
    (f : α → Except String β) :
    (Except.error e >>= f : Except String β) = Except.error e := rfl

theorem insertRow_err (t : Table) (assigns : List (String × Value))
    (hcols : assigns.all (fun cv => cv.1 ∈ t.cols) = true)
    (hdup : dupNameOnInsert t assigns = true) :
    t.insertRow assigns = .error "UNIQUE constraint failed" := by
  unfold Table.insertRow
  rw [hcols, hdup]
  rfl

theorem updateWhereChecked_err (t : Table)
    (assigns : List (String × Value)) (wcol : String) (wval : Value)
    (hcols : assigns.all (fun cv => cv.1 ∈ t.cols) = true)
    (hw : wcol ∈ t.cols)
    (hdup : (t.nameUnique && assigns.any (fun cv => cv.1 == "name") &&
      hasDupNames (t.updateWhere assigns wcol wval).cols
        (t.updateWhere assigns wcol wval).rows) = true) :
    t.updateWhereChecked assigns wcol wval =
      .error "UNIQUE constraint failed" := by
  unfold Table.updateWhereChecked
  rw [hcols]
  simp only [decide_eq_true hw, Bool.not_true, Bool.or_self,
    Bool.false_eq_true, if_false]
  rw [if_pos hdup]

theorem itUnitAssigns_sub (name cp ce : String) (fte : Int) (ba : ℚ)
    (notes : String) :
    ∀ cv ∈ itUnitAssigns name cp ce fte ba notes,
      cv.1 ∈ itUnitCanonCols := by
  intro cv hcv
  simp only [itUnitAssigns, List.mem_cons, List.not_mem_nil, or_false]
    at hcv
  rcases hcv with rfl | rfl | rfl | rfl | rfl | rfl <;>
    simp [itUnitCanonCols]

theorem appInsertAssigns_sub (name : String)
    (it_unit_id vendor_id category_id service_type_id : Option Int)
    (annual_cost : ℚ) (rd ig de sa so st : String) :
    ∀ cv ∈ appInsertAssigns name it_unit_id vendor_id category_id
      service_type_id annual_cost rd ig de sa so st,
      cv.1 ∈ newAppCols := by
  intro cv hcv
  simp only [appInsertAssigns, List.mem_cons, List.not_mem_nil, or_false]
    at hcv
  rcases hcv with
    rfl | rfl | rfl | rfl | rfl | rfl | rfl | rfl | rfl | rfl | rfl | rfl
    <;> simp [newAppCols]

theorem serviceInsertAssigns_sub (name : String) (iu : Option Int)
    (desc : String) (fte : Int) (deps owner status : String)
    (sla_id method_id : Option Int) (budget : ℚ) :
    ∀ cv ∈ serviceInsertAssigns name iu desc fte deps owner status sla_id
      method_id budget, cv.1 ∈ newServiceCols := by
  intro cv hcv
  simp only [serviceInsertAssigns, List.mem_cons, List.not_mem_nil,
    or_false] at hcv
  rcases hcv with rfl | rfl | rfl | rfl | rfl | rfl | rfl | rfl | rfl | rfl
    <;> simp [newServiceCols]

theorem infraInsertAssigns_sub (name : String) (iu vi : Option Int)
    (location status : String) (cost : ℚ) (description : String) :
    ∀ cv ∈ infraInsertAssigns name iu vi location status cost description,
      cv.1 ∈ infraCanonCols := by
  intro cv hcv
  simp only [infraInsertAssigns, List.mem_cons, List.not_mem_nil, or_false]
    at hcv
  rcases hcv with rfl | rfl | rfl | rfl | rfl | rfl | rfl <;>
    simp [infraCanonCols]

theorem dupName_itUnit (t : Table) (name cp ce : String) (fte : Int)
    (ba : ℚ) (notes : String) :
    dupNameOnInsert t (itUnitAssigns name cp ce fte ba notes) =
      (t.nameUnique &&
        t.rows.any (fun r => getVal t.cols r "name" == Value.text name)) :=
  rfl

theorem dupName_app (t : Table) (name : String) (a b c d : Option Int)
    (cost : ℚ) (rd ig de sa so st : String) :
    dupNameOnInsert t (appInsertAssigns name a b c d cost rd ig de sa so
      st) =
      (t.nameUnique &&
        t.rows.any (fun r => getVal t.cols r "name" == Value.text name)) :=
  rfl

theorem dupName_service (t : Table) (name : String) (iu : Option Int)
    (desc : String) (fte : Int) (deps owner status : String)
    (sla_id method_id : Option Int) (budget : ℚ) :
    dupNameOnInsert t (serviceInsertAssigns name iu desc fte deps owner
      status sla_id method_id budget) =
      (t.nameUnique &&
        t.rows.any (fun r => getVal t.cols r "name" == Value.text name)) :=
  rfl

theorem dupName_infra (t : Table) (name : String) (iu vi : Option Int)
    (location status : String) (cost : ℚ) (description : String) :
    dupNameOnInsert t (infraInsertAssigns name iu vi location status cost
      description) =
      (t.nameUnique &&
        t.rows.any (fun r => getVal t.cols r "name" == Value.text name)) :=
  rfl

theorem dupName_lookup (t : Table) (name : String) :
    dupNameOnInsert t [("name", Value.text name)] =
      (t.nameUnique &&
        t.rows.any (fun r => getVal t.cols r "name" == Value.text name)) :=
  rfl

theorem lookupSet_audit (s : DBState) (lt : LookupTable) (t : Table) :
    (s.lookupSet lt t).audit_log = s.audit_log := by
  cases lt <;> rfl

theorem lookupAssign_sub (name : String) (t : Table)
    (hcols : lookupCanonCols.all (fun c => c ∈ t.cols) = true) :
    ([("name", Value.text name)] : List (String × Value)).all
      (fun cv => cv.1 ∈ t.cols) = true := by
  refine assigns_all_cols _ lookupCanonCols t ?_ hcols
  intro cv hcv
  simp only [List.mem_cons, List.not_mem_nil, or_false] at hcv
  rcases hcv with rfl
  simp [lookupCanonCols]

theorem add_lookup_item_eq (s : DBState) (lt : LookupTable) (t ta : Table)
    (u name now : String)
    (ht : s.lookupGet lt = some t)
    (hcols : lookupCanonCols.all (fun c => c ∈ t.cols) = true)
    (hta : s.audit_log = some ta)
    (hacols : auditCols.all (fun c => c ∈ ta.cols) = true)
    (hdup : dupNameOnInsert t [("name", Value.text name)] = false) :
    add_lookup_item u lt name now s =
      .ok ({ s.lookupSet lt { t with rows := t.rows ++
               [newRowFor t [("name", Value.text name)]] } with
             audit_log := some { ta with rows := ta.rows ++
               [newRowFor ta (auditAssigns u "CREATE"
                 ("Lookup: " ++ lt.tableName) name "" now)] } },
           .pyNone) := by
  unfold add_lookup_item
  rw [withTable_eq (s.lookupGet lt) t _ ht
    (all_sub _ lookupCanonCols t (by decide) hcols)]
  rw [insertRow_ok t _ (lookupAssign_sub name t hcols) hdup]
  rw [bind_ok_ex]
  rw [log_change_eq _ ta u "CREATE" ("Lookup: " ++ lt.tableName) name ""
    now (by rw [lookupSet_audit]; exact hta) hacols]
  rfl

theorem add_lookup_item_err (s : DBState) (lt : LookupTable) (t : Table)
    (u name now : String)
    (ht : s.lookupGet lt = some t)
    (hcols : lookupCanonCols.all (fun c => c ∈ t.cols) = true)
    (hdup : dupNameOnInsert t [("name", Value.text name)] = true) :
    add_lookup_item u lt name now s =
      .error "UNIQUE constraint failed" := by
  unfold add_lookup_item
  rw [withTable_eq (s.lookupGet lt) t _ ht
    (all_sub _ lookupCanonCols t (by decide) hcols)]
  rw [insertRow_err t _ (lookupAssign_sub name t hcols) hdup]
  rfl

theorem update_lookup_item_eq (s : DBState) (lt : LookupTable)
    (t ta : Table) (u nm now : String) (item_id : Int)
    (ht : s.lookupGet lt = some t)
    (hcols : lookupCanonCols.all (fun c => c ∈ t.cols) = true)
    (hta : s.audit_log = some ta)
    (hacols : auditCols.all (fun c => c ∈ ta.cols) = true)
    (hnodup : (t.nameUnique &&
      ([("name", Value.text nm)] : List (String × Value)).any
        (fun cv => cv.1 == "name") &&
      hasDupNames (t.updateWhere [("name", Value.text nm)] "id"
          (Value.int item_id)).cols
        (t.updateWhere [("name", Value.text nm)] "id"
          (Value.int item_id)).rows) = false) :
    update_lookup_item u lt item_id nm now s =
      .ok ({ s.lookupSet lt (t.updateWhere [("name", Value.text nm)] "id"
               (Value.int item_id)) with
             audit_log := some { ta with rows := ta.rows ++
               [newRowFor ta (auditAssigns u "UPDATE"
                 ("Lookup: " ++ lt.tableName) nm "" now)] } },
           .pyNone) := by
  unfold update_lookup_item
  rw [withTable_eq (s.lookupGet lt) t _ ht
    (all_sub _ lookupCanonCols t (by decide) hcols)]
  rw [updateWhereChecked_ok t _ "id" (Value.int item_id)
    (lookupAssign_sub nm t hcols)
    (by rw [List.all_eq_true] at hcols
        have := hcols "id" (by simp [lookupCanonCols])
        simpa using this)
    hnodup]
  rw [bind_ok_ex]
  rw [log_change_eq _ ta u "UPDATE" ("Lookup: " ++ lt.tableName) nm ""
    now (by rw [lookupSet_audit]; exact hta) hacols]
  rfl

theorem delete_lookup_item_eq (s : DBState) (lt : LookupTable)
    (t ta : Table) (u nm now : String) (item_id : Int)
    (ht : s.lookupGet lt = some t)
    (hcols : lookupCanonCols.all (fun c => c ∈ t.cols) = true)
    (hta : s.audit_log = some ta)
    (hacols : auditCols.all (fun c => c ∈ ta.cols) = true) :
    delete_lookup_item u lt item_id nm now s =
      .ok ({ s.lookupSet lt (t.deleteWhere "id" (Value.int item_id)) with
             audit_log := some { ta with rows := ta.rows ++
               [newRowFor ta (auditAssigns u "DELETE"
                 ("Lookup: " ++ lt.tableName) nm "" now)] } },
           .pyNone) := by
  unfold delete_lookup_item
  rw [withTable_eq (s.lookupGet lt) t _ ht
    (all_sub _ lookupCanonCols t (by decide) hcols)]
  rw [log_change_eq _ ta u "DELETE" ("Lookup: " ++ lt.tableName) nm ""
    now (by rw [lookupSet_audit]; exact hta) hacols]
  rfl

theorem setItUnits_audit (s : DBState) (t : Table) :
    (s.setItUnits t).audit_log = s.audit_log := rfl

theorem setApplications_audit (s : DBState) (t : Table) :
    (s.setApplications t).audit_log = s.audit_log := rfl

theorem setItServices_audit (s : DBState) (t : Table) :
    (s.setItServices t).audit_log = s.audit_log := rfl

theorem setInfrastructure_audit (s : DBState) (t : Table) :
    (s.setInfrastructure t).audit_log = s.audit_log := rfl

theorem add_it_unit_missing (s : DBState)
    (u name cp ce notes now : String) (fte : Int) (ba : ℚ) (bulk : Bool)
    (h : (!(truthyStr name) || !(truthyStr cp)) = true) :
    add_it_unit u name cp ce fte ba notes bulk now s =
      .ok (s, .pyStr "Unit Name and Contact Person are required.") := by
  unfold add_it_unit
  rw [if_pos h]

theorem add_it_unit_exists (s : DBState) (t : Table)
    (u name cp ce notes now : String) (fte : Int) (ba : ℚ) (bulk : Bool)
    (ht : s.it_units = some t)
    (hcols : itUnitCanonCols.all (fun c => c ∈ t.cols) = true)
    (hname : truthyStr name = true) (hcp : truthyStr cp = true)
    (hex : t.rows.any
      (fun r => getVal t.cols r "name" == Value.text name) = true) :
    add_it_unit u name cp ce fte ba notes bulk now s =
      .ok (s, .pyStr ("IT Unit \x27" ++ name ++ "\x27 already exists.")) :=
  by
  unfold add_it_unit
  rw [if_neg (by simp [hname, hcp])]
  rw [withTable_eq s.it_units t _ ht
    (all_sub _ itUnitCanonCols t (by decide) hcols)]
  rw [if_pos hex]

theorem add_it_unit_eq (s : DBState) (t ta : Table)
    (u name cp ce notes now : String) (fte : Int) (ba : ℚ) (bulk : Bool)
    (ht : s.it_units = some t)
    (hcols : itUnitCanonCols.all (fun c => c ∈ t.cols) = true)
    (hta : s.audit_log = some ta)
    (hacols : auditCols.all (fun c => c ∈ ta.cols) = true)
    (hname : truthyStr name = true) (hcp : truthyStr cp = true)
    (hnew : t.rows.any
      (fun r => getVal t.cols r "name" == Value.text name) = false) :
    add_it_unit u name cp ce fte ba notes bulk now s =
      .ok ((s.setItUnits { t with rows := t.rows ++
             [newRowFor t (itUnitAssigns name cp ce fte ba notes)] }
           ).setAudit { ta with rows := ta.rows ++
             [newRowFor ta (auditAssigns u "CREATE" "IT Unit" name
               (if bulk then "Bulk Import" else "") now)] },
           .pyTrue) := by
  unfold add_it_unit
  rw [if_neg (by simp [hname, hcp])]
  rw [withTable_eq s.it_units t _ ht
    (all_sub _ itUnitCanonCols t (by decide) hcols)]
  rw [if_neg (by simp [hnew])]
  rw [insertRow_ok t _
    (assigns_all_cols _ itUnitCanonCols t
      (itUnitAssigns_sub name cp ce fte ba notes) hcols)
    (by rw [dupName_itUnit, hnew]; exact Bool.and_false _)]
  rw [bind_ok_ex]
  rw [log_change_eq _ ta u "CREATE" "IT Unit" name
    (if bulk then "Bulk Import" else "") now
    (by rw [setItUnits_audit]; exact hta) hacols]
  rfl

theorem update_it_unit_details_missing (s : DBState)
    (u name cp ce notes now : String) (unit_id : Int) (fte : Int) (ba : ℚ)
    (h : (!(truthyStr name) || !(truthyStr cp)) = true) :
    update_it_unit_details u unit_id name cp ce fte ba notes now s =
      .ok (s, .pyStr "Unit Name and Contact Person cannot be empty.") := by
  unfold update_it_unit_details
  rw [if_pos h]

theorem update_it_unit_details_eq (s : DBState) (t ta : Table)
    (u name cp ce notes now : String) (unit_id : Int) (fte : Int) (ba : ℚ)
    (ht : s.it_units = some t)
    (hcols : itUnitCanonCols.all (fun c => c ∈ t.cols) = true)
    (hta : s.audit_log = some ta)
    (hacols : auditCols.all (fun c => c ∈ ta.cols) = true)
    (hname : truthyStr name = true) (hcp : truthyStr cp = true)
    (hnodup : (t.nameUnique &&
      (itUnitAssigns name cp ce fte ba notes).any
        (fun cv => cv.1 == "name") &&
      hasDupNames (t.updateWhere (itUnitAssigns name cp ce fte ba notes)
          "id" (Value.int unit_id)).cols
        (t.updateWhere (itUnitAssigns name cp ce fte ba notes)
          "id" (Value.int unit_id)).rows) = false) :
    update_it_unit_details u unit_id name cp ce fte ba notes now s =
      .ok ((s.setItUnits
             (t.updateWhere (itUnitAssigns name cp ce fte ba notes)
               "id" (Value.int unit_id))).setAudit
           { ta with rows := ta.rows ++
             [newRowFor ta
               (auditAssigns u "UPDATE" "IT Unit" name "" now)] },
           .pyTrue) := by
  unfold update_it_unit_details
  rw [if_neg (by simp [hname, hcp])]
  rw [withTable_eq s.it_units t _ ht
    (all_sub _ itUnitCanonCols t (by decide) hcols)]
  rw [updateWhereChecked_ok t _ "id" (Value.int unit_id)
    (assigns_all_cols _ itUnitCanonCols t
      (itUnitAssigns_sub name cp ce fte ba notes) hcols)
    (by rw [List.all_eq_true] at hcols
        have := hcols "id" (by simp [itUnitCanonCols])
        simpa using this)
    hnodup]
  rw [bind_ok_ex]
  rw [log_change_eq _ ta u "UPDATE" "IT Unit" name "" now
    (by rw [setItUnits_audit]; exact hta) hacols]
  rfl

theorem update_it_unit_details_err (s : DBState) (t : Table)
    (u name cp ce notes now : String) (unit_id : Int) (fte : Int) (ba : ℚ)
    (ht : s.it_units = some t)
    (hcols : itUnitCanonCols.all (fun c => c ∈ t.cols) = true)
    (hname : truthyStr name = true) (hcp : truthyStr cp = true)
    (hdup : (t.nameUnique &&
      (itUnitAssigns name cp ce fte ba notes).any
        (fun cv => cv.1 == "name") &&
      hasDupNames (t.updateWhere (itUnitAssigns name cp ce fte ba notes)
          "id" (Value.int unit_id)).cols
        (t.updateWhere (itUnitAssigns name cp ce fte ba notes)
          "id" (Value.int unit_id)).rows) = true) :
    update_it_unit_details u unit_id name cp ce fte ba notes now s =
      .error "UNIQUE constraint failed" := by
  unfold update_it_unit_details
  rw [if_neg (by simp [hname, hcp])]
  rw [withTable_eq s.it_units t _ ht
    (all_sub _ itUnitCanonCols t (by decide) hcols)]
  rw [updateWhereChecked_err t _ "id" (Value.int unit_id)
    (assigns_all_cols _ itUnitCanonCols t
      (itUnitAssigns_sub name cp ce fte ba notes) hcols)
    (by rw [List.all_eq_true] at hcols
        have := hcols "id" (by simp [itUnitCanonCols])
        simpa using this)
    hdup]
  rfl

theorem delete_it_unit_eq (s : DBState) (tu tapp tsvc tinf ta : Table)
    (u unm now : String) (unit_id : Int)
    (htu : s.it_units = some tu)
    (hucols : itUnitCanonCols.all (fun c => c ∈ tu.cols) = true)
    (htapp : s.applications = some tapp)
    (happ : newAppCols.all (fun c => c ∈ tapp.cols) = true)
    (htsvc : s.it_services = some tsvc)
    (hsvc : newServiceCols.all (fun c => c ∈ tsvc.cols) = true)
    (htinf : s.infrastructure = some tinf)
    (hinf : infraCanonCols.all (fun c => c ∈ tinf.cols) = true)
    (hta : s.audit_log = some ta)
    (hacols : auditCols.all (fun c => c ∈ ta.cols) = true) :
    delete_it_unit u unit_id unm now s =
      .ok ((((((s.setItUnits
             (tu.deleteWhere "id" (Value.int unit_id))).setApplications
             (tapp.updateWhere [("it_unit_id", Value.null)] "it_unit_id"
               (Value.int unit_id))).setItServices
             (tsvc.updateWhere [("it_unit_id", Value.null)] "it_unit_id"
               (Value.int unit_id))).setInfrastructure
             (tinf.updateWhere [("it_unit_id", Value.null)] "it_unit_id"
               (Value.int unit_id))).setAudit
           { ta with rows := ta.rows ++
             [newRowFor ta
               (auditAssigns u "DELETE" "IT Unit" unm "" now)] }),
           .pyNone) := by
  unfold delete_it_unit
  rw [withTable_eq s.it_units tu _ htu
    (all_sub _ itUnitCanonCols tu (by decide) hucols)]
  rw [withTable_eq s.applications tapp _ htapp
    (all_sub _ newAppCols tapp (by decide) happ)]
  rw [withTable_eq s.it_services tsvc _ htsvc
    (all_sub _ newServiceCols tsvc (by decide) hsvc)]
  rw [withTable_eq s.infrastructure tinf _ htinf
    (all_sub _ infraCanonCols tinf (by decide) hinf)]
  rw [log_change_eq _ ta u "DELETE" "IT Unit" unm "" now
    (by rw [setInfrastructure_audit, setItServices_audit,
            setApplications_audit, setItUnits_audit]; exact hta) hacols]
  rfl

theorem add_application_missing (s : DBState) (u name : String)
    (a b c d : Option Int) (cost : ℚ) (rd ig de sa so st : String)
    (bulk : Bool) (now : String)
    (h : (truthyStr name && truthyOpt a && truthyOpt b && truthyOpt c)
      = false) :
    add_application u name a b c d cost rd ig de sa so st bulk now s =
      .ok (s, .pyStr
        "Application Name, Managing IT Unit, Vendor, and Category are required.") := by
  unfold add_application
  rw [if_pos (by rw [h]; rfl)]

theorem add_application_eq (s : DBState) (t ta : Table) (u name : String)
    (a b c d : Option Int) (cost : ℚ) (rd ig de sa so st : String)
    (bulk : Bool) (now : String)
    (ht : s.applications = some t)
    (hcols : newAppCols.all (fun cc => cc ∈ t.cols) = true)
    (hta : s.audit_log = some ta)
    (hacols : auditCols.all (fun cc => cc ∈ ta.cols) = true)
    (hguard : (truthyStr name && truthyOpt a && truthyOpt b && truthyOpt c)
      = true)
    (hdup : (t.nameUnique && t.rows.any
      (fun r => getVal t.cols r "name" == Value.text name)) = false) :
    add_application u name a b c d cost rd ig de sa so st bulk now s =
      .ok ((s.setApplications { t with rows := t.rows ++
             [newRowFor t (appInsertAssigns name a b c d cost rd ig de sa
               so st)] }).setAudit
           { ta with rows := ta.rows ++
             [newRowFor ta (auditAssigns u "CREATE" "Application" name
               (if bulk then "Bulk Import" else "") now)] },
           .pyTrue) := by
  unfold add_application
  rw [if_neg (by rw [hguard]; simp)]
  rw [withTable_eq s.applications t _ ht (by rfl)]
  rw [insertRow_ok t _
    (assigns_all_cols _ newAppCols t
      (appInsertAssigns_sub name a b c d cost rd ig de sa so st) hcols)
    (by rw [dupName_app]; exact hdup)]
  rw [bind_ok_ex]
  rw [log_change_eq _ ta u "CREATE" "Application" name
    (if bulk then "Bulk Import" else "") now
    (by rw [setApplications_audit]; exact hta) hacols]
  rfl

theorem add_application_err (s : DBState) (t : Table) (u name : String)
    (a b c d : Option Int) (cost : ℚ) (rd ig de sa so st : String)
    (bulk : Bool) (now : String)
    (ht : s.applications = some t)
    (hcols : newAppCols.all (fun cc => cc ∈ t.cols) = true)
    (hguard : (truthyStr name && truthyOpt a && truthyOpt b && truthyOpt c)
      = true)
    (hdup : (t.nameUnique && t.rows.any
      (fun r => getVal t.cols r "name" == Value.text name)) = true) :
    add_application u name a b c d cost rd ig de sa so st bulk now s =
      .error "UNIQUE constraint failed" := by
  unfold add_application
  rw [if_neg (by rw [hguard]; simp)]
  rw [withTable_eq s.applications t _ ht (by rfl)]
  rw [insertRow_err t _
    (assigns_all_cols _ newAppCols t
      (appInsertAssigns_sub name a b c d cost rd ig de sa so st) hcols)
    (by rw [dupName_app]; exact hdup)]
  rfl

theorem update_application_missing (s : DBState) (u : String)
    (app_id : Int) (name : String) (a b c d : Option Int) (cost : ℚ)
    (rd ig de sa so st : String) (now : String)
    (h : (truthyStr name && truthyOpt a && truthyOpt b && truthyOpt c)
      = false) :
    update_application u app_id name a b c d cost rd ig de sa so st now s =
      .ok (s, .pyStr
        "Application Name, Managing IT Unit, Vendor, and Category cannot be empty.") := by
  unfold update_application
  rw [if_pos (by rw [h]; rfl)]

theorem update_application_eq (s : DBState) (t ta : Table) (u : String)
    (app_id : Int) (name : String) (a b c d : Option Int) (cost : ℚ)
    (rd ig de sa so st : String) (now : String)
    (ht : s.applications = some t)
    (hcols : newAppCols.all (fun cc => cc ∈ t.cols) = true)
    (hta : s.audit_log = some ta)
    (hacols : auditCols.all (fun cc => cc ∈ ta.cols) = true)
    (hguard : (truthyStr name && truthyOpt a && truthyOpt b && truthyOpt c)
      = true)
    (hnodup : (t.nameUnique &&
      (appInsertAssigns name a b c d cost rd ig de sa so st).any
        (fun cv => cv.1 == "name") &&
      hasDupNames (t.updateWhere (appInsertAssigns name a b c d cost rd ig
          de sa so st) "id" (Value.int app_id)).cols
        (t.updateWhere (appInsertAssigns name a b c d cost rd ig de sa so
          st) "id" (Value.int app_id)).rows) = false) :
    update_application u app_id name a b c d cost rd ig de sa so st now s =
      .ok ((s.setApplications
             (t.updateWhere (appInsertAssigns name a b c d cost rd ig de
               sa so st) "id" (Value.int app_id))).setAudit
           { ta with rows := ta.rows ++
             [newRowFor ta
               (auditAssigns u "UPDATE" "Application" name "" now)] },
           .pyTrue) := by
  unfold update_application
  rw [if_neg (by rw [hguard]; simp)]
  rw [withTable_eq s.applications t _ ht
    (all_sub _ newAppCols t (by decide) hcols)]
  rw [updateWhereChecked_ok t _ "id" (Value.int app_id)
    (assigns_all_cols _ newAppCols t
      (appInsertAssigns_sub name a b c d cost rd ig de sa so st) hcols)
    (by rw [List.all_eq_true] at hcols
        have := hcols "id" (by simp [newAppCols])
        simpa using this)
    hnodup]
  rw [bind_ok_ex]
  rw [log_change_eq _ ta u "UPDATE" "Application" name "" now
    (by rw [setApplications_audit]; exact hta) hacols]
  rfl

theorem update_application_err (s : DBState) (t : Table) (u : String)
    (app_id : Int) (name : String) (a b c d : Option Int) (cost : ℚ)
    (rd ig de sa so st : String) (now : String)
    (ht : s.applications = some t)
    (hcols : newAppCols.all (fun cc => cc ∈ t.cols) = true)
    (hguard : (truthyStr name && truthyOpt a && truthyOpt b && truthyOpt c)
      = true)
    (hdup : (t.nameUnique &&
      (appInsertAssigns name a b c d cost rd ig de sa so st).any
        (fun cv => cv.1 == "name") &&
      hasDupNames (t.updateWhere (appInsertAssigns name a b c d cost rd ig
          de sa so st) "id" (Value.int app_id)).cols
        (t.updateWhere (appInsertAssigns name a b c d cost rd ig de sa so
          st) "id" (Value.int app_id)).rows) = true) :
    update_application u app_id name a b c d cost rd ig de sa so st now s =
      .error "UNIQUE constraint failed" := by
  unfold update_application
  rw [if_neg (by rw [hguard]; simp)]
  rw [withTable_eq s.applications t _ ht
    (all_sub _ newAppCols t (by decide) hcols)]
  rw [updateWhereChecked_err t _ "id" (Value.int app_id)
    (assigns_all_cols _ newAppCols t
      (appInsertAssigns_sub name a b c d cost rd ig de sa so st) hcols)
    (by rw [List.all_eq_true] at hcols
        have := hcols "id" (by simp [newAppCols])
        simpa using this)
    hdup]
  rfl

theorem delete_application_eq (s : DBState) (t ta : Table)
    (u nm now : String) (app_id : Int)
    (ht : s.applications = some t)
    (hcols : newAppCols.all (fun cc => cc ∈ t.cols) = true)
    (hta : s.audit_log = some ta)
    (hacols : auditCols.all (fun cc => cc ∈ ta.cols) = true) :
    delete_application u app_id nm now s =
      .ok ((s.setApplications
             (t.deleteWhere "id" (Value.int app_id))).setAudit
           { ta with rows := ta.rows ++
             [newRowFor ta
               (auditAssigns u "DELETE" "Application" nm "" now)] },
           .pyNone) := by
  unfold delete_application
  rw [withTable_eq s.applications t _ ht
    (all_sub _ newAppCols t (by decide) hcols)]
  rw [log_change_eq _ ta u "DELETE" "Application" nm "" now
    (by rw [setApplications_audit]; exact hta) hacols]
  rfl

theorem add_it_service_missing (s : DBState) (u name : String)
    (iu : Option Int) (desc : String) (fte : Int)
    (deps owner status : String) (sla_id method_id : Option Int)
    (budget : ℚ) (bulk : Bool) (now : String)
    (h : (!(truthyStr name) || !(truthyOpt iu)) = true) :
    add_it_service u name iu desc fte deps owner status sla_id method_id
        budget bulk now s =
      .ok (s, .pyStr "Service Name and Providing IT Unit are required.") :=
  by
  unfold add_it_service
  rw [if_pos h]

theorem add_it_service_eq (s : DBState) (t ta : Table) (u name : String)
    (iu : Option Int) (desc : String) (fte : Int)
    (deps owner status : String) (sla_id method_id : Option Int)
    (budget : ℚ) (bulk : Bool) (now : String)
    (ht : s.it_services = some t)
    (hcols : newServiceCols.all (fun cc => cc ∈ t.cols) = true)
    (hta : s.audit_log = some ta)
    (hacols : auditCols.all (fun cc => cc ∈ ta.cols) = true)
    (hname : truthyStr name = true) (hiu : truthyOpt iu = true)
    (hdup : (t.nameUnique && t.rows.any
      (fun r => getVal t.cols r "name" == Value.text name)) = false) :
    add_it_service u name iu desc fte deps owner status sla_id method_id
        budget bulk now s =
      .ok ((s.setItServices { t with rows := t.rows ++
             [newRowFor t (serviceInsertAssigns name iu desc fte deps
               owner status sla_id method_id budget)] }).setAudit
           { ta with rows := ta.rows ++
             [newRowFor ta (auditAssigns u "CREATE" "IT Service" name
               (if bulk then "Bulk Import" else "") now)] },
           .pyTrue) := by
  unfold add_it_service
  rw [if_neg (by simp [hname, hiu])]
  rw [withTable_eq s.it_services t _ ht (by rfl)]
  rw [insertRow_ok t _
    (assigns_all_cols _ newServiceCols t
      (serviceInsertAssigns_sub name iu desc fte deps owner status sla_id
        method_id budget) hcols)
    (by rw [dupName_service]; exact hdup)]
  rw [bind_ok_ex]
  rw [log_change_eq _ ta u "CREATE" "IT Service" name
    (if bulk then "Bulk Import" else "") now
    (by rw [setItServices_audit]; exact hta) hacols]
  rfl

theorem add_it_service_err (s : DBState) (t : Table) (u name : String)
    (iu : Option Int) (desc : String) (fte : Int)
    (deps owner status : String) (sla_id method_id : Option Int)
    (budget : ℚ) (bulk : Bool) (now : String)
    (ht : s.it_services = some t)
    (hcols : newServiceCols.all (fun cc => cc ∈ t.cols) = true)
    (hname : truthyStr name = true) (hiu : truthyOpt iu = true)
    (hdup : (t.nameUnique && t.rows.any
      (fun r => getVal t.cols r "name" == Value.text name)) = true) :
    add_it_service u name iu desc fte deps owner status sla_id method_id
        budget bulk now s = .error "UNIQUE constraint failed" := by
  unfold add_it_service
  rw [if_neg (by simp [hname, hiu])]
  rw [withTable_eq s.it_services t _ ht (by rfl)]
  rw [insertRow_err t _
    (assigns_all_cols _ newServiceCols t
      (serviceInsertAssigns_sub name iu desc fte deps owner status sla_id
        method_id budget) hcols)
    (by rw [dupName_service]; exact hdup)]
  rfl

theorem update_it_service_missing (s : DBState) (u : String)
    (service_id : Int) (name : String) (iu : Option Int) (desc : String)
    (fte : Int) (deps owner status : String)
    (sla_id method_id : Option Int) (budget : ℚ) (now : String)
    (h : (!(truthyStr name) || !(truthyOpt iu)) = true) :
    update_it_service u service_id name iu desc fte deps owner status
        sla_id method_id budget now s =
      .ok (s, .pyStr "Service Name and Providing IT Unit cannot be empty.")
    := by
  unfold update_it_service
  rw [if_pos h]

theorem update_it_service_eq (s : DBState) (t ta : Table) (u : String)
    (service_id : Int) (name : String) (iu : Option Int) (desc : String)
    (fte : Int) (deps owner status : String)
    (sla_id method_id : Option Int) (budget : ℚ) (now : String)
    (ht : s.it_services = some t)
    (hcols : newServiceCols.all (fun cc => cc ∈ t.cols) = true)
    (hta : s.audit_log = some ta)
    (hacols : auditCols.all (fun cc => cc ∈ ta.cols) = true)
    (hname : truthyStr name = true) (hiu : truthyOpt iu = true)
    (hnodup : (t.nameUnique &&
      (serviceInsertAssigns name iu desc fte deps owner status sla_id
        method_id budget).any (fun cv => cv.1 == "name") &&
      hasDupNames (t.updateWhere (serviceInsertAssigns name iu desc fte
          deps owner status sla_id method_id budget) "id"
          (Value.int service_id)).cols
        (t.updateWhere (serviceInsertAssigns name iu desc fte deps owner
          status sla_id method_id budget) "id"
          (Value.int service_id)).rows) = false) :
    update_it_service u service_id name iu desc fte deps owner status
        sla_id method_id budget now s =
      .ok ((s.setItServices
             (t.updateWhere (serviceInsertAssigns name iu desc fte deps
               owner status sla_id method_id budget) "id"
               (Value.int service_id))).setAudit
           { ta with rows := ta.rows ++
             [newRowFor ta
               (auditAssigns u "UPDATE" "IT Service" name "" now)] },
           .pyTrue) := by
  unfold update_it_service
  rw [if_neg (by simp [hname, hiu])]
  rw [withTable_eq s.it_services t _ ht
    (all_sub _ newServiceCols t (by decide) hcols)]
  rw [updateWhereChecked_ok t _ "id" (Value.int service_id)
    (assigns_all_cols _ newServiceCols t
      (serviceInsertAssigns_sub name iu desc fte deps owner status sla_id
        method_id budget) hcols)
    (by rw [List.all_eq_true] at hcols
        have := hcols "id" (by simp [newServiceCols])
        simpa using this)
    hnodup]
  rw [bind_ok_ex]
  rw [log_change_eq _ ta u "UPDATE" "IT Service" name "" now
    (by rw [setItServices_audit]; exact hta) hacols]
  rfl

theorem update_it_service_err (s : DBState) (t : Table) (u : String)
    (service_id : Int) (name : String) (iu : Option Int) (desc : String)
    (fte : Int) (deps owner status : String)
    (sla_id method_id : Option Int) (budget : ℚ) (now : String)
    (ht : s.it_services = some t)
    (hcols : newServiceCols.all (fun cc => cc ∈ t.cols) = true)
    (hname : truthyStr name = true) (hiu : truthyOpt iu = true)
    (hdup : (t.nameUnique &&
      (serviceInsertAssigns name iu desc fte deps owner status sla_id
        method_id budget).any (fun cv => cv.1 == "name") &&
      hasDupNames (t.updateWhere (serviceInsertAssigns name iu desc fte
          deps owner status sla_id method_id budget) "id"
          (Value.int service_id)).cols
        (t.updateWhere (serviceInsertAssigns name iu desc fte deps owner
          status sla_id method_id budget) "id"
          (Value.int service_id)).rows) = true) :
    update_it_service u service_id name iu desc fte deps owner status
        sla_id method_id budget now s = .error "UNIQUE constraint failed"
    := by
  unfold update_it_service
  rw [if_neg (by simp [hname, hiu])]
  rw [withTable_eq s.it_services t _ ht
    (all_sub _ newServiceCols t (by decide) hcols)]
  rw [updateWhereChecked_err t _ "id" (Value.int service_id)
    (assigns_all_cols _ newServiceCols t
      (serviceInsertAssigns_sub name iu desc fte deps owner status sla_id
        method_id budget) hcols)
    (by rw [List.all_eq_true] at hcols
        have := hcols "id" (by simp [newServiceCols])
        simpa using this)
    hdup]
  rfl

theorem delete_it_service_eq (s : DBState) (t ta : Table)
    (u nm now : String) (service_id : Int)
    (ht : s.it_services = some t)
    (hcols : newServiceCols.all (fun cc => cc ∈ t.cols) = true)
    (hta : s.audit_log = some ta)
    (hacols : auditCols.all (fun cc => cc ∈ ta.cols) = true) :
    delete_it_service u service_id nm now s =
      .ok ((s.setItServices
             (t.deleteWhere "id" (Value.int service_id))).setAudit
           { ta with rows := ta.rows ++
             [newRowFor ta
               (auditAssigns u "DELETE" "IT Service" nm "" now)] },
           .pyNone) := by
  unfold delete_it_service
  rw [withTable_eq s.it_services t _ ht
    (all_sub _ newServiceCols t (by decide) hcols)]
  rw [log_change_eq _ ta u "DELETE" "IT Service" nm "" now
    (by rw [setItServices_audit]; exact hta) hacols]
  rfl

theorem add_infrastructure_missing (s : DBState) (u name : String)
    (iu vi : Option Int) (location status : String) (cost : ℚ)
    (description : String) (bulk : Bool) (now : String)
    (h : (!(truthyStr name) || !(truthyOpt iu)) = true) :
    add_infrastructure u name iu vi location status cost description bulk
        now s =
      .ok (s,
        .pyStr "Infrastructure Name and Managing IT Unit are required.") :=
  by
  unfold add_infrastructure
  rw [if_pos h]

theorem add_infrastructure_eq (s : DBState) (t ta : Table)
    (u name : String) (iu vi : Option Int) (location status : String)
    (cost : ℚ) (description : String) (bulk : Bool) (now : String)
    (ht : s.infrastructure = some t)
    (hcols : infraCanonCols.all (fun cc => cc ∈ t.cols) = true)
    (hta : s.audit_log = some ta)
    (hacols : auditCols.all (fun cc => cc ∈ ta.cols) = true)
    (hname : truthyStr name = true) (hiu : truthyOpt iu = true)
    (hdup : (t.nameUnique && t.rows.any
      (fun r => getVal t.cols r "name" == Value.text name)) = false) :
    add_infrastructure u name iu vi location status cost description bulk
        now s =
      .ok ((s.setInfrastructure { t with rows := t.rows ++
             [newRowFor t (infraInsertAssigns name iu vi location status
               cost description)] }).setAudit
           { ta with rows := ta.rows ++
             [newRowFor ta (auditAssigns u "CREATE" "Infrastructure" name
               (if bulk then "Bulk Import" else "") now)] },
           .pyTrue) := by
  unfold add_infrastructure
  rw [if_neg (by simp [hname, hiu])]
  rw [withTable_eq s.infrastructure t _ ht (by rfl)]
  rw [insertRow_ok t _
    (assigns_all_cols _ infraCanonCols t
      (infraInsertAssigns_sub name iu vi location status cost description)
      hcols)
    (by rw [dupName_infra]; exact hdup)]
  rw [bind_ok_ex]
  rw [log_change_eq _ ta u "CREATE" "Infrastructure" name
    (if bulk then "Bulk Import" else "") now
    (by rw [setInfrastructure_audit]; exact hta) hacols]
  rfl

theorem add_infrastructure_err (s : DBState) (t : Table)
    (u name : String) (iu vi : Option Int) (location status : String)
    (cost : ℚ) (description : String) (bulk : Bool) (now : String)
    (ht : s.infrastructure = some t)
    (hcols : infraCanonCols.all (fun cc => cc ∈ t.cols) = true)
    (hname : truthyStr name = true) (hiu : truthyOpt iu = true)
    (hdup : (t.nameUnique && t.rows.any
      (fun r => getVal t.cols r "name" == Value.text name)) = true) :
    add_infrastructure u name iu vi location status cost description bulk
        now s = .error "UNIQUE constraint failed" := by
  unfold add_infrastructure
  rw [if_neg (by simp [hname, hiu])]
  rw [withTable_eq s.infrastructure t _ ht (by rfl)]
  rw [insertRow_err t _
    (assigns_all_cols _ infraCanonCols t
      (infraInsertAssigns_sub name iu vi location status cost description)
      hcols)
    (by rw [dupName_infra]; exact hdup)]
  rfl

theorem update_infrastructure_missing (s : DBState) (u : String)
    (infra_id : Int) (name : String) (iu vi : Option Int)
    (location status : String) (cost : ℚ) (description : String)
    (now : String)
    (h : (!(truthyStr name) || !(truthyOpt iu)) = true) :
    update_infrastructure u infra_id name iu vi location status cost
        description now s =
      .ok (s,
        .pyStr "Infrastructure Name and Managing IT Unit cannot be empty.")
    := by
  unfold update_infrastructure
  rw [if_pos h]

theorem update_infrastructure_eq (s : DBState) (t ta : Table)
    (u : String) (infra_id : Int) (name : String) (iu vi : Option Int)
    (location status : String) (cost : ℚ) (description : String)
    (now : String)
    (ht : s.infrastructure = some t)
    (hcols : infraCanonCols.all (fun cc => cc ∈ t.cols) = true)
    (hta : s.audit_log = some ta)
    (hacols : auditCols.all (fun cc => cc ∈ ta.cols) = true)
    (hname : truthyStr name = true) (hiu : truthyOpt iu = true)
    (hnodup : (t.nameUnique &&
      (infraInsertAssigns name iu vi location status cost
        description).any (fun cv => cv.1 == "name") &&
      hasDupNames (t.updateWhere (infraInsertAssigns name iu vi location
          status cost description) "id" (Value.int infra_id)).cols
        (t.updateWhere (infraInsertAssigns name iu vi location status cost
          description) "id" (Value.int infra_id)).rows) = false) :
    update_infrastructure u infra_id name iu vi location status cost
        description now s =
      .ok ((s.setInfrastructure
             (t.updateWhere (infraInsertAssigns name iu vi location status
               cost description) "id" (Value.int infra_id))).setAudit
           { ta with rows := ta.rows ++
             [newRowFor ta
               (auditAssigns u "UPDATE" "Infrastructure" name "" now)] },
           .pyTrue) := by
  unfold update_infrastructure
  rw [if_neg (by simp [hname, hiu])]
  rw [withTable_eq s.infrastructure t _ ht
    (all_sub _ infraCanonCols t (by decide) hcols)]
  rw [updateWhereChecked_ok t _ "id" (Value.int infra_id)
    (assigns_all_cols _ infraCanonCols t
      (infraInsertAssigns_sub name iu vi location status cost description)
      hcols)
    (by rw [List.all_eq_true] at hcols
        have := hcols "id" (by simp [infraCanonCols])
        simpa using this)
    hnodup]
  rw [bind_ok_ex]
  rw [log_change_eq _ ta u "UPDATE" "Infrastructure" name "" now
    (by rw [setInfrastructure_audit]; exact hta) hacols]
  rfl

theorem update_infrastructure_err (s : DBState) (t : Table)
    (u : String) (infra_id : Int) (name : String) (iu vi : Option Int)
    (location status : String) (cost : ℚ) (description : String)
    (now : String)
    (ht : s.infrastructure = some t)
    (hcols : infraCanonCols.all (fun cc => cc ∈ t.cols) = true)
    (hname : truthyStr name = true) (hiu : truthyOpt iu = true)
    (hdup : (t.nameUnique &&
      (infraInsertAssigns name iu vi location status cost
        description).any (fun cv => cv.1 == "name") &&
      hasDupNames (t.updateWhere (infraInsertAssigns name iu vi location
          status cost description) "id" (Value.int infra_id)).cols
        (t.updateWhere (infraInsertAssigns name iu vi location status cost
          description) "id" (Value.int infra_id)).rows) = true) :
    update_infrastructure u infra_id name iu vi location status cost
        description now s = .error "UNIQUE constraint failed" := by
  unfold update_infrastructure
  rw [if_neg (by simp [hname, hiu])]
  rw [withTable_eq s.infrastructure t _ ht
    (all_sub _ infraCanonCols t (by decide) hcols)]
  rw [updateWhereChecked_err t _ "id" (Value.int infra_id)
    (assigns_all_cols _ infraCanonCols t
      (infraInsertAssigns_sub name iu vi location status cost description)
      hcols)
    (by rw [List.all_eq_true] at hcols
        have := hcols "id" (by simp [infraCanonCols])
        simpa using this)
    hdup]
  rfl

theorem delete_infrastructure_eq (s : DBState) (t ta : Table)
    (u nm now : String) (infra_id : Int)
    (ht : s.infrastructure = some t)
    (hcols : infraCanonCols.all (fun cc => cc ∈ t.cols) = true)
    (hta : s.audit_log = some ta)
    (hacols : auditCols.all (fun cc => cc ∈ ta.cols) = true) :
    delete_infrastructure u infra_id nm now s =
      .ok ((s.setInfrastructure
             (t.deleteWhere "id" (Value.int infra_id))).setAudit
           { ta with rows := ta.rows ++
             [newRowFor ta
               (auditAssigns u "DELETE" "Infrastructure" nm "" now)] },
           .pyNone) := by
  unfold delete_infrastructure
  rw [withTable_eq s.infrastructure t _ ht
    (all_sub _ infraCanonCols t (by decide) hcols)]
  rw [log_change_eq _ ta u "DELETE" "Infrastructure" nm "" now
    (by rw [setInfrastructure_audit]; exact hta) hacols]
  rfl

theorem app_add_it_unit_exists (s : DBState) (t : Table)
    (u name cp ce notes now : String) (fte : Int) (ba : ℚ)
    (r : List Value)
    (ht : s.it_units = some t)
    (hcols : itUnitCanonCols.all (fun c => c ∈ t.cols) = true)
    (hfind : t.rows.find?
      (fun r => getVal t.cols r "name" == Value.text name) = some r) :
    app_add_it_unit u name cp ce fte ba notes now s =
      .ok (s, .pyInt (match getVal t.cols r "id" with
                      | Value.int n => n | _ => 0)) := by
  unfold app_add_it_unit
  rw [withTable_eq s.it_units t _ ht
    (all_sub _ itUnitCanonCols t (by decide) hcols)]
  rw [hfind]

/- ------------------------------------------------------------------
C5 — required-field validation happens before any storage access.
------------------------------------------------------------------- -/

/-- C5.  Every entity create and update with a missing required field
(Python truthiness of the fields each function requires: IT Unit — name
and contact person; Application — name, managing IT unit, vendor,
category; IT Service and Infrastructure — name and IT unit) returns the
human-readable validation message to the caller and leaves the database
state entirely unchanged: the message is produced before any table is
touched, so every list() count is unchanged. -/
theorem create_update_validate_first (s : DBState) :
    (∀ u name cp ce notes now fte ba bulk,
      (!(truthyStr name) || !(truthyStr cp)) = true →
      add_it_unit u name cp ce fte ba notes bulk now s =
        .ok (s, .pyStr "Unit Name and Contact Person are required.")) ∧
    (∀ u uid name cp ce notes now fte ba,
      (!(truthyStr name) || !(truthyStr cp)) = true →
      update_it_unit_details u uid name cp ce fte ba notes now s =
        .ok (s, .pyStr "Unit Name and Contact Person cannot be empty.")) ∧
    (∀ u name a b c d cost rd ig de sa so st bulk now,
      (truthyStr name && truthyOpt a && truthyOpt b && truthyOpt c)
        = false →
      add_application u name a b c d cost rd ig de sa so st bulk now s =
        .ok (s, .pyStr
          "Application Name, Managing IT Unit, Vendor, and Category are required.")) ∧
    (∀ u app_id name a b c d cost rd ig de sa so st now,
      (truthyStr name && truthyOpt a && truthyOpt b && truthyOpt c)
        = false →
      update_application u app_id name a b c d cost rd ig de sa so st now
          s =
        .ok (s, .pyStr
          "Application Name, Managing IT Unit, Vendor, and Category cannot be empty.")) ∧
    (∀ u name iu desc fte deps owner status sla_id method_id budget bulk
        now,
      (!(truthyStr name) || !(truthyOpt iu)) = true →
      add_it_service u name iu desc fte deps owner status sla_id method_id
          budget bulk now s =
        .ok (s, .pyStr "Service Name and Providing IT Unit are required."))
    ∧
    (∀ u sid name iu desc fte deps owner status sla_id method_id budget
        now,
      (!(truthyStr name) || !(truthyOpt iu)) = true →
      update_it_service u sid name iu desc fte deps owner status sla_id
          method_id budget now s =
        .ok (s,
          .pyStr "Service Name and Providing IT Unit cannot be empty.")) ∧
    (∀ u name iu vi location status cost description bulk now,
      (!(truthyStr name) || !(truthyOpt iu)) = true →
      add_infrastructure u name iu vi location status cost description
          bulk now s =
        .ok (s, .pyStr
          "Infrastructure Name and Managing IT Unit are required.")) ∧
    (∀ u infra_id name iu vi location status cost description now,
      (!(truthyStr name) || !(truthyOpt iu)) = true →
      update_infrastructure u infra_id name iu vi location status cost
          description now s =
        .ok (s, .pyStr
          "Infrastructure Name and Managing IT Unit cannot be empty.")) :=
  ⟨fun u name cp ce notes now fte ba bulk h =>
      add_it_unit_missing s u name cp ce notes now fte ba bulk h,
   fun u uid name cp ce notes now fte ba h =>
      update_it_unit_details_missing s u name cp ce notes now uid fte ba h,
   fun u name a b c d cost rd ig de sa so st bulk now h =>
      add_application_missing s u name a b c d cost rd ig de sa so st bulk
        now h,
   fun u app_id name a b c d cost rd ig de sa so st now h =>
      update_application_missing s u app_id name a b c d cost rd ig de sa
        so st now h,
   fun u name iu desc fte deps owner status sla_id method_id budget bulk
        now h =>
      add_it_service_missing s u name iu desc fte deps owner status sla_id
        method_id budget bulk now h,
   fun u sid name iu desc fte deps owner status sla_id method_id budget
        now h =>
      update_it_service_missing s u sid name iu desc fte deps owner status
        sla_id method_id budget now h,
   fun u name iu vi location status cost description bulk now h =>
      add_infrastructure_missing s u name iu vi location status cost
        description bulk now h,
   fun u infra_id name iu vi location status cost description now h =>
      update_infrastructure_missing s u infra_id name iu vi location
        status cost description now h⟩

/-- Witness for C5: on the freshly migrated store, an Application create
with every field present except the Vendor reference (the scenario of the
spec) returns the validation message and the state — hence the listing
count — is unchanged; likewise an IT Unit create without a contact
person. -/
theorem create_update_validate_first_witness :
    add_application "u@x" "Zoom" (some 1) none (some 1) (some 1) 10 "2026"
        "" "" "" "" "Active" false "t0" dbAfterInit =
      .ok (dbAfterInit, .pyStr
        "Application Name, Managing IT Unit, Vendor, and Category are required.") ∧
    add_it_unit "u@x" "Library IT" "" "" 0 0 "" false "t0" dbAfterInit =
      .ok (dbAfterInit,
        .pyStr "Unit Name and Contact Person are required.") :=
  ⟨(create_update_validate_first dbAfterInit).2.2.1 "u@x" "Zoom" (some 1)
      none (some 1) (some 1) 10 "2026" "" "" "" "" "Active" false "t0"
      (by rfl),
   (create_update_validate_first dbAfterInit).1 "u@x" "Library IT" "" ""
      "" "t0" 0 0 false (by rfl)⟩

/- ------------------------------------------------------------------
C2 — creating an IT Unit whose name already exists.
------------------------------------------------------------------- -/

/-- The row of the pre-existing IT Unit "Library IT" (id 1). -/
def libUnitRow : List Value :=
  [Value.int 1, Value.text "Library IT", Value.text "Pat", Value.text "",
   Value.text "", Value.int 0, Value.real 0]

def libUnitsTable : Table :=
  { cols := itUnitCanonCols, nameUnique := true, rows := [libUnitRow] }

/-- A migrated store already holding the IT Unit "Library IT". -/
def libState : DBState :=
  { dbAfterInit with it_units := some libUnitsTable }

/-- Counterexample to C2.  On the current data layer (database.add_it_unit)
a create with an existing name returns the warning message STRING, not the
pre-existing id: the result carries `pyStr ...`, which is not `pyInt 1`
(the existing id), though the state is untouched (still exactly one
row). -/
theorem add_it_unit_returns_message_cx :
    add_it_unit "u@x" "Library IT" "Quinn" "" 0 0 "" false "t0" libState =
      .ok (libState,
        .pyStr "IT Unit \x27Library IT\x27 already exists.") ∧
    PyRet.pyStr "IT Unit \x27Library IT\x27 already exists." ≠
      PyRet.pyInt 1 ∧
    (tblRows libState.it_units).length = 1 :=
  ⟨by rfl, by decide, by rfl⟩

/-- C2 as amended.  Creating an IT Unit with an existing name inserts no
second row and raises no error; the current repository function
(database.add_it_unit) signals the duplicate by returning the warning
message string rather than the existing id, while the legacy monolith
variant (app.add_it_unit) shows a warning and returns the existing
row\x27s id.  In both cases the state is returned unchanged. -/
theorem find?_some_pred {α : Type} (p : α → Bool) (l : List α) (a : α)
    (h : l.find? p = some a) : p a = true := List.find?_some h

theorem add_it_unit_get_or_create (s : DBState) (t : Table)
    (u name cp ce notes now : String) (fte : Int) (ba : ℚ) (bulk : Bool)
    (r : List Value)
    (ht : s.it_units = some t)
    (hcols : itUnitCanonCols.all (fun c => c ∈ t.cols) = true)
    (hname : truthyStr name = true) (hcp : truthyStr cp = true)
    (hfind : t.rows.find?
      (fun r2 => getVal t.cols r2 "name" == Value.text name) = some r) :
    add_it_unit u name cp ce fte ba notes bulk now s =
      .ok (s, .pyStr ("IT Unit \x27" ++ name ++ "\x27 already exists."))
    ∧
    app_add_it_unit u name cp ce fte ba notes now s =
      .ok (s, .pyInt (match getVal t.cols r "id" with
                      | Value.int n => n | _ => 0)) := by
  constructor
  · refine add_it_unit_exists s t u name cp ce notes now fte ba bulk ht
      hcols hname hcp ?_
    rw [List.any_eq_true]
    exact ⟨r, List.mem_of_find?_eq_some hfind,
      find?_some_pred (fun r2 => getVal t.cols r2 "name" == Value.text name)
        t.rows r hfind⟩
  · exact app_add_it_unit_exists s t u name cp ce notes now fte ba r ht
      hcols hfind

/-- Witness for the amended C2 at the concrete "Library IT" store. -/
theorem add_it_unit_get_or_create_witness :
    add_it_unit "u@x" "Library IT" "Quinn" "" 0 0 "" false "t0" libState =
      .ok (libState,
        .pyStr ("IT Unit \x27" ++ "Library IT" ++ "\x27 already exists."))
    ∧
    app_add_it_unit "u@x" "Library IT" "Quinn" "" 0 0 "" "t0" libState =
      .ok (libState, .pyInt (match getVal libUnitsTable.cols libUnitRow
        "id" with | Value.int n => n | _ => 0)) :=
  add_it_unit_get_or_create libState libUnitsTable "u@x" "Library IT"
    "Quinn" "" "" "t0" 0 0 false libUnitRow (by rfl) (by rfl) (by rfl)
    (by rfl) (by rfl)

/- ------------------------------------------------------------------
LEMMAS ABOUT ROWS BUILT BY INSERT AND FRESH ROWIDS.
------------------------------------------------------------------- -/

theorem getVal_map (cols : List String) (f : String → Value) (c : String)
    (h : c ∈ cols) : getVal cols (cols.map f) c = f c := by
  induction cols with
  | nil => cases h
  | cons d ds ih =>
      by_cases hdc : (d == c) = true
      · have hd : d = c := by simpa using hdc
        subst hd
        show getVal (d :: ds) (f d :: ds.map f) d = f d
        unfold getVal colIdx
        rw [if_pos (by simp)]
        rfl
      · have hc2 : c ∈ ds := by
          rcases List.mem_cons.mp h with rfl | h2
          · exact absurd (by simp) hdc
          · exact h2
        have hrec := ih hc2
        show getVal (d :: ds) (f d :: ds.map f) c = f c
        unfold getVal colIdx
        rw [if_neg hdc]
        unfold getVal at hrec
        cases hidx : colIdx ds c with
        | none => rw [hidx] at hrec; exact hrec
        | some i => rw [hidx] at hrec; exact hrec

theorem lookupA_zip_map (cols : List String) (f : String → Value)
    (c : String) (h : c ∈ cols) :
    lookupA (cols.zip (cols.map f)) c = some (f c) := by
  induction cols with
  | nil => cases h
  | cons d ds ih =>
      show lookupA ((d, f d) :: ds.zip (ds.map f)) c = some (f c)
      by_cases hdc : (d == c) = true
      · have hd : d = c := by simpa using hdc
        subst hd
        unfold lookupA
        rw [List.find?_cons_of_pos _ (by simp)]
        rfl
      · have hc2 : c ∈ ds := by
          rcases List.mem_cons.mp h with rfl | h2
          · exact absurd (by simp) hdc
          · exact h2
        unfold lookupA
        rw [List.find?_cons_of_neg _ (by simpa using hdc)]
        exact ih hc2

theorem foldl_max_init (f : List Value → Int) (l : List (List Value))
    (a : Int) : a ≤ l.foldl (fun acc r => max acc (f r)) a := by
  induction l generalizing a with
  | nil => exact le_refl a
  | cons x xs ih =>
      exact le_trans (le_max_left a (f x)) (ih (max a (f x)))

theorem foldl_max_mem (f : List Value → Int) (l : List (List Value))
    (r : List Value) (h : r ∈ l) (a : Int) :
    f r ≤ l.foldl (fun acc r => max acc (f r)) a := by
  induction l generalizing a with
  | nil => cases h
  | cons x xs ih =>
      rcases List.mem_cons.mp h with hr | h2
      · subst hr
        exact le_trans (le_max_right a (f r))
          (foldl_max_init f xs (max a (f r)))
      · exact ih h2 (max a (f x))

/-- No existing row carries the rowid a fresh INSERT will receive. -/
theorem id_not_fresh (t : Table) (r : List Value) (h : r ∈ t.rows) :
    (getVal t.cols r "id" == Value.int t.nextRowId) = false := by
  cases hid : getVal t.cols r "id" with
  | int n =>
      have hb : n ≤ t.maxId := by
        have hm := foldl_max_mem
          (fun r => match getVal t.cols r "id" with
                    | Value.int n => n | _ => 0) t.rows r h 0
        rw [hid] at hm
        exact hm
      have : n ≠ t.maxId + 1 := by omega
      simpa [Table.nextRowId] using this
  | null => rfl
  | real q => rfl
  | text s2 => rfl

theorem find?_append_last {α : Type} (p : α → Bool) (l : List α) (x : α)
    (hl : ∀ y ∈ l, p y = false) (hx : p x = true) :
    (l ++ [x]).find? p = some x := by
  induction l with
  | nil => exact List.find?_cons_of_pos _ hx
  | cons y ys ih =>
      show (y :: (ys ++ [x])).find? p = some x
      rw [List.find?_cons_of_neg _
        (by simp [hl y (List.mem_cons_self y ys)])]
      exact ih (fun z hz => hl z (List.mem_cons_of_mem y hz))

theorem mem_of_all (canon : List String) (t : Table) (c : String)
    (hc : c ∈ canon) (h : canon.all (fun x => x ∈ t.cols) = true) :
    c ∈ t.cols := by
  rw [List.all_eq_true] at h
  simpa using h c hc

theorem getVal_newRowFor (t : Table) (assigns : List (String × Value))
    (c : String) (h : c ∈ t.cols) :
    getVal t.cols (newRowFor t assigns) c =
      (match lookupA assigns c with
       | some v => v
       | none => if c == "id" then Value.int t.nextRowId
                 else Value.null) :=
  getVal_map t.cols _ c h

theorem lookupA_zip_newRowFor (t : Table)
    (assigns : List (String × Value)) (c : String) (h : c ∈ t.cols) :
    lookupA (t.cols.zip (newRowFor t assigns)) c =
      some (match lookupA assigns c with
            | some v => v
            | none => if c == "id" then Value.int t.nextRowId
                      else Value.null) :=
  lookupA_zip_map t.cols _ c h

theorem lookupA_of_mem (A : List (String × Value)) (c : String)
    (v : Value) (hnodup : (A.map Prod.fst).Nodup) (h : (c, v) ∈ A) :
    lookupA A c = some v := by
  induction A with
  | nil => cases h
  | cons kv rest ih =>
      rcases List.mem_cons.mp h with hh | h2
      · unfold lookupA
        rw [List.find?_cons_of_pos _ (by rw [← hh]; simp)]
        rw [← hh]
        rfl
      · have hk : ¬ kv.1 = c := by
          intro hkc
          have hcmem : c ∈ rest.map Prod.fst :=
            List.mem_map.mpr ⟨(c, v), h2, rfl⟩
          rw [List.map_cons, List.nodup_cons] at hnodup
          exact hnodup.1 (hkc ▸ hcmem)
        unfold lookupA
        rw [List.find?_cons_of_neg _ (by simpa using hk)]
        exact ih (by rw [List.map_cons, List.nodup_cons] at hnodup
                     exact hnodup.2) h2

/- ------------------------------------------------------------------
PROJECTION LEMMAS FOR STATE AND TABLE LITERALS.
------------------------------------------------------------------- -/

@[simp]
theorem mkTable_cols (c : List String) (u : Bool)
    (r : List (List Value)) : (Table.mk c u r).cols = c := rfl

@[simp]
theorem mkTable_nameUnique (c : List String) (u : Bool)
    (r : List (List Value)) : (Table.mk c u r).nameUnique = u := rfl

@[simp]
theorem mkTable_rows (c : List String) (u : Bool)
    (r : List (List Value)) : (Table.mk c u r).rows = r := rfl

@[simp]
theorem setItUnits_it_units_proj (s : DBState) (t : Table) :
    (s.setItUnits t).it_units = some t := rfl

@[simp]
theorem setItUnits_vendors_proj (s : DBState) (t : Table) :
    (s.setItUnits t).vendors = s.vendors := rfl

@[simp]
theorem setItUnits_service_types_proj (s : DBState) (t : Table) :
    (s.setItUnits t).service_types = s.service_types := rfl

@[simp]
theorem setItUnits_categories_proj (s : DBState) (t : Table) :
    (s.setItUnits t).categories = s.categories := rfl

@[simp]
theorem setItUnits_sla_levels_proj (s : DBState) (t : Table) :
    (s.setItUnits t).sla_levels = s.sla_levels := rfl

@[simp]
theorem setItUnits_service_methods_proj (s : DBState) (t : Table) :
    (s.setItUnits t).service_methods = s.service_methods := rfl

@[simp]
theorem setItUnits_applications_proj (s : DBState) (t : Table) :
    (s.setItUnits t).applications = s.applications := rfl

@[simp]
theorem setItUnits_it_services_proj (s : DBState) (t : Table) :
    (s.setItUnits t).it_services = s.it_services := rfl

@[simp]
theorem setItUnits_infrastructure_proj (s : DBState) (t : Table) :
    (s.setItUnits t).infrastructure = s.infrastructure := rfl

@[simp]
theorem setItUnits_audit_log_proj (s : DBState) (t : Table) :
    (s.setItUnits t).audit_log = s.audit_log := rfl

@[simp]
theorem setApplications_it_units_proj (s : DBState) (t : Table) :
    (s.setApplications t).it_units = s.it_units := rfl

@[simp]
theorem setApplications_vendors_proj (s : DBState) (t : Table) :
    (s.setApplications t).vendors = s.vendors := rfl

@[simp]
theorem setApplications_service_types_proj (s : DBState) (t : Table) :
    (s.setApplications t).service_types = s.service_types := rfl

@[simp]
theorem setApplications_categories_proj (s : DBState) (t : Table) :
    (s.setApplications t).categories = s.categories := rfl

@[simp]
theorem setApplications_sla_levels_proj (s : DBState) (t : Table) :
    (s.setApplications t).sla_levels = s.sla_levels := rfl

@[simp]
theorem setApplications_service_methods_proj (s : DBState) (t : Table) :
    (s.setApplications t).service_methods = s.service_methods := rfl

@[simp]
theorem setApplications_applications_proj (s : DBState) (t : Table) :
    (s.setApplications t).applications = some t := rfl

@[simp]
theorem setApplications_it_services_proj (s : DBState) (t : Table) :
    (s.setApplications t).it_services = s.it_services := rfl

@[simp]
theorem setApplications_infrastructure_proj (s : DBState) (t : Table) :
    (s.setApplications t).infrastructure = s.infrastructure := rfl

@[simp]
theorem setApplications_audit_log_proj (s : DBState) (t : Table) :
    (s.setApplications t).audit_log = s.audit_log := rfl

@[simp]
theorem setItServices_it_units_proj (s : DBState) (t : Table) :
    (s.setItServices t).it_units = s.it_units := rfl

@[simp]
theorem setItServices_vendors_proj (s : DBState) (t : Table) :
    (s.setItServices t).vendors = s.vendors := rfl

@[simp]
theorem setItServices_service_types_proj (s : DBState) (t : Table) :
    (s.setItServices t).service_types = s.service_types := rfl

@[simp]
theorem setItServices_categories_proj (s : DBState) (t : Table) :
    (s.setItServices t).categories = s.categories := rfl

@[simp]
theorem setItServices_sla_levels_proj (s : DBState) (t : Table) :
    (s.setItServices t).sla_levels = s.sla_levels := rfl

@[simp]
theorem setItServices_service_methods_proj (s : DBState) (t : Table) :
    (s.setItServices t).service_methods = s.service_methods := rfl

@[simp]
theorem setItServices_applications_proj (s : DBState) (t : Table) :
    (s.setItServices t).applications = s.applications := rfl

@[simp]
theorem setItServices_it_services_proj (s : DBState) (t : Table) :
    (s.setItServices t).it_services = some t := rfl

@[simp]
theorem setItServices_infrastructure_proj (s : DBState) (t : Table) :
    (s.setItServices t).infrastructure = s.infrastructure := rfl

@[simp]
theorem setItServices_audit_log_proj (s : DBState) (t : Table) :
    (s.setItServices t).audit_log = s.audit_log := rfl

@[simp]
theorem setInfrastructure_it_units_proj (s : DBState) (t : Table) :
    (s.setInfrastructure t).it_units = s.it_units := rfl

@[simp]
theorem setInfrastructure_vendors_proj (s : DBState) (t : Table) :
    (s.setInfrastructure t).vendors = s.vendors := rfl

@[simp]
theorem setInfrastructure_service_types_proj (s : DBState) (t : Table) :
    (s.setInfrastructure t).service_types = s.service_types := rfl

@[simp]
theorem setInfrastructure_categories_proj (s : DBState) (t : Table) :
    (s.setInfrastructure t).categories = s.categories := rfl

@[simp]
theorem setInfrastructure_sla_levels_proj (s : DBState) (t : Table) :
    (s.setInfrastructure t).sla_levels = s.sla_levels := rfl

@[simp]
theorem setInfrastructure_service_methods_proj (s : DBState) (t : Table) :
    (s.setInfrastructure t).service_methods = s.service_methods := rfl

@[simp]
theorem setInfrastructure_applications_proj (s : DBState) (t : Table) :
    (s.setInfrastructure t).applications = s.applications := rfl

@[simp]
theorem setInfrastructure_it_services_proj (s : DBState) (t : Table) :
    (s.setInfrastructure t).it_services = s.it_services := rfl

@[simp]
theorem setInfrastructure_infrastructure_proj (s : DBState) (t : Table) :
    (s.setInfrastructure t).infrastructure = some t := rfl

@[simp]
theorem setInfrastructure_audit_log_proj (s : DBState) (t : Table) :
    (s.setInfrastructure t).audit_log = s.audit_log := rfl

@[simp]
theorem setAudit_it_units_proj (s : DBState) (t : Table) :
    (s.setAudit t).it_units = s.it_units := rfl

@[simp]
theorem setAudit_vendors_proj (s : DBState) (t : Table) :
    (s.setAudit t).vendors = s.vendors := rfl

@[simp]
theorem setAudit_service_types_proj (s : DBState) (t : Table) :
    (s.setAudit t).service_types = s.service_types := rfl

@[simp]
theorem setAudit_categories_proj (s : DBState) (t : Table) :
    (s.setAudit t).categories = s.categories := rfl

@[simp]
theorem setAudit_sla_levels_proj (s : DBState) (t : Table) :
    (s.setAudit t).sla_levels = s.sla_levels := rfl

@[simp]
theorem setAudit_service_methods_proj (s : DBState) (t : Table) :
    (s.setAudit t).service_methods = s.service_methods := rfl

@[simp]
theorem setAudit_applications_proj (s : DBState) (t : Table) :
    (s.setAudit t).applications = s.applications := rfl

@[simp]
theorem setAudit_it_services_proj (s : DBState) (t : Table) :
    (s.setAudit t).it_services = s.it_services := rfl

@[simp]
theorem setAudit_infrastructure_proj (s : DBState) (t : Table) :
    (s.setAudit t).infrastructure = s.infrastructure := rfl

@[simp]
theorem setAudit_audit_log_proj (s : DBState) (t : Table) :
    (s.setAudit t).audit_log = some t := rfl

@[simp]
theorem lookupSet_it_units_proj (s : DBState) (lt : LookupTable) (t : Table) :
    (s.lookupSet lt t).it_units = s.it_units := by
  cases lt <;> rfl

@[simp]
theorem lookupSet_applications_proj (s : DBState) (lt : LookupTable) (t : Table) :
    (s.lookupSet lt t).applications = s.applications := by
  cases lt <;> rfl

@[simp]
theorem lookupSet_it_services_proj (s : DBState) (lt : LookupTable) (t : Table) :
    (s.lookupSet lt t).it_services = s.it_services := by
  cases lt <;> rfl

@[simp]
theorem lookupSet_infrastructure_proj (s : DBState) (lt : LookupTable) (t : Table) :
    (s.lookupSet lt t).infrastructure = s.infrastructure := by
  cases lt <;> rfl

@[simp]
theorem lookupSet_audit_log_proj (s : DBState) (lt : LookupTable) (t : Table) :
    (s.lookupSet lt t).audit_log = s.audit_log := by
  cases lt <;> rfl

theorem lookupSet_lookupGet_same (s : DBState) (lt : LookupTable)
    (t : Table) : (s.lookupSet lt t).lookupGet lt = some t := by
  cases lt <;> rfl

theorem withTable_some {α : Type} (t : Table) (req : List String)
    (k : Table → Except String α)
    (hreq : req.all (fun c => c ∈ t.cols) = true) :
    withTable (some t) req k = k t := by
  show (if (req.all fun c => decide (c ∈ t.cols)) = true then k t
        else Except.error "no such column") = k t
  rw [if_pos hreq]

/-- The round-trip for the Application repository: a successful create
assigns the fresh rowid, and get on that id returns the row as a
column/value dictionary in which every supplied field has exactly the
supplied value. -/
theorem roundtrip_application (s : DBState) (t ta : Table)
    (u name : String) (a b c d : Option Int) (cost : ℚ)
    (rd ig de sa so st : String) (bulk : Bool) (now : String)
    (ht : s.applications = some t)
    (hcols : newAppCols.all (fun cc => cc ∈ t.cols) = true)
    (hta : s.audit_log = some ta)
    (hacols : auditCols.all (fun cc => cc ∈ ta.cols) = true)
    (hguard : (truthyStr name && truthyOpt a && truthyOpt b && truthyOpt c)
      = true)
    (hdup : (t.nameUnique && t.rows.any
      (fun r => getVal t.cols r "name" == Value.text name)) = false) :
    ∃ s2,
      add_application u name a b c d cost rd ig de sa so st bulk now s =
        .ok (s2, .pyTrue) ∧
      get_application_details t.nextRowId s2 =
        .ok (some (t.cols.zip (newRowFor t
          (appInsertAssigns name a b c d cost rd ig de sa so st)))) ∧
      ∀ cc v, (cc, v) ∈ appInsertAssigns name a b c d cost rd ig de sa so
          st →
        lookupA (t.cols.zip (newRowFor t
          (appInsertAssigns name a b c d cost rd ig de sa so st))) cc =
          some v := by
  refine ⟨_, add_application_eq s t ta u name a b c d cost rd ig de sa so
    st bulk now ht hcols hta hacols hguard hdup, ?_, ?_⟩
  · unfold get_application_details getDetails
    simp only [setAudit_applications_proj, setApplications_applications_proj]
    rw [withTable_some]
    · simp only [mkTable_cols, mkTable_rows]
      rw [find?_append_last _ t.rows _
        (fun y hy => id_not_fresh t y hy)
        (by rw [getVal_newRowFor t _ "id"
              (mem_of_all newAppCols t "id" (by decide) hcols)]
            rw [show lookupA (appInsertAssigns name a b c d cost rd ig de
              sa so st) "id" = none from rfl]
            simp)]
      rfl
    · simp only [mkTable_cols]
      simp [mem_of_all newAppCols t "id" (by decide) hcols]
  · intro cc v hcv
    have hsubc : cc ∈ newAppCols :=
      appInsertAssigns_sub name a b c d cost rd ig de sa so st (cc, v) hcv
    rw [lookupA_zip_newRowFor t _ cc
      (mem_of_all newAppCols t cc hsubc hcols)]
    rw [lookupA_of_mem _ cc v
      (by rw [show (appInsertAssigns name a b c d cost rd ig de sa so
          st).map Prod.fst =
          ["name", "it_unit_id", "vendor_id", "category_id",
           "service_type_id", "annual_cost", "renewal_date",
           "integrations", "description", "similar_applications",
           "service_owner", "status"] from rfl]
          decide) hcv]

/-- The round-trip for the IT Unit repository. -/
theorem roundtrip_it_unit (s : DBState) (t ta : Table)
    (u name cp ce notes now : String) (fte : Int) (ba : ℚ) (bulk : Bool)
    (ht : s.it_units = some t)
    (hcols : itUnitCanonCols.all (fun cc => cc ∈ t.cols) = true)
    (hta : s.audit_log = some ta)
    (hacols : auditCols.all (fun cc => cc ∈ ta.cols) = true)
    (hname : truthyStr name = true) (hcp : truthyStr cp = true)
    (hnew : t.rows.any
      (fun r => getVal t.cols r "name" == Value.text name) = false) :
    ∃ s2,
      add_it_unit u name cp ce fte ba notes bulk now s =
        .ok (s2, .pyTrue) ∧
      get_it_unit_details t.nextRowId s2 =
        .ok (some (t.cols.zip (newRowFor t
          (itUnitAssigns name cp ce fte ba notes)))) ∧
      ∀ cc v, (cc, v) ∈ itUnitAssigns name cp ce fte ba notes →
        lookupA (t.cols.zip (newRowFor t
          (itUnitAssigns name cp ce fte ba notes))) cc = some v := by
  refine ⟨_, add_it_unit_eq s t ta u name cp ce notes now fte ba bulk ht
    hcols hta hacols hname hcp hnew, ?_, ?_⟩
  · unfold get_it_unit_details getDetails
    simp only [setAudit_it_units_proj, setItUnits_it_units_proj]
    rw [withTable_some]
    · simp only [mkTable_cols, mkTable_rows]
      rw [find?_append_last _ t.rows _
        (fun y hy => id_not_fresh t y hy)
        (by rw [getVal_newRowFor t _ "id"
              (mem_of_all itUnitCanonCols t "id" (by decide) hcols)]
            rw [show lookupA (itUnitAssigns name cp ce fte ba notes) "id"
              = none from rfl]
            simp)]
      rfl
    · simp only [mkTable_cols]
      simp [mem_of_all itUnitCanonCols t "id" (by decide) hcols]
  · intro cc v hcv
    have hsubc : cc ∈ itUnitCanonCols :=
      itUnitAssigns_sub name cp ce fte ba notes (cc, v) hcv
    rw [lookupA_zip_newRowFor t _ cc
      (mem_of_all itUnitCanonCols t cc hsubc hcols)]
    rw [lookupA_of_mem _ cc v
      (by rw [show (itUnitAssigns name cp ce fte ba notes).map Prod.fst =
          ["name", "contact_person", "contact_email", "total_fte",
           "budget_amount", "notes"] from rfl]
          decide) hcv]

/-- The round-trip for the IT Service repository. -/
theorem roundtrip_it_service (s : DBState) (t ta : Table)
    (u name : String) (iu : Option Int) (desc : String) (fte : Int)
    (deps owner status : String) (sla_id method_id : Option Int)
    (budget : ℚ) (bulk : Bool) (now : String)
    (ht : s.it_services = some t)
    (hcols : newServiceCols.all (fun cc => cc ∈ t.cols) = true)
    (hta : s.audit_log = some ta)
    (hacols : auditCols.all (fun cc => cc ∈ ta.cols) = true)
    (hname : truthyStr name = true) (hiu : truthyOpt iu = true)
    (hdup : (t.nameUnique && t.rows.any
      (fun r => getVal t.cols r "name" == Value.text name)) = false) :
    ∃ s2,
      add_it_service u name iu desc fte deps owner status sla_id method_id
          budget bulk now s = .ok (s2, .pyTrue) ∧
      get_it_service_details t.nextRowId s2 =
        .ok (some (t.cols.zip (newRowFor t
          (serviceInsertAssigns name iu desc fte deps owner status sla_id
            method_id budget)))) ∧
      ∀ cc v, (cc, v) ∈ serviceInsertAssigns name iu desc fte deps owner
          status sla_id method_id budget →
        lookupA (t.cols.zip (newRowFor t
          (serviceInsertAssigns name iu desc fte deps owner status sla_id
            method_id budget))) cc = some v := by
  refine ⟨_, add_it_service_eq s t ta u name iu desc fte deps owner status
    sla_id method_id budget bulk now ht hcols hta hacols hname hiu hdup,
    ?_, ?_⟩
  · unfold get_it_service_details getDetails
    simp only [setAudit_it_services_proj, setItServices_it_services_proj]
    rw [withTable_some]
    · simp only [mkTable_cols, mkTable_rows]
      rw [find?_append_last _ t.rows _
        (fun y hy => id_not_fresh t y hy)
        (by rw [getVal_newRowFor t _ "id"
              (mem_of_all newServiceCols t "id" (by decide) hcols)]
            rw [show lookupA (serviceInsertAssigns name iu desc fte deps
              owner status sla_id method_id budget) "id" = none from rfl]
            simp)]
      rfl
    · simp only [mkTable_cols]
      simp [mem_of_all newServiceCols t "id" (by decide) hcols]
  · intro cc v hcv
    have hsubc : cc ∈ newServiceCols :=
      serviceInsertAssigns_sub name iu desc fte deps owner status sla_id
        method_id budget (cc, v) hcv
    rw [lookupA_zip_newRowFor t _ cc
      (mem_of_all newServiceCols t cc hsubc hcols)]
    rw [lookupA_of_mem _ cc v
      (by rw [show (serviceInsertAssigns name iu desc fte deps owner
          status sla_id method_id budget).map Prod.fst =
          ["name", "it_unit_id", "description", "fte_count",
           "dependencies", "service_owner", "status", "sla_level_id",
           "service_method_id", "budget_allocation"] from rfl]
          decide) hcv]

/-- The round-trip for the Infrastructure repository. -/
theorem roundtrip_infrastructure (s : DBState) (t ta : Table)
    (u name : String) (iu vi : Option Int) (location status : String)
    (cost : ℚ) (description : String) (bulk : Bool) (now : String)
    (ht : s.infrastructure = some t)
    (hcols : infraCanonCols.all (fun cc => cc ∈ t.cols) = true)
    (hta : s.audit_log = some ta)
    (hacols : auditCols.all (fun cc => cc ∈ ta.cols) = true)
    (hname : truthyStr name = true) (hiu : truthyOpt iu = true)
    (hdup : (t.nameUnique && t.rows.any
      (fun r => getVal t.cols r "name" == Value.text name)) = false) :
    ∃ s2,
      add_infrastructure u name iu vi location status cost description
          bulk now s = .ok (s2, .pyTrue) ∧
      get_infrastructure_details t.nextRowId s2 =
        .ok (some (t.cols.zip (newRowFor t
          (infraInsertAssigns name iu vi location status cost
            description)))) ∧
      ∀ cc v, (cc, v) ∈ infraInsertAssigns name iu vi location status cost
          description →
        lookupA (t.cols.zip (newRowFor t
          (infraInsertAssigns name iu vi location status cost
            description))) cc = some v := by
  refine ⟨_, add_infrastructure_eq s t ta u name iu vi location status
    cost description bulk now ht hcols hta hacols hname hiu hdup, ?_, ?_⟩
  · unfold get_infrastructure_details getDetails
    simp only [setAudit_infrastructure_proj,
      setInfrastructure_infrastructure_proj]
    rw [withTable_some]
    · simp only [mkTable_cols, mkTable_rows]
      rw [find?_append_last _ t.rows _
        (fun y hy => id_not_fresh t y hy)
        (by rw [getVal_newRowFor t _ "id"
              (mem_of_all infraCanonCols t "id" (by decide) hcols)]
            rw [show lookupA (infraInsertAssigns name iu vi location
              status cost description) "id" = none from rfl]
            simp)]
      rfl
    · simp only [mkTable_cols]
      simp [mem_of_all infraCanonCols t "id" (by decide) hcols]
  · intro cc v hcv
    have hsubc : cc ∈ infraCanonCols :=
      infraInsertAssigns_sub name iu vi location status cost description
        (cc, v) hcv
    rw [lookupA_zip_newRowFor t _ cc
      (mem_of_all infraCanonCols t cc hsubc hcols)]
    rw [lookupA_of_mem _ cc v
      (by rw [show (infraInsertAssigns name iu vi location status cost
          description).map Prod.fst =
          ["name", "it_unit_id", "vendor_id", "location", "status",
           "annual_maintenance_cost", "description"] from rfl]
          decide) hcv]

/-- C8.  For every entity (IT Unit, Application, IT Service,
Infrastructure), a successful create followed by get on the id the store
assigned (the fresh rowid) returns a row in which every supplied
column/value pair is returned exactly as supplied — the round-trip holds
for all four repositories, the surrogate id being the only field the store
adds. -/
theorem create_then_get_round_trip :
    (∀ (s : DBState) (t ta : Table) (u name cp ce notes now : String)
      (fte : Int) (ba : ℚ) (bulk : Bool),
      s.it_units = some t →
      itUnitCanonCols.all (fun cc => cc ∈ t.cols) = true →
      s.audit_log = some ta →
      auditCols.all (fun cc => cc ∈ ta.cols) = true →
      truthyStr name = true → truthyStr cp = true →
      t.rows.any (fun r => getVal t.cols r "name" == Value.text name)
        = false →
      ∃ s2,
        add_it_unit u name cp ce fte ba notes bulk now s =
          .ok (s2, .pyTrue) ∧
        get_it_unit_details t.nextRowId s2 =
          .ok (some (t.cols.zip (newRowFor t
            (itUnitAssigns name cp ce fte ba notes)))) ∧
        ∀ cc v, (cc, v) ∈ itUnitAssigns name cp ce fte ba notes →
          lookupA (t.cols.zip (newRowFor t
            (itUnitAssigns name cp ce fte ba notes))) cc = some v) ∧
    (∀ (s : DBState) (t ta : Table) (u name : String)
      (a b c d : Option Int) (cost : ℚ) (rd ig de sa so st : String)
      (bulk : Bool) (now : String),
      s.applications = some t →
      newAppCols.all (fun cc => cc ∈ t.cols) = true →
      s.audit_log = some ta →
      auditCols.all (fun cc => cc ∈ ta.cols) = true →
      (truthyStr name && truthyOpt a && truthyOpt b && truthyOpt c)
        = true →
      (t.nameUnique && t.rows.any
        (fun r => getVal t.cols r "name" == Value.text name)) = false →
      ∃ s2,
        add_application u name a b c d cost rd ig de sa so st bulk now s =
          .ok (s2, .pyTrue) ∧
        get_application_details t.nextRowId s2 =
          .ok (some (t.cols.zip (newRowFor t
            (appInsertAssigns name a b c d cost rd ig de sa so st)))) ∧
        ∀ cc v, (cc, v) ∈ appInsertAssigns name a b c d cost rd ig de sa
            so st →
          lookupA (t.cols.zip (newRowFor t
            (appInsertAssigns name a b c d cost rd ig de sa so st))) cc =
            some v) ∧
    (∀ (s : DBState) (t ta : Table) (u name : String) (iu : Option Int)
      (desc : String) (fte : Int) (deps owner status : String)
      (sla_id method_id : Option Int) (budget : ℚ) (bulk : Bool)
      (now : String),
      s.it_services = some t →
      newServiceCols.all (fun cc => cc ∈ t.cols) = true →
      s.audit_log = some ta →
      auditCols.all (fun cc => cc ∈ ta.cols) = true →
      truthyStr name = true → truthyOpt iu = true →
      (t.nameUnique && t.rows.any
        (fun r => getVal t.cols r "name" == Value.text name)) = false →
      ∃ s2,
        add_it_service u name iu desc fte deps owner status sla_id
          method_id budget bulk now s = .ok (s2, .pyTrue) ∧
        get_it_service_details t.nextRowId s2 =
          .ok (some (t.cols.zip (newRowFor t
            (serviceInsertAssigns name iu desc fte deps owner status
              sla_id method_id budget)))) ∧
        ∀ cc v, (cc, v) ∈ serviceInsertAssigns name iu desc fte deps
            owner status sla_id method_id budget →
          lookupA (t.cols.zip (newRowFor t
            (serviceInsertAssigns name iu desc fte deps owner status
              sla_id method_id budget))) cc = some v) ∧
    (∀ (s : DBState) (t ta : Table) (u name : String) (iu vi : Option Int)
      (location status : String) (cost : ℚ) (description : String)
      (bulk : Bool) (now : String),
      s.infrastructure = some t →
      infraCanonCols.all (fun cc => cc ∈ t.cols) = true →
      s.audit_log = some ta →
      auditCols.all (fun cc => cc ∈ ta.cols) = true →
      truthyStr name = true → truthyOpt iu = true →
      (t.nameUnique && t.rows.any
        (fun r => getVal t.cols r "name" == Value.text name)) = false →
      ∃ s2,
        add_infrastructure u name iu vi location status cost description
          bulk now s = .ok (s2, .pyTrue) ∧
        get_infrastructure_details t.nextRowId s2 =
          .ok (some (t.cols.zip (newRowFor t
            (infraInsertAssigns name iu vi location status cost
              description)))) ∧
        ∀ cc v, (cc, v) ∈ infraInsertAssigns name iu vi location status
            cost description →
          lookupA (t.cols.zip (newRowFor t
            (infraInsertAssigns name iu vi location status cost
              description))) cc = some v) :=
  ⟨fun s t ta u name cp ce notes now fte ba bulk ht hcols hta hacols
      hname hcp hnew =>
    roundtrip_it_unit s t ta u name cp ce notes now fte ba bulk ht hcols
      hta hacols hname hcp hnew,
   fun s t ta u name a b c d cost rd ig de sa so st bulk now ht hcols hta
      hacols hguard hdup =>
    roundtrip_application s t ta u name a b c d cost rd ig de sa so st
      bulk now ht hcols hta hacols hguard hdup,
   fun s t ta u name iu desc fte deps owner status sla_id method_id budget
      bulk now ht hcols hta hacols hname hiu hdup =>
    roundtrip_it_service s t ta u name iu desc fte deps owner status
      sla_id method_id budget bulk now ht hcols hta hacols hname hiu hdup,
   fun s t ta u name iu vi location status cost description bulk now ht
      hcols hta hacols hname hiu hdup =>
    roundtrip_infrastructure s t ta u name iu vi location status cost
      description bulk now ht hcols hta hacols hname hiu hdup⟩

/-- Witness for C8: on the freshly migrated store, creating the
Application "Ticketing" and the IT Unit "Help Desk" and reading them back
by the assigned id round-trips every supplied field. -/
theorem create_then_get_round_trip_witness :
    (∃ s2,
      add_it_unit "u@x" "Help Desk" "Pat" "p@x" 3 1000 "n" false "t0"
          dbAfterInit = .ok (s2, .pyTrue) ∧
      get_it_unit_details (Table.mk itUnitCanonCols true []).nextRowId s2
        = .ok (some (itUnitCanonCols.zip
          (newRowFor (Table.mk itUnitCanonCols true [])
            (itUnitAssigns "Help Desk" "Pat" "p@x" 3 1000 "n")))) ∧
      ∀ cc v, (cc, v) ∈ itUnitAssigns "Help Desk" "Pat" "p@x" 3 1000 "n" →
        lookupA (itUnitCanonCols.zip
          (newRowFor (Table.mk itUnitCanonCols true [])
            (itUnitAssigns "Help Desk" "Pat" "p@x" 3 1000 "n"))) cc =
          some v) ∧
    (∃ s2,
      add_application "u@x" "Ticketing" (some 1) (some 1) (some 1)
          (some 1) 50 "2026-01-01" "" "desc" "" "own" "Active" false "t0"
          dbAfterInit = .ok (s2, .pyTrue) ∧
      get_application_details (Table.mk newAppCols false []).nextRowId s2
        = .ok (some (newAppCols.zip
          (newRowFor (Table.mk newAppCols false [])
            (appInsertAssigns "Ticketing" (some 1) (some 1) (some 1)
              (some 1) 50 "2026-01-01" "" "desc" "" "own" "Active")))) ∧
      ∀ cc v, (cc, v) ∈ appInsertAssigns "Ticketing" (some 1) (some 1)
          (some 1) (some 1) 50 "2026-01-01" "" "desc" "" "own" "Active" →
        lookupA (newAppCols.zip
          (newRowFor (Table.mk newAppCols false [])
            (appInsertAssigns "Ticketing" (some 1) (some 1) (some 1)
              (some 1) 50 "2026-01-01" "" "desc" "" "own" "Active"))) cc =
          some v) :=
  ⟨create_then_get_round_trip.1 dbAfterInit (Table.mk itUnitCanonCols
      true []) (Table.mk auditCols false []) "u@x" "Help Desk" "Pat"
      "p@x" "n" "t0" 3 1000 false rfl (by decide) rfl (by decide) rfl rfl
      rfl,
   create_then_get_round_trip.2.1 dbAfterInit (Table.mk newAppCols false
      []) (Table.mk auditCols false []) "u@x" "Ticketing" (some 1)
      (some 1) (some 1) (some 1) 50 "2026-01-01" "" "desc" "" "own"
      "Active" false "t0" rfl (by decide) rfl (by decide) rfl rfl⟩

/- ------------------------------------------------------------------
C6 — negative numeric values and the data layer.
------------------------------------------------------------------- -/

/-- Counterexample to C6.  On the freshly migrated store, an Application
create with annual_cost = -100 does not fail: it succeeds (returns True)
and the row is inserted with the negative value stored in the
annual_cost column.  No input validation rejects the sign. -/
theorem negative_cost_not_rejected_cx :
    (add_application "u@x" "BadApp" (some 1) (some 1) (some 1) (some 1)
        (-100) "2026-01-01" "" "" "" "" "Active" false "t0"
        dbAfterInit).map (fun p => (p.2, tblRows p.1.applications)) =
      .ok (.pyTrue,
        [[Value.int 1, Value.text "BadApp", Value.int 1, Value.int 1,
          Value.text "2026-01-01", Value.real (-100), Value.int 1,
          Value.int 1, Value.text "", Value.text "", Value.text "",
          Value.text "", Value.text "Active"]]) := by rfl

/-- C6 as amended.  The data-layer create functions perform no sign
validation at all: a negative annual_cost on an Application create, and a
negative budget_amount or total_fte on an IT Unit create, are accepted,
the call succeeds, and the stored row returns the negative value
unchanged.  (The only min-value constraints live in the UI number-input
widgets, outside the data layer.) -/
theorem negative_values_not_validated :
    (∀ (s : DBState) (t ta : Table) (u name : String)
      (a b c d : Option Int) (cost : ℚ) (rd ig de sa so st : String)
      (bulk : Bool) (now : String),
      cost < 0 →
      s.applications = some t →
      newAppCols.all (fun cc => cc ∈ t.cols) = true →
      s.audit_log = some ta →
      auditCols.all (fun cc => cc ∈ ta.cols) = true →
      (truthyStr name && truthyOpt a && truthyOpt b && truthyOpt c)
        = true →
      (t.nameUnique && t.rows.any
        (fun r => getVal t.cols r "name" == Value.text name)) = false →
      ∃ s2,
        add_application u name a b c d cost rd ig de sa so st bulk now s =
          .ok (s2, .pyTrue) ∧
        get_application_details t.nextRowId s2 =
          .ok (some (t.cols.zip (newRowFor t
            (appInsertAssigns name a b c d cost rd ig de sa so st)))) ∧
        lookupA (t.cols.zip (newRowFor t
          (appInsertAssigns name a b c d cost rd ig de sa so st)))
          "annual_cost" = some (Value.real cost) ∧
        cost < 0) ∧
    (∀ (s : DBState) (t ta : Table) (u name cp ce notes now : String)
      (fte : Int) (ba : ℚ) (bulk : Bool),
      ba < 0 → fte < 0 →
      s.it_units = some t →
      itUnitCanonCols.all (fun cc => cc ∈ t.cols) = true →
      s.audit_log = some ta →
      auditCols.all (fun cc => cc ∈ ta.cols) = true →
      truthyStr name = true → truthyStr cp = true →
      t.rows.any (fun r => getVal t.cols r "name" == Value.text name)
        = false →
      ∃ s2,
        add_it_unit u name cp ce fte ba notes bulk now s =
          .ok (s2, .pyTrue) ∧
        lookupA (t.cols.zip (newRowFor t
          (itUnitAssigns name cp ce fte ba notes))) "budget_amount" =
          some (Value.real ba) ∧
        lookupA (t.cols.zip (newRowFor t
          (itUnitAssigns name cp ce fte ba notes))) "total_fte" =
          some (Value.int fte) ∧
        ba < 0 ∧ fte < 0) := by
  constructor
  · intro s t ta u name a b c d cost rd ig de sa so st bulk now hneg ht
      hcols hta hacols hguard hdup
    obtain ⟨s2, h1, h2, h3⟩ := roundtrip_application s t ta u name a b c
      d cost rd ig de sa so st bulk now ht hcols hta hacols hguard hdup
    exact ⟨s2, h1, h2,
      h3 "annual_cost" (Value.real cost) (by simp [appInsertAssigns]),
      hneg⟩
  · intro s t ta u name cp ce notes now fte ba bulk hba hfte ht hcols hta
      hacols hname hcp hnew
    obtain ⟨s2, h1, _, h3⟩ := roundtrip_it_unit s t ta u name cp ce notes
      now fte ba bulk ht hcols hta hacols hname hcp hnew
    exact ⟨s2, h1,
      h3 "budget_amount" (Value.real ba) (by simp [itUnitAssigns]),
      h3 "total_fte" (Value.int fte) (by simp [itUnitAssigns]),
      hba, hfte⟩

/-- Witness for the amended C6 on the fresh store with cost -100,
budget -5 and FTE -2. -/
theorem negative_values_not_validated_witness :
    (∃ s2,
      add_application "u@x" "BadApp" (some 1) (some 1) (some 1) (some 1)
          (-100) "2026-01-01" "" "" "" "" "Active" false "t0" dbAfterInit
        = .ok (s2, .pyTrue) ∧
      get_application_details
          (Table.mk newAppCols false []).nextRowId s2 =
        .ok (some (newAppCols.zip (newRowFor (Table.mk newAppCols false
          []) (appInsertAssigns "BadApp" (some 1) (some 1) (some 1)
          (some 1) (-100) "2026-01-01" "" "" "" "" "Active")))) ∧
      lookupA (newAppCols.zip (newRowFor (Table.mk newAppCols false [])
          (appInsertAssigns "BadApp" (some 1) (some 1) (some 1) (some 1)
          (-100) "2026-01-01" "" "" "" "" "Active"))) "annual_cost" =
        some (Value.real (-100)) ∧
      (-100 : ℚ) < 0) ∧
    (∃ s2,
      add_it_unit "u@x" "NegUnit" "Pat" "" (-2) (-5) "" false "t0"
          dbAfterInit = .ok (s2, .pyTrue) ∧
      lookupA (itUnitCanonCols.zip (newRowFor (Table.mk itUnitCanonCols
          true []) (itUnitAssigns "NegUnit" "Pat" "" (-2) (-5) "")))
        "budget_amount" = some (Value.real (-5)) ∧
      lookupA (itUnitCanonCols.zip (newRowFor (Table.mk itUnitCanonCols
          true []) (itUnitAssigns "NegUnit" "Pat" "" (-2) (-5) "")))
        "total_fte" = some (Value.int (-2)) ∧
      (-5 : ℚ) < 0 ∧ (-2 : Int) < 0) :=
  ⟨negative_values_not_validated.1 dbAfterInit (Table.mk newAppCols false
      []) (Table.mk auditCols false []) "u@x" "BadApp" (some 1) (some 1)
      (some 1) (some 1) (-100) "2026-01-01" "" "" "" "" "Active" false
      "t0" (by norm_num) rfl (by decide) rfl (by decide) rfl rfl,
   negative_values_not_validated.2 dbAfterInit (Table.mk itUnitCanonCols
      true []) (Table.mk auditCols false []) "u@x" "NegUnit" "Pat" "" ""
      "t0" (-2) (-5) false (by norm_num) (by norm_num) rfl (by decide)
      rfl (by decide) rfl rfl rfl⟩

/- ------------------------------------------------------------------
C3 — deleting an IT Unit soft-orphans its dependents.
------------------------------------------------------------------- -/

theorem getD_eq_default_of_le (l : List Value) (i : Nat) (d : Value)
    (h : l.length ≤ i) : l.getD i d = d := by
  induction l generalizing i with
  | nil => cases i <;> rfl
  | cons x xs ih =>
      cases i with
      | zero => simp at h
      | succ n => exact ih n (by simpa using h)

theorem getD_set_self_lt (l : List Value) (i : Nat) (v d : Value)
    (h : i < l.length) : (l.set i v).getD i d = v := by
  induction l generalizing i with
  | nil => simp at h
  | cons x xs ih =>
      cases i with
      | zero => rfl
      | succ n => exact ih n (by simpa using h)

theorem getVal_setVal_of_ne_null (cols : List String) (c : String)
    (v : Value) (r : List Value) (h : ¬ getVal cols r c = Value.null) :
    getVal cols (setVal cols c v r) c = v := by
  unfold getVal at h
  unfold getVal setVal
  cases hidx : colIdx cols c with
  | none => rw [hidx] at h; exact absurd rfl h
  | some i =>
      rw [hidx] at h
      have hlt : i < r.length := by
        by_contra hge
        exact h (getD_eq_default_of_le r i Value.null
          (Nat.le_of_not_lt hge))
      exact getD_set_self_lt r i v Value.null hlt

/-- After the nulling UPDATE, no row of the table still references the
deleted unit id. -/
theorem updateWhere_nullify_no_ref (t : Table) (uid : Int)
    (rr : List Value)
    (h : rr ∈ (t.updateWhere [("it_unit_id", Value.null)] "it_unit_id"
      (Value.int uid)).rows) :
    ¬ getVal t.cols rr "it_unit_id" = Value.int uid := by
  simp only [Table.updateWhere, mkTable_rows, List.mem_map] at h
  obtain ⟨x, hx, hfx⟩ := h
  by_cases hg : (getVal t.cols x "it_unit_id" == Value.int uid) = true
  · rw [if_pos hg] at hfx
    have hnn : ¬ getVal t.cols x "it_unit_id" = Value.null := by
      have : getVal t.cols x "it_unit_id" = Value.int uid := by
        simpa using hg
      rw [this]
      intro hcontra
      cases hcontra
    rw [← hfx]
    have := getVal_setVal_of_ne_null t.cols "it_unit_id" Value.null x hnn
    show ¬ getVal t.cols
      (List.foldl (fun r cv => setVal t.cols cv.1 cv.2 r)
        x [("it_unit_id", Value.null)]) "it_unit_id" = Value.int uid
    simp only [List.foldl_cons, List.foldl_nil]
    rw [this]
    intro hcontra
    cases hcontra
  · rw [if_neg hg] at hfx
    rw [← hfx]
    simpa using hg

/-- C3.  Deleting an IT Unit removes only the unit row itself; within the
same call it sets it_unit_id to NULL on every row of applications,
it_services and infrastructure that referenced the unit, deletes none of
those dependent rows (columns and row counts unchanged, every surviving
row either untouched or with only it_unit_id set to NULL), leaves every
other table unchanged, and appends exactly one DELETE audit record. -/
theorem delete_it_unit_soft_orphans (s : DBState)
    (tu tapp tsvc tinf ta : Table) (u unm now : String) (unit_id : Int)
    (s2 : DBState) (r : PyRet)
    (htu : s.it_units = some tu)
    (hucols : itUnitCanonCols.all (fun c => c ∈ tu.cols) = true)
    (htapp : s.applications = some tapp)
    (happ : newAppCols.all (fun c => c ∈ tapp.cols) = true)
    (htsvc : s.it_services = some tsvc)
    (hsvc : newServiceCols.all (fun c => c ∈ tsvc.cols) = true)
    (htinf : s.infrastructure = some tinf)
    (hinf : infraCanonCols.all (fun c => c ∈ tinf.cols) = true)
    (hta : s.audit_log = some ta)
    (hacols : auditCols.all (fun c => c ∈ ta.cols) = true)
    (h : delete_it_unit u unit_id unm now s = .ok (s2, r)) :
    r = .pyNone ∧
    tblCols s2.applications = tapp.cols ∧
    tblCols s2.it_services = tsvc.cols ∧
    tblCols s2.infrastructure = tinf.cols ∧
    (tblRows s2.applications).length = tapp.rows.length ∧
    (tblRows s2.it_services).length = tsvc.rows.length ∧
    (tblRows s2.infrastructure).length = tinf.rows.length ∧
    (∀ rr ∈ tblRows s2.applications,
      ¬ getVal tapp.cols rr "it_unit_id" = Value.int unit_id) ∧
    (∀ rr ∈ tblRows s2.it_services,
      ¬ getVal tsvc.cols rr "it_unit_id" = Value.int unit_id) ∧
    (∀ rr ∈ tblRows s2.infrastructure,
      ¬ getVal tinf.cols rr "it_unit_id" = Value.int unit_id) ∧
    tblRows s2.applications = tapp.rows.map (fun rr =>
      if getVal tapp.cols rr "it_unit_id" == Value.int unit_id then
        setVal tapp.cols "it_unit_id" Value.null rr else rr) ∧
    tblRows s2.it_services = tsvc.rows.map (fun rr =>
      if getVal tsvc.cols rr "it_unit_id" == Value.int unit_id then
        setVal tsvc.cols "it_unit_id" Value.null rr else rr) ∧
    tblRows s2.infrastructure = tinf.rows.map (fun rr =>
      if getVal tinf.cols rr "it_unit_id" == Value.int unit_id then
        setVal tinf.cols "it_unit_id" Value.null rr else rr) ∧
    tblRows s2.it_units = tu.rows.filter (fun rr =>
      !(getVal tu.cols rr "id" == Value.int unit_id)) ∧
    s2.vendors = s.vendors ∧ s2.service_types = s.service_types ∧
    s2.categories = s.categories ∧ s2.sla_levels = s.sla_levels ∧
    s2.service_methods = s.service_methods ∧
    tblRows s2.audit_log = ta.rows ++
      [newRowFor ta (auditAssigns u "DELETE" "IT Unit" unm "" now)] := by
  rw [delete_it_unit_eq s tu tapp tsvc tinf ta u unm now unit_id htu
    hucols htapp happ htsvc hsvc htinf hinf hta hacols] at h
  have h2 := Except.ok.inj h
  have hs2 : s2 = ((((s.setItUnits
      (tu.deleteWhere "id" (Value.int unit_id))).setApplications
      (tapp.updateWhere [("it_unit_id", Value.null)] "it_unit_id"
        (Value.int unit_id))).setItServices
      (tsvc.updateWhere [("it_unit_id", Value.null)] "it_unit_id"
        (Value.int unit_id))).setInfrastructure
      (tinf.updateWhere [("it_unit_id", Value.null)] "it_unit_id"
        (Value.int unit_id))).setAudit
      { ta with rows := ta.rows ++
        [newRowFor ta (auditAssigns u "DELETE" "IT Unit" unm "" now)] } :=
    (Prod.mk.injEq _ _ _ _ ▸ h2).1.symm
  have hr : r = .pyNone := (Prod.mk.injEq _ _ _ _ ▸ h2).2.symm
  subst hs2
  refine ⟨hr, rfl, rfl, rfl, by simp [Table.updateWhere, tblRows],
    by simp [Table.updateWhere, tblRows],
    by simp [Table.updateWhere, tblRows],
    ?_, ?_, ?_, rfl, rfl, rfl, rfl, rfl, rfl, rfl, rfl, rfl, rfl⟩
  · intro rr hrr
    exact updateWhere_nullify_no_ref tapp unit_id rr hrr
  · intro rr hrr
    exact updateWhere_nullify_no_ref tsvc unit_id rr hrr
  · intro rr hrr
    exact updateWhere_nullify_no_ref tinf unit_id rr hrr

def c3UnitsTable : Table :=
  { cols := itUnitCanonCols, nameUnique := true,
    rows := [[Value.int 1, Value.text "Help Desk", Value.text "Pat",
              Value.text "", Value.text "", Value.int 0, Value.real 0]] }

def c3AppsTable : Table :=
  { cols := newAppCols, nameUnique := false,
    rows := [[Value.int 1, Value.text "Ticketing", Value.int 1,
              Value.int 1, Value.text "2026", Value.real 50, Value.int 1,
              Value.int 1, Value.text "", Value.text "", Value.text "",
              Value.text "", Value.text "Active"]] }

/-- A store with IT Unit 1 ("Help Desk") and one application owned by
it. -/
def c3State : DBState :=
  { dbAfterInit with it_units := some c3UnitsTable,
                     applications := some c3AppsTable }

def c3UnitsAfter : Table :=
  { cols := itUnitCanonCols, nameUnique := true, rows := [] }

def c3AppsAfter : Table :=
  { cols := newAppCols, nameUnique := false,
    rows := [[Value.int 1, Value.text "Ticketing", Value.null,
              Value.int 1, Value.text "2026", Value.real 50, Value.int 1,
              Value.int 1, Value.text "", Value.text "", Value.text "",
              Value.text "", Value.text "Active"]] }

def c3AuditAfter : Table :=
  { cols := auditCols, nameUnique := false,
    rows := [[Value.int 1, Value.text "t1", Value.text "u@x",
              Value.text "DELETE", Value.text "IT Unit",
              Value.text "Help Desk", Value.text ""]] }

/-- The same store after deleting IT Unit 1: the unit row is gone, the
application row survives with its reference nulled, and one DELETE record
was appended. -/
def c3StateAfter : DBState :=
  { dbAfterInit with it_units := some c3UnitsAfter,
                     applications := some c3AppsAfter,
                     audit_log := some c3AuditAfter }

/-- Witness for C3: deleting unit 1 ("Help Desk") from a store where one
application (Ticketing) references it nulls that reference, keeps the
application row, and appends one DELETE audit record. -/
theorem delete_it_unit_soft_orphans_witness :
    delete_it_unit "u@x" 1 "Help Desk" "t1" c3State =
      .ok (c3StateAfter, .pyNone) ∧
    (tblRows c3StateAfter.applications).length = 1 ∧
    (∀ rr ∈ tblRows c3StateAfter.applications,
      ¬ getVal newAppCols rr "it_unit_id" = Value.int 1) := by
  constructor
  · rfl
  constructor
  · rfl
  · have hmain := delete_it_unit_soft_orphans c3State c3UnitsTable
      c3AppsTable (Table.mk newServiceCols false [])
      (Table.mk infraCanonCols false []) (Table.mk auditCols false [])
      "u@x" "Help Desk" "t1" 1 c3StateAfter .pyNone rfl (by decide) rfl
      (by decide) rfl (by decide) rfl (by decide) rfl (by decide)
      (by rfl)
    intro rr hrr
    exact hmain.2.2.2.2.2.2.2.1 rr hrr

/- ------------------------------------------------------------------
C4 — exactly one audit record per successful mutation.
------------------------------------------------------------------- -/

/-- Whether a data-layer return value is a validation/duplicate message
(the only non-successful normal returns). -/
def isMsgRet : PyRet → Bool
  | .pyStr _ => true
  | _ => false

theorem bool_false_of_not_true (b : Bool) (h : ¬ b = true) : b = false :=
  by
  cases b
  · rfl
  · exact absurd rfl h

theorem truthy_of_or_false_left (a b : Bool) (h : (!a || !b) = false) :
    a = true := by
  cases a
  · simp at h
  · rfl

theorem truthy_of_or_false_right (a b : Bool) (h : (!a || !b) = false) :
    b = true := by
  cases b
  · cases a <;> simp at h
  · rfl

theorem audit_add_it_unit (s s2 : DBState) (t ta : Table)
    (u name cp ce notes now : String) (fte : Int) (ba : ℚ) (bulk : Bool)
    (r2 : PyRet)
    (ht : s.it_units = some t)
    (hcols : itUnitCanonCols.all (fun c => c ∈ t.cols) = true)
    (hta : s.audit_log = some ta)
    (hacols : auditCols.all (fun c => c ∈ ta.cols) = true)
    (h : add_it_unit u name cp ce fte ba notes bulk now s = .ok (s2, r2)) :
    (isMsgRet r2 = false →
      tblRows s2.audit_log = ta.rows ++
        [newRowFor ta (auditAssigns u "CREATE" "IT Unit" name
          (if bulk then "Bulk Import" else "") now)]) ∧
    (isMsgRet r2 = true → s2 = s) := by
  by_cases hg : (!(truthyStr name) || !(truthyStr cp)) = true
  · rw [add_it_unit_missing s u name cp ce notes now fte ba bulk hg] at h
    have h2 := Except.ok.inj h
    rw [Prod.mk.injEq] at h2
    obtain ⟨hs2, hr2⟩ := h2
    subst hs2
    subst hr2
    exact ⟨fun hmsg => by simp [isMsgRet] at hmsg, fun _ => rfl⟩
  · have hgf := bool_false_of_not_true _ hg
    have hname := truthy_of_or_false_left _ _ hgf
    have hcp := truthy_of_or_false_right _ _ hgf
    by_cases hex : t.rows.any
        (fun r => getVal t.cols r "name" == Value.text name) = true
    · rw [add_it_unit_exists s t u name cp ce notes now fte ba bulk ht
        hcols hname hcp hex] at h
      have h2 := Except.ok.inj h
      rw [Prod.mk.injEq] at h2
      obtain ⟨hs2, hr2⟩ := h2
      subst hs2
      subst hr2
      exact ⟨fun hmsg => by simp [isMsgRet] at hmsg, fun _ => rfl⟩
    · rw [add_it_unit_eq s t ta u name cp ce notes now fte ba bulk ht
        hcols hta hacols hname hcp (bool_false_of_not_true _ hex)] at h
      have h2 := Except.ok.inj h
      rw [Prod.mk.injEq] at h2
      obtain ⟨hs2, hr2⟩ := h2
      subst hs2
      subst hr2
      exact ⟨fun _ => rfl, fun hmsg => by simp [isMsgRet] at hmsg⟩

theorem audit_update_it_unit (s s2 : DBState) (t ta : Table)
    (u name cp ce notes now : String) (unit_id fte : Int) (ba : ℚ)
    (r2 : PyRet)
    (ht : s.it_units = some t)
    (hcols : itUnitCanonCols.all (fun c => c ∈ t.cols) = true)
    (hta : s.audit_log = some ta)
    (hacols : auditCols.all (fun c => c ∈ ta.cols) = true)
    (h : update_it_unit_details u unit_id name cp ce fte ba notes now s =
      .ok (s2, r2)) :
    (isMsgRet r2 = false →
      tblRows s2.audit_log = ta.rows ++
        [newRowFor ta (auditAssigns u "UPDATE" "IT Unit" name "" now)]) ∧
    (isMsgRet r2 = true → s2 = s) := by
  by_cases hg : (!(truthyStr name) || !(truthyStr cp)) = true
  · rw [update_it_unit_details_missing s u name cp ce notes now unit_id
      fte ba hg] at h
    have h2 := Except.ok.inj h
    rw [Prod.mk.injEq] at h2
    obtain ⟨hs2, hr2⟩ := h2
    subst hs2
    subst hr2
    exact ⟨fun hmsg => by simp [isMsgRet] at hmsg, fun _ => rfl⟩
  · have hgf := bool_false_of_not_true _ hg
    have hname := truthy_of_or_false_left _ _ hgf
    have hcp := truthy_of_or_false_right _ _ hgf
    by_cases hd : (t.nameUnique &&
        (itUnitAssigns name cp ce fte ba notes).any
          (fun cv => cv.1 == "name") &&
        hasDupNames (t.updateWhere (itUnitAssigns name cp ce fte ba notes)
            "id" (Value.int unit_id)).cols
          (t.updateWhere (itUnitAssigns name cp ce fte ba notes)
            "id" (Value.int unit_id)).rows) = true
    · rw [update_it_unit_details_err s t u name cp ce notes now unit_id
        fte ba ht hcols hname hcp hd] at h
      cases h
    · rw [update_it_unit_details_eq s t ta u name cp ce notes now unit_id
        fte ba ht hcols hta hacols hname hcp
        (bool_false_of_not_true _ hd)] at h
      have h2 := Except.ok.inj h
      rw [Prod.mk.injEq] at h2
      obtain ⟨hs2, hr2⟩ := h2
      subst hs2
      subst hr2
      exact ⟨fun _ => rfl, fun hmsg => by simp [isMsgRet] at hmsg⟩

theorem audit_delete_it_unit (s s2 : DBState)
    (tu tapp tsvc tinf ta : Table) (u unm now : String) (unit_id : Int)
    (r2 : PyRet)
    (htu : s.it_units = some tu)
    (hucols : itUnitCanonCols.all (fun c => c ∈ tu.cols) = true)
    (htapp : s.applications = some tapp)
    (happ : newAppCols.all (fun c => c ∈ tapp.cols) = true)
    (htsvc : s.it_services = some tsvc)
    (hsvc : newServiceCols.all (fun c => c ∈ tsvc.cols) = true)
    (htinf : s.infrastructure = some tinf)
    (hinf : infraCanonCols.all (fun c => c ∈ tinf.cols) = true)
    (hta : s.audit_log = some ta)
    (hacols : auditCols.all (fun c => c ∈ ta.cols) = true)
    (h : delete_it_unit u unit_id unm now s = .ok (s2, r2)) :
    isMsgRet r2 = false ∧
    tblRows s2.audit_log = ta.rows ++
      [newRowFor ta (auditAssigns u "DELETE" "IT Unit" unm "" now)] := by
  rw [delete_it_unit_eq s tu tapp tsvc tinf ta u unm now unit_id htu
    hucols htapp happ htsvc hsvc htinf hinf hta hacols] at h
  have h2 := Except.ok.inj h
  rw [Prod.mk.injEq] at h2
  obtain ⟨hs2, hr2⟩ := h2
  subst hs2
  subst hr2
  exact ⟨rfl, rfl⟩

theorem audit_add_lookup_item (s s2 : DBState) (lt : LookupTable)
    (t ta : Table) (u name now : String) (r2 : PyRet)
    (ht : s.lookupGet lt = some t)
    (hcols : lookupCanonCols.all (fun c => c ∈ t.cols) = true)
    (hta : s.audit_log = some ta)
    (hacols : auditCols.all (fun c => c ∈ ta.cols) = true)
    (h : add_lookup_item u lt name now s = .ok (s2, r2)) :
    isMsgRet r2 = false ∧
    tblRows s2.audit_log = ta.rows ++
      [newRowFor ta (auditAssigns u "CREATE"
        ("Lookup: " ++ lt.tableName) name "" now)] := by
  by_cases hdup : dupNameOnInsert t [("name", Value.text name)] = true
  · rw [add_lookup_item_err s lt t u name now ht hcols hdup] at h
    cases h
  · rw [add_lookup_item_eq s lt t ta u name now ht hcols hta hacols
      (bool_false_of_not_true _ hdup)] at h
    have h2 := Except.ok.inj h
    rw [Prod.mk.injEq] at h2
    obtain ⟨hs2, hr2⟩ := h2
    subst hs2
    subst hr2
    exact ⟨rfl, rfl⟩

theorem audit_update_lookup_item (s s2 : DBState) (lt : LookupTable)
    (t ta : Table) (u nm now : String) (item_id : Int) (r2 : PyRet)
    (ht : s.lookupGet lt = some t)
    (hcols : lookupCanonCols.all (fun c => c ∈ t.cols) = true)
    (hta : s.audit_log = some ta)
    (hacols : auditCols.all (fun c => c ∈ ta.cols) = true)
    (h : update_lookup_item u lt item_id nm now s = .ok (s2, r2)) :
    isMsgRet r2 = false ∧
    tblRows s2.audit_log = ta.rows ++
      [newRowFor ta (auditAssigns u "UPDATE"
        ("Lookup: " ++ lt.tableName) nm "" now)] := by
  by_cases hd : (t.nameUnique &&
      ([("name", Value.text nm)] : List (String × Value)).any
        (fun cv => cv.1 == "name") &&
      hasDupNames (t.updateWhere [("name", Value.text nm)] "id"
          (Value.int item_id)).cols
        (t.updateWhere [("name", Value.text nm)] "id"
          (Value.int item_id)).rows) = true
  · unfold update_lookup_item at h
    rw [withTable_eq (s.lookupGet lt) t _ ht
      (all_sub _ lookupCanonCols t (by decide) hcols)] at h
    rw [updateWhereChecked_err t _ "id" (Value.int item_id)
      (lookupAssign_sub nm t hcols)
      (by rw [List.all_eq_true] at hcols
          have := hcols "id" (by simp [lookupCanonCols])
          simpa using this)
      hd] at h
    cases h
  · rw [update_lookup_item_eq s lt t ta u nm now item_id ht hcols hta
      hacols (bool_false_of_not_true _ hd)] at h
    have h2 := Except.ok.inj h
    rw [Prod.mk.injEq] at h2
    obtain ⟨hs2, hr2⟩ := h2
    subst hs2
    subst hr2
    exact ⟨rfl, rfl⟩

theorem audit_delete_lookup_item (s s2 : DBState) (lt : LookupTable)
    (t ta : Table) (u nm now : String) (item_id : Int) (r2 : PyRet)
    (ht : s.lookupGet lt = some t)
    (hcols : lookupCanonCols.all (fun c => c ∈ t.cols) = true)
    (hta : s.audit_log = some ta)
    (hacols : auditCols.all (fun c => c ∈ ta.cols) = true)
    (h : delete_lookup_item u lt item_id nm now s = .ok (s2, r2)) :
    isMsgRet r2 = false ∧
    tblRows s2.audit_log = ta.rows ++
      [newRowFor ta (auditAssigns u "DELETE"
        ("Lookup: " ++ lt.tableName) nm "" now)] := by
  rw [delete_lookup_item_eq s lt t ta u nm now item_id ht hcols hta
    hacols] at h
  have h2 := Except.ok.inj h
  rw [Prod.mk.injEq] at h2
  obtain ⟨hs2, hr2⟩ := h2
  subst hs2
  subst hr2
  exact ⟨rfl, rfl⟩

theorem audit_add_application (s s2 : DBState) (t ta : Table)
    (u name : String) (a b c d : Option Int) (cost : ℚ)
    (rd ig de sa so st : String) (bulk : Bool) (now : String)
    (r2 : PyRet)
    (ht : s.applications = some t)
    (hcols : newAppCols.all (fun cc => cc ∈ t.cols) = true)
    (hta : s.audit_log = some ta)
    (hacols : auditCols.all (fun cc => cc ∈ ta.cols) = true)
    (h : add_application u name a b c d cost rd ig de sa so st bulk now s =
      .ok (s2, r2)) :
    (isMsgRet r2 = false →
      tblRows s2.audit_log = ta.rows ++
        [newRowFor ta (auditAssigns u "CREATE" "Application" name
          (if bulk then "Bulk Import" else "") now)]) ∧
    (isMsgRet r2 = true → s2 = s) := by
  by_cases hg : (truthyStr name && truthyOpt a && truthyOpt b &&
      truthyOpt c) = true
  · by_cases hdup : (t.nameUnique && t.rows.any
        (fun r => getVal t.cols r "name" == Value.text name)) = true
    · rw [add_application_err s t u name a b c d cost rd ig de sa so st
        bulk now ht hcols hg hdup] at h
      cases h
    · rw [add_application_eq s t ta u name a b c d cost rd ig de sa so st
        bulk now ht hcols hta hacols hg
        (bool_false_of_not_true _ hdup)] at h
      have h2 := Except.ok.inj h
      rw [Prod.mk.injEq] at h2
      obtain ⟨hs2, hr2⟩ := h2
      subst hs2
      subst hr2
      exact ⟨fun _ => rfl, fun hmsg => by simp [isMsgRet] at hmsg⟩
  · rw [add_application_missing s u name a b c d cost rd ig de sa so st
      bulk now (bool_false_of_not_true _ hg)] at h
    have h2 := Except.ok.inj h
    rw [Prod.mk.injEq] at h2
    obtain ⟨hs2, hr2⟩ := h2
    subst hs2
    subst hr2
    exact ⟨fun hmsg => by simp [isMsgRet] at hmsg, fun _ => rfl⟩

theorem audit_update_application (s s2 : DBState) (t ta : Table)
    (u : String) (app_id : Int) (name : String) (a b c d : Option Int)
    (cost : ℚ) (rd ig de sa so st : String) (now : String) (r2 : PyRet)
    (ht : s.applications = some t)
    (hcols : newAppCols.all (fun cc => cc ∈ t.cols) = true)
    (hta : s.audit_log = some ta)
    (hacols : auditCols.all (fun cc => cc ∈ ta.cols) = true)
    (h : update_application u app_id name a b c d cost rd ig de sa so st
      now s = .ok (s2, r2)) :
    (isMsgRet r2 = false →
      tblRows s2.audit_log = ta.rows ++
        [newRowFor ta
          (auditAssigns u "UPDATE" "Application" name "" now)]) ∧
    (isMsgRet r2 = true → s2 = s) := by
  by_cases hg : (truthyStr name && truthyOpt a && truthyOpt b &&
      truthyOpt c) = true
  · by_cases hd : (t.nameUnique &&
        (appInsertAssigns name a b c d cost rd ig de sa so st).any
          (fun cv => cv.1 == "name") &&
        hasDupNames (t.updateWhere (appInsertAssigns name a b c d cost rd
            ig de sa so st) "id" (Value.int app_id)).cols
          (t.updateWhere (appInsertAssigns name a b c d cost rd ig de sa
            so st) "id" (Value.int app_id)).rows) = true
    · rw [update_application_err s t u app_id name a b c d cost rd ig de
        sa so st now ht hcols hg hd] at h
      cases h
    · rw [update_application_eq s t ta u app_id name a b c d cost rd ig de
        sa so st now ht hcols hta hacols hg
        (bool_false_of_not_true _ hd)] at h
      have h2 := Except.ok.inj h
      rw [Prod.mk.injEq] at h2
      obtain ⟨hs2, hr2⟩ := h2
      subst hs2
      subst hr2
      exact ⟨fun _ => rfl, fun hmsg => by simp [isMsgRet] at hmsg⟩
  · rw [update_application_missing s u app_id name a b c d cost rd ig de
      sa so st now (bool_false_of_not_true _ hg)] at h
    have h2 := Except.ok.inj h
    rw [Prod.mk.injEq] at h2
    obtain ⟨hs2, hr2⟩ := h2
    subst hs2
    subst hr2
    exact ⟨fun hmsg => by simp [isMsgRet] at hmsg, fun _ => rfl⟩

theorem audit_delete_application (s s2 : DBState) (t ta : Table)
    (u nm now : String) (app_id : Int) (r2 : PyRet)
    (ht : s.applications = some t)
    (hcols : newAppCols.all (fun cc => cc ∈ t.cols) = true)
    (hta : s.audit_log = some ta)
    (hacols : auditCols.all (fun cc => cc ∈ ta.cols) = true)
    (h : delete_application u app_id nm now s = .ok (s2, r2)) :
    isMsgRet r2 = false ∧
    tblRows s2.audit_log = ta.rows ++
      [newRowFor ta (auditAssigns u "DELETE" "Application" nm "" now)] :=
  by
  rw [delete_application_eq s t ta u nm now app_id ht hcols hta hacols]
    at h
  have h2 := Except.ok.inj h
  rw [Prod.mk.injEq] at h2
  obtain ⟨hs2, hr2⟩ := h2
  subst hs2
  subst hr2
  exact ⟨rfl, rfl⟩

theorem audit_add_it_service (s s2 : DBState) (t ta : Table)
    (u name : String) (iu : Option Int) (desc : String) (fte : Int)
    (deps owner status : String) (sla_id method_id : Option Int)
    (budget : ℚ) (bulk : Bool) (now : String) (r2 : PyRet)
    (ht : s.it_services = some t)
    (hcols : newServiceCols.all (fun cc => cc ∈ t.cols) = true)
    (hta : s.audit_log = some ta)
    (hacols : auditCols.all (fun cc => cc ∈ ta.cols) = true)
    (h : add_it_service u name iu desc fte deps owner status sla_id
      method_id budget bulk now s = .ok (s2, r2)) :
    (isMsgRet r2 = false →
      tblRows s2.audit_log = ta.rows ++
        [newRowFor ta (auditAssigns u "CREATE" "IT Service" name
          (if bulk then "Bulk Import" else "") now)]) ∧
    (isMsgRet r2 = true → s2 = s) := by
  by_cases hg : (!(truthyStr name) || !(truthyOpt iu)) = true
  · rw [add_it_service_missing s u name iu desc fte deps owner status
      sla_id method_id budget bulk now hg] at h
    have h2 := Except.ok.inj h
    rw [Prod.mk.injEq] at h2
    obtain ⟨hs2, hr2⟩ := h2
    subst hs2
    subst hr2
    exact ⟨fun hmsg => by simp [isMsgRet] at hmsg, fun _ => rfl⟩
  · have hgf := bool_false_of_not_true _ hg
    have hname := truthy_of_or_false_left _ _ hgf
    have hiu := truthy_of_or_false_right _ _ hgf
    by_cases hdup : (t.nameUnique && t.rows.any
        (fun r => getVal t.cols r "name" == Value.text name)) = true
    · rw [add_it_service_err s t u name iu desc fte deps owner status
        sla_id method_id budget bulk now ht hcols hname hiu hdup] at h
      cases h
    · rw [add_it_service_eq s t ta u name iu desc fte deps owner status
        sla_id method_id budget bulk now ht hcols hta hacols hname hiu
        (bool_false_of_not_true _ hdup)] at h
      have h2 := Except.ok.inj h
      rw [Prod.mk.injEq] at h2
      obtain ⟨hs2, hr2⟩ := h2
      subst hs2
      subst hr2
      exact ⟨fun _ => rfl, fun hmsg => by simp [isMsgRet] at hmsg⟩

theorem audit_update_it_service (s s2 : DBState) (t ta : Table)
    (u : String) (service_id : Int) (name : String) (iu : Option Int)
    (desc : String) (fte : Int) (deps owner status : String)
    (sla_id method_id : Option Int) (budget : ℚ) (now : String)
    (r2 : PyRet)
    (ht : s.it_services = some t)
    (hcols : newServiceCols.all (fun cc => cc ∈ t.cols) = true)
    (hta : s.audit_log = some ta)
    (hacols : auditCols.all (fun cc => cc ∈ ta.cols) = true)
    (h : update_it_service u service_id name iu desc fte deps owner status
      sla_id method_id budget now s = .ok (s2, r2)) :
    (isMsgRet r2 = false →
      tblRows s2.audit_log = ta.rows ++
        [newRowFor ta
          (auditAssigns u "UPDATE" "IT Service" name "" now)]) ∧
    (isMsgRet r2 = true → s2 = s) := by
  by_cases hg : (!(truthyStr name) || !(truthyOpt iu)) = true
  · rw [update_it_service_missing s u service_id name iu desc fte deps
      owner status sla_id method_id budget now hg] at h
    have h2 := Except.ok.inj h
    rw [Prod.mk.injEq] at h2
    obtain ⟨hs2, hr2⟩ := h2
    subst hs2
    subst hr2
    exact ⟨fun hmsg => by simp [isMsgRet] at hmsg, fun _ => rfl⟩
  · have hgf := bool_false_of_not_true _ hg
    have hname := truthy_of_or_false_left _ _ hgf
    have hiu := truthy_of_or_false_right _ _ hgf
    by_cases hd : (t.nameUnique &&
        (serviceInsertAssigns name iu desc fte deps owner status sla_id
          method_id budget).any (fun cv => cv.1 == "name") &&
        hasDupNames (t.updateWhere (serviceInsertAssigns name iu desc fte
            deps owner status sla_id method_id budget) "id"
            (Value.int service_id)).cols
          (t.updateWhere (serviceInsertAssigns name iu desc fte deps owner
            status sla_id method_id budget) "id"
            (Value.int service_id)).rows) = true
    · rw [update_it_service_err s t u service_id name iu desc fte deps
        owner status sla_id method_id budget now ht hcols hname hiu hd]
        at h
      cases h
    · rw [update_it_service_eq s t ta u service_id name iu desc fte deps
        owner status sla_id method_id budget now ht hcols hta hacols hname
        hiu (bool_false_of_not_true _ hd)] at h
      have h2 := Except.ok.inj h
      rw [Prod.mk.injEq] at h2
      obtain ⟨hs2, hr2⟩ := h2
      subst hs2
      subst hr2
      exact ⟨fun _ => rfl, fun hmsg => by simp [isMsgRet] at hmsg⟩

theorem audit_delete_it_service (s s2 : DBState) (t ta : Table)
    (u nm now : String) (service_id : Int) (r2 : PyRet)
    (ht : s.it_services = some t)
    (hcols : newServiceCols.all (fun cc => cc ∈ t.cols) = true)
    (hta : s.audit_log = some ta)
    (hacols : auditCols.all (fun cc => cc ∈ ta.cols) = true)
    (h : delete_it_service u service_id nm now s = .ok (s2, r2)) :
    isMsgRet r2 = false ∧
    tblRows s2.audit_log = ta.rows ++
      [newRowFor ta (auditAssigns u "DELETE" "IT Service" nm "" now)] :=
  by
  rw [delete_it_service_eq s t ta u nm now service_id ht hcols hta hacols]
    at h
  have h2 := Except.ok.inj h
  rw [Prod.mk.injEq] at h2
  obtain ⟨hs2, hr2⟩ := h2
  subst hs2
  subst hr2
  exact ⟨rfl, rfl⟩

theorem audit_add_infrastructure (s s2 : DBState) (t ta : Table)
    (u name : String) (iu vi : Option Int) (location status : String)
    (cost : ℚ) (description : String) (bulk : Bool) (now : String)
    (r2 : PyRet)
    (ht : s.infrastructure = some t)
    (hcols : infraCanonCols.all (fun cc => cc ∈ t.cols) = true)
    (hta : s.audit_log = some ta)
    (hacols : auditCols.all (fun cc => cc ∈ ta.cols) = true)
    (h : add_infrastructure u name iu vi location status cost description
      bulk now s = .ok (s2, r2)) :
    (isMsgRet r2 = false →
      tblRows s2.audit_log = ta.rows ++
        [newRowFor ta (auditAssigns u "CREATE" "Infrastructure" name
          (if bulk then "Bulk Import" else "") now)]) ∧
    (isMsgRet r2 = true → s2 = s) := by
  by_cases hg : (!(truthyStr name) || !(truthyOpt iu)) = true
  · rw [add_infrastructure_missing s u name iu vi location status cost
      description bulk now hg] at h
    have h2 := Except.ok.inj h
    rw [Prod.mk.injEq] at h2
    obtain ⟨hs2, hr2⟩ := h2
    subst hs2
    subst hr2
    exact ⟨fun hmsg => by simp [isMsgRet] at hmsg, fun _ => rfl⟩
  · have hgf := bool_false_of_not_true _ hg
    have hname := truthy_of_or_false_left _ _ hgf
    have hiu := truthy_of_or_false_right _ _ hgf
    by_cases hdup : (t.nameUnique && t.rows.any
        (fun r => getVal t.cols r "name" == Value.text name)) = true
    · rw [add_infrastructure_err s t u name iu vi location status cost
        description bulk now ht hcols hname hiu hdup] at h
      cases h
    · rw [add_infrastructure_eq s t ta u name iu vi location status cost
        description bulk now ht hcols hta hacols hname hiu
        (bool_false_of_not_true _ hdup)] at h
      have h2 := Except.ok.inj h
      rw [Prod.mk.injEq] at h2
      obtain ⟨hs2, hr2⟩ := h2
      subst hs2
      subst hr2
      exact ⟨fun _ => rfl, fun hmsg => by simp [isMsgRet] at hmsg⟩

theorem audit_update_infrastructure (s s2 : DBState) (t ta : Table)
    (u : String) (infra_id : Int) (name : String) (iu vi : Option Int)
    (location status : String) (cost : ℚ) (description : String)
    (now : String) (r2 : PyRet)
    (ht : s.infrastructure = some t)
    (hcols : infraCanonCols.all (fun cc => cc ∈ t.cols) = true)
    (hta : s.audit_log = some ta)
    (hacols : auditCols.all (fun cc => cc ∈ ta.cols) = true)
    (h : update_infrastructure u infra_id name iu vi location status cost
      description now s = .ok (s2, r2)) :
    (isMsgRet r2 = false →
      tblRows s2.audit_log = ta.rows ++
        [newRowFor ta
          (auditAssigns u "UPDATE" "Infrastructure" name "" now)]) ∧
    (isMsgRet r2 = true → s2 = s) := by
  by_cases hg : (!(truthyStr name) || !(truthyOpt iu)) = true
  · rw [update_infrastructure_missing s u infra_id name iu vi location
      status cost description now hg] at h
    have h2 := Except.ok.inj h
    rw [Prod.mk.injEq] at h2
    obtain ⟨hs2, hr2⟩ := h2
    subst hs2
    subst hr2
    exact ⟨fun hmsg => by simp [isMsgRet] at hmsg, fun _ => rfl⟩
  · have hgf := bool_false_of_not_true _ hg
    have hname := truthy_of_or_false_left _ _ hgf
    have hiu := truthy_of_or_false_right _ _ hgf
    by_cases hd : (t.nameUnique &&
        (infraInsertAssigns name iu vi location status cost
          description).any (fun cv => cv.1 == "name") &&
        hasDupNames (t.updateWhere (infraInsertAssigns name iu vi location
            status cost description) "id" (Value.int infra_id)).cols
          (t.updateWhere (infraInsertAssigns name iu vi location status
            cost description) "id" (Value.int infra_id)).rows) = true
    · rw [update_infrastructure_err s t u infra_id name iu vi location
        status cost description now ht hcols hname hiu hd] at h
      cases h
    · rw [update_infrastructure_eq s t ta u infra_id name iu vi location
        status cost description now ht hcols hta hacols hname hiu
        (bool_false_of_not_true _ hd)] at h
      have h2 := Except.ok.inj h
      rw [Prod.mk.injEq] at h2
      obtain ⟨hs2, hr2⟩ := h2
      subst hs2
      subst hr2
      exact ⟨fun _ => rfl, fun hmsg => by simp [isMsgRet] at hmsg⟩

theorem audit_delete_infrastructure (s s2 : DBState) (t ta : Table)
    (u nm now : String) (infra_id : Int) (r2 : PyRet)
    (ht : s.infrastructure = some t)
    (hcols : infraCanonCols.all (fun cc => cc ∈ t.cols) = true)
    (hta : s.audit_log = some ta)
    (hacols : auditCols.all (fun cc => cc ∈ ta.cols) = true)
    (h : delete_infrastructure u infra_id nm now s = .ok (s2, r2)) :
    isMsgRet r2 = false ∧
    tblRows s2.audit_log = ta.rows ++
      [newRowFor ta
        (auditAssigns u "DELETE" "Infrastructure" nm "" now)] := by
  rw [delete_infrastructure_eq s t ta u nm now infra_id ht hcols hta
    hacols] at h
  have h2 := Except.ok.inj h
  rw [Prod.mk.injEq] at h2
  obtain ⟨hs2, hr2⟩ := h2
  subst hs2
  subst hr2
  exact ⟨rfl, rfl⟩

/-- The post-state of creating the IT Unit "Net IT" on the freshly
migrated store. -/
def c4W2 : DBState :=
  (dbAfterInit.setItUnits
    { Table.mk itUnitCanonCols true [] with rows :=
        [newRowFor (Table.mk itUnitCanonCols true [])
          (itUnitAssigns "Net IT" "Pat" "" 0 0 "")] }).setAudit
  { Table.mk auditCols false [] with rows :=
      [newRowFor (Table.mk auditCols false [])
        (auditAssigns "u@x" "CREATE" "IT Unit" "Net IT" "" "t0")] }

/-- The post-state of deleting the (absent) Application 7 on the freshly
migrated store. -/
def c4W3 : DBState :=
  (dbAfterInit.setApplications
    ((Table.mk newAppCols false []).deleteWhere "id"
      (Value.int 7))).setAudit
  { Table.mk auditCols false [] with rows :=
      [newRowFor (Table.mk auditCols false [])
        (auditAssigns "u@x" "DELETE" "Application" "Ghost" "" "t0")] }

/-- C4.  Every successful create, update, or delete on every entity and
lookup table appends exactly one new audit record whose action, item type
and item name match the mutation (validation-message returns leave the
state, hence the audit log, unchanged; storage errors abort before any
audit write).  One conjunct per mutating function of database.py. -/
theorem audit_per_mutation :
    (∀ (s s2 : DBState) (t ta : Table)
      (u name cp ce notes now : String) (fte : Int) (ba : ℚ) (bulk : Bool)
      (r2 : PyRet),
      s.it_units = some t →
      itUnitCanonCols.all (fun c => c ∈ t.cols) = true →
      s.audit_log = some ta →
      auditCols.all (fun c => c ∈ ta.cols) = true →
      add_it_unit u name cp ce fte ba notes bulk now s = .ok (s2, r2) →
      (isMsgRet r2 = false →
        tblRows s2.audit_log = ta.rows ++
          [newRowFor ta (auditAssigns u "CREATE" "IT Unit" name
            (if bulk then "Bulk Import" else "") now)]) ∧
      (isMsgRet r2 = true → s2 = s)) ∧
    (∀ (s s2 : DBState) (t ta : Table)
      (u name cp ce notes now : String) (unit_id fte : Int) (ba : ℚ)
      (r2 : PyRet),
      s.it_units = some t →
      itUnitCanonCols.all (fun c => c ∈ t.cols) = true →
      s.audit_log = some ta →
      auditCols.all (fun c => c ∈ ta.cols) = true →
      update_it_unit_details u unit_id name cp ce fte ba notes now s =
        .ok (s2, r2) →
      (isMsgRet r2 = false →
        tblRows s2.audit_log = ta.rows ++
          [newRowFor ta (auditAssigns u "UPDATE" "IT Unit" name "" now)]) ∧
      (isMsgRet r2 = true → s2 = s)) ∧
    (∀ (s s2 : DBState) (tu tapp tsvc tinf ta : Table)
      (u unm now : String) (unit_id : Int) (r2 : PyRet),
      s.it_units = some tu →
      itUnitCanonCols.all (fun c => c ∈ tu.cols) = true →
      s.applications = some tapp →
      newAppCols.all (fun c => c ∈ tapp.cols) = true →
      s.it_services = some tsvc →
      newServiceCols.all (fun c => c ∈ tsvc.cols) = true →
      s.infrastructure = some tinf →
      infraCanonCols.all (fun c => c ∈ tinf.cols) = true →
      s.audit_log = some ta →
      auditCols.all (fun c => c ∈ ta.cols) = true →
      delete_it_unit u unit_id unm now s = .ok (s2, r2) →
      isMsgRet r2 = false ∧
      tblRows s2.audit_log = ta.rows ++
        [newRowFor ta (auditAssigns u "DELETE" "IT Unit" unm "" now)]) ∧
    (∀ (s s2 : DBState) (lt : LookupTable) (t ta : Table)
      (u name now : String) (r2 : PyRet),
      s.lookupGet lt = some t →
      lookupCanonCols.all (fun c => c ∈ t.cols) = true →
      s.audit_log = some ta →
      auditCols.all (fun c => c ∈ ta.cols) = true →
      add_lookup_item u lt name now s = .ok (s2, r2) →
      isMsgRet r2 = false ∧
      tblRows s2.audit_log = ta.rows ++
        [newRowFor ta (auditAssigns u "CREATE"
          ("Lookup: " ++ lt.tableName) name "" now)]) ∧
    (∀ (s s2 : DBState) (lt : LookupTable) (t ta : Table)
      (u nm now : String) (item_id : Int) (r2 : PyRet),
      s.lookupGet lt = some t →
      lookupCanonCols.all (fun c => c ∈ t.cols) = true →
      s.audit_log = some ta →
      auditCols.all (fun c => c ∈ ta.cols) = true →
      update_lookup_item u lt item_id nm now s = .ok (s2, r2) →
      isMsgRet r2 = false ∧
      tblRows s2.audit_log = ta.rows ++
        [newRowFor ta (auditAssigns u "UPDATE"
          ("Lookup: " ++ lt.tableName) nm "" now)]) ∧
    (∀ (s s2 : DBState) (lt : LookupTable) (t ta : Table)
      (u nm now : String) (item_id : Int) (r2 : PyRet),
      s.lookupGet lt = some t →
      lookupCanonCols.all (fun c => c ∈ t.cols) = true →
      s.audit_log = some ta →
      auditCols.all (fun c => c ∈ ta.cols) = true →
      delete_lookup_item u lt item_id nm now s = .ok (s2, r2) →
      isMsgRet r2 = false ∧
      tblRows s2.audit_log = ta.rows ++
        [newRowFor ta (auditAssigns u "DELETE"
          ("Lookup: " ++ lt.tableName) nm "" now)]) ∧
    (∀ (s s2 : DBState) (t ta : Table)
      (u name : String) (a b c d : Option Int) (cost : ℚ)
      (rd ig de sa so st : String) (bulk : Bool) (now : String)
      (r2 : PyRet),
      s.applications = some t →
      newAppCols.all (fun cc => cc ∈ t.cols) = true →
      s.audit_log = some ta →
      auditCols.all (fun cc => cc ∈ ta.cols) = true →
      add_application u name a b c d cost rd ig de sa so st bulk now s =
        .ok (s2, r2) →
      (isMsgRet r2 = false →
        tblRows s2.audit_log = ta.rows ++
          [newRowFor ta (auditAssigns u "CREATE" "Application" name
            (if bulk then "Bulk Import" else "") now)]) ∧
      (isMsgRet r2 = true → s2 = s)) ∧
    (∀ (s s2 : DBState) (t ta : Table)
      (u : String) (app_id : Int) (name : String) (a b c d : Option Int)
      (cost : ℚ) (rd ig de sa so st : String) (now : String) (r2 : PyRet),
      s.applications = some t →
      newAppCols.all (fun cc => cc ∈ t.cols) = true →
      s.audit_log = some ta →
      auditCols.all (fun cc => cc ∈ ta.cols) = true →
      update_application u app_id name a b c d cost rd ig de sa so st now
        s = .ok (s2, r2) →
      (isMsgRet r2 = false →
        tblRows s2.audit_log = ta.rows ++
          [newRowFor ta
            (auditAssigns u "UPDATE" "Application" name "" now)]) ∧
      (isMsgRet r2 = true → s2 = s)) ∧
    (∀ (s s2 : DBState) (t ta : Table) (u nm now : String) (app_id : Int)
      (r2 : PyRet),
      s.applications = some t →
      newAppCols.all (fun cc => cc ∈ t.cols) = true →
      s.audit_log = some ta →
      auditCols.all (fun cc => cc ∈ ta.cols) = true →
      delete_application u app_id nm now s = .ok (s2, r2) →
      isMsgRet r2 = false ∧
      tblRows s2.audit_log = ta.rows ++
        [newRowFor ta
          (auditAssigns u "DELETE" "Application" nm "" now)]) ∧
    (∀ (s s2 : DBState) (t ta : Table)
      (u name : String) (iu : Option Int) (desc : String) (fte : Int)
      (deps owner status : String) (sla_id method_id : Option Int)
      (budget : ℚ) (bulk : Bool) (now : String) (r2 : PyRet),
      s.it_services = some t →
      newServiceCols.all (fun cc => cc ∈ t.cols) = true →
      s.audit_log = some ta →
      auditCols.all (fun cc => cc ∈ ta.cols) = true →
      add_it_service u name iu desc fte deps owner status sla_id method_id
        budget bulk now s = .ok (s2, r2) →
      (isMsgRet r2 = false →
        tblRows s2.audit_log = ta.rows ++
          [newRowFor ta (auditAssigns u "CREATE" "IT Service" name
            (if bulk then "Bulk Import" else "") now)]) ∧
      (isMsgRet r2 = true → s2 = s)) ∧
    (∀ (s s2 : DBState) (t ta : Table)
      (u : String) (service_id : Int) (name : String) (iu : Option Int)
      (desc : String) (fte : Int) (deps owner status : String)
      (sla_id method_id : Option Int) (budget : ℚ) (now : String)
      (r2 : PyRet),
      s.it_services = some t →
      newServiceCols.all (fun cc => cc ∈ t.cols) = true →
      s.audit_log = some ta →
      auditCols.all (fun cc => cc ∈ ta.cols) = true →
      update_it_service u service_id name iu desc fte deps owner status
        sla_id method_id budget now s = .ok (s2, r2) →
      (isMsgRet r2 = false →
        tblRows s2.audit_log = ta.rows ++
          [newRowFor ta
            (auditAssigns u "UPDATE" "IT Service" name "" now)]) ∧
      (isMsgRet r2 = true → s2 = s)) ∧
    (∀ (s s2 : DBState) (t ta : Table) (u nm now : String)
      (service_id : Int) (r2 : PyRet),
      s.it_services = some t →
      newServiceCols.all (fun cc => cc ∈ t.cols) = true →
      s.audit_log = some ta →
      auditCols.all (fun cc => cc ∈ ta.cols) = true →
      delete_it_service u service_id nm now s = .ok (s2, r2) →
      isMsgRet r2 = false ∧
      tblRows s2.audit_log = ta.rows ++
        [newRowFor ta
          (auditAssigns u "DELETE" "IT Service" nm "" now)]) ∧
    (∀ (s s2 : DBState) (t ta : Table)
      (u name : String) (iu vi : Option Int) (location status : String)
      (cost : ℚ) (description : String) (bulk : Bool) (now : String)
      (r2 : PyRet),
      s.infrastructure = some t →
      infraCanonCols.all (fun cc => cc ∈ t.cols) = true →
      s.audit_log = some ta →
      auditCols.all (fun cc => cc ∈ ta.cols) = true →
      add_infrastructure u name iu vi location status cost description
        bulk now s = .ok (s2, r2) →
      (isMsgRet r2 = false →
        tblRows s2.audit_log = ta.rows ++
          [newRowFor ta (auditAssigns u "CREATE" "Infrastructure" name
            (if bulk then "Bulk Import" else "") now)]) ∧
      (isMsgRet r2 = true → s2 = s)) ∧
    (∀ (s s2 : DBState) (t ta : Table)
      (u : String) (infra_id : Int) (name : String) (iu vi : Option Int)
      (location status : String) (cost : ℚ) (description : String)
      (now : String) (r2 : PyRet),
      s.infrastructure = some t →
      infraCanonCols.all (fun cc => cc ∈ t.cols) = true →
      s.audit_log = some ta →
      auditCols.all (fun cc => cc ∈ ta.cols) = true →
      update_infrastructure u infra_id name iu vi location status cost
        description now s = .ok (s2, r2) →
      (isMsgRet r2 = false →
        tblRows s2.audit_log = ta.rows ++
          [newRowFor ta
            (auditAssigns u "UPDATE" "Infrastructure" name "" now)]) ∧
      (isMsgRet r2 = true → s2 = s)) ∧
    (∀ (s s2 : DBState) (t ta : Table) (u nm now : String)
      (infra_id : Int) (r2 : PyRet),
      s.infrastructure = some t →
      infraCanonCols.all (fun cc => cc ∈ t.cols) = true →
      s.audit_log = some ta →
      auditCols.all (fun cc => cc ∈ ta.cols) = true →
      delete_infrastructure u infra_id nm now s = .ok (s2, r2) →
      isMsgRet r2 = false ∧
      tblRows s2.audit_log = ta.rows ++
        [newRowFor ta
          (auditAssigns u "DELETE" "Infrastructure" nm "" now)]) :=
  ⟨audit_add_it_unit, audit_update_it_unit, audit_delete_it_unit,
   audit_add_lookup_item, audit_update_lookup_item,
   audit_delete_lookup_item, audit_add_application,
   audit_update_application, audit_delete_application,
   audit_add_it_service, audit_update_it_service, audit_delete_it_service,
   audit_add_infrastructure, audit_update_infrastructure,
   audit_delete_infrastructure⟩

/-- Witness for C4: on the freshly migrated store, creating the IT Unit
"Net IT" appends exactly the one CREATE audit row, and deleting the
absent Application 7 appends exactly the one DELETE audit row. -/
theorem audit_per_mutation_witness :
    (tblRows c4W2.audit_log = [] ++
      [newRowFor (Table.mk auditCols false [])
        (auditAssigns "u@x" "CREATE" "IT Unit" "Net IT" "" "t0")]) ∧
    (isMsgRet .pyNone = false ∧
     tblRows c4W3.audit_log = [] ++
      [newRowFor (Table.mk auditCols false [])
        (auditAssigns "u@x" "DELETE" "Application" "Ghost" "" "t0")]) :=
  ⟨(audit_per_mutation.1 dbAfterInit c4W2
      (Table.mk itUnitCanonCols true []) (Table.mk auditCols false [])
      "u@x" "Net IT" "Pat" "" "" "t0" 0 0 false .pyTrue rfl (by decide)
      rfl (by decide) (by rfl)).1 rfl,
   audit_per_mutation.2.2.2.2.2.2.2.2.1 dbAfterInit c4W3
      (Table.mk newAppCols false []) (Table.mk auditCols false [])
      "u@x" "Ghost" "t0" 7 .pyNone rfl (by decide) rfl (by decide)
      (by rfl)⟩

/- ------------------------------------------------------------------
C10 — deletes whose id matches no row.
------------------------------------------------------------------- -/

theorem rows_update_no_match (cols : List String)
    (assigns : List (String × Value)) (wcol : String) (wval : Value) :
    ∀ (rows : List (List Value)),
    (∀ r ∈ rows, (getVal cols r wcol == wval) = false) →
    rows.map (fun r => if getVal cols r wcol == wval then
        assigns.foldl (fun r cv => setVal cols cv.1 cv.2 r) r else r) =
      rows
  | [], _ => rfl
  | a :: rows, h => by
    rw [List.map_cons,
      if_neg (by rw [h a (List.mem_cons_self a rows)]; simp),
      rows_update_no_match cols assigns wcol wval rows
        (fun r hr => h r (List.mem_cons_of_mem a hr))]

theorem updateWhere_no_match (t : Table)
    (assigns : List (String × Value)) (wcol : String) (wval : Value)
    (h : t.rows.all (fun r => !(getVal t.cols r wcol == wval)) = true) :
    t.updateWhere assigns wcol wval = t := by
  unfold Table.updateWhere
  rw [rows_update_no_match t.cols assigns wcol wval t.rows
    (by rw [List.all_eq_true] at h
        intro r hr
        have h2 := h r hr
        simpa using h2)]

theorem deleteWhere_no_match (t : Table) (wcol : String) (wval : Value)
    (h : t.rows.all (fun r => !(getVal t.cols r wcol == wval)) = true) :
    t.deleteWhere wcol wval = t := by
  unfold Table.deleteWhere
  have h2 : t.rows.filter (fun r => !(getVal t.cols r wcol == wval)) =
      t.rows :=
    List.filter_eq_self.mpr (by rw [List.all_eq_true] at h; exact h)
  rw [h2]

theorem setItUnits_self (s : DBState) (t : Table)
    (h : s.it_units = some t) : s.setItUnits t = s := by
  unfold DBState.setItUnits
  rw [← h]

theorem setApplications_self (s : DBState) (t : Table)
    (h : s.applications = some t) : s.setApplications t = s := by
  unfold DBState.setApplications
  rw [← h]

theorem setItServices_self (s : DBState) (t : Table)
    (h : s.it_services = some t) : s.setItServices t = s := by
  unfold DBState.setItServices
  rw [← h]

theorem setInfrastructure_self (s : DBState) (t : Table)
    (h : s.infrastructure = some t) : s.setInfrastructure t = s := by
  unfold DBState.setInfrastructure
  rw [← h]

theorem lookupSet_self (s : DBState) (lt : LookupTable) (t : Table)
    (h : s.lookupGet lt = some t) : s.lookupSet lt t = s := by
  cases lt with
  | vendors =>
    have h2 : s.vendors = some t := h
    show { s with vendors := some t } = s
    rw [← h2]
  | service_types =>
    have h2 : s.service_types = some t := h
    show { s with service_types := some t } = s
    rw [← h2]
  | categories =>
    have h2 : s.categories = some t := h
    show { s with categories := some t } = s
    rw [← h2]
  | sla_levels =>
    have h2 : s.sla_levels = some t := h
    show { s with sla_levels := some t } = s
    rw [← h2]
  | service_methods =>
    have h2 : s.service_methods = some t := h
    show { s with service_methods := some t } = s
    rw [← h2]

/-- An application row whose it_unit_id (5) refers to no existing IT
Unit. -/
def c10AppRow : List Value :=
  newRowFor (Table.mk newAppCols false [])
    (appInsertAssigns "VPN" (some 5) (some 1) (some 1) (some 1) 10 "" ""
      "" "" "" "Active")

def c10AppsTable : Table := Table.mk newAppCols false [c10AppRow]

/-- A migrated store with one application that dangles on it_unit_id 5
while it_units is empty. -/
def c10State : DBState :=
  { dbAfterInit with applications := some c10AppsTable }

/-- The state delete_it_unit leaves behind on `c10State`. -/
def c10After : DBState :=
  (((((c10State.setItUnits
      ((Table.mk itUnitCanonCols true []).deleteWhere "id"
        (Value.int 5))).setApplications
      (c10AppsTable.updateWhere [("it_unit_id", Value.null)] "it_unit_id"
        (Value.int 5))).setItServices
      ((Table.mk newServiceCols false []).updateWhere
        [("it_unit_id", Value.null)] "it_unit_id"
        (Value.int 5))).setInfrastructure
      ((Table.mk infraCanonCols false []).updateWhere
        [("it_unit_id", Value.null)] "it_unit_id"
        (Value.int 5))).setAudit
    { Table.mk auditCols false [] with rows :=
        [newRowFor (Table.mk auditCols false [])
          (auditAssigns "u@x" "DELETE" "IT Unit" "Ghost" "" "t0")] })

/-- Counterexample to C10 as stated.  `it_units` holds no row with id 5,
yet delete_it_unit 5 completes, appends a DELETE audit record, and does
NOT leave every data row unchanged: the dangling it_unit_id 5 of the
application "VPN" is overwritten with NULL. -/
theorem delete_missing_id_rows_changed_cx :
    tblRows c10State.it_units = [] ∧
    getVal newAppCols c10AppRow "it_unit_id" = Value.int 5 ∧
    delete_it_unit "u@x" 5 "Ghost" "t0" c10State =
      .ok (c10After, .pyNone) ∧
    tblRows c10After.audit_log =
      [newRowFor (Table.mk auditCols false [])
        (auditAssigns "u@x" "DELETE" "IT Unit" "Ghost" "" "t0")] ∧
    tblRows c10After.applications ≠ tblRows c10State.applications ∧
    getVal newAppCols
      ((tblRows c10After.applications).getD 0 []) "it_unit_id" =
      Value.null :=
  ⟨rfl, rfl, by rfl, by rfl, by decide, by rfl⟩

/-- C10 (amended).  Calling any delete with an id that matches no row of
the target table completes without error and still appends one DELETE
audit record.  For delete_application, delete_it_service,
delete_infrastructure and delete_lookup_item the audit log is the ONLY
thing that changes; for delete_it_unit this additionally requires that no
referencing table dangles on the deleted id, since its reference-nulling
UPDATEs run regardless (see the counterexample). -/
theorem delete_unmatched_id_audits_without_removal :
    (∀ (s : DBState) (lt : LookupTable) (t ta : Table)
      (u nm now : String) (item_id : Int),
      s.lookupGet lt = some t →
      lookupCanonCols.all (fun c => c ∈ t.cols) = true →
      s.audit_log = some ta →
      auditCols.all (fun c => c ∈ ta.cols) = true →
      t.rows.all (fun r => !(getVal t.cols r "id" == Value.int item_id))
        = true →
      delete_lookup_item u lt item_id nm now s =
        .ok (s.setAudit { ta with rows := ta.rows ++
          [newRowFor ta (auditAssigns u "DELETE"
            ("Lookup: " ++ lt.tableName) nm "" now)] }, .pyNone)) ∧
    (∀ (s : DBState) (t ta : Table) (u nm now : String) (app_id : Int),
      s.applications = some t →
      newAppCols.all (fun c => c ∈ t.cols) = true →
      s.audit_log = some ta →
      auditCols.all (fun c => c ∈ ta.cols) = true →
      t.rows.all (fun r => !(getVal t.cols r "id" == Value.int app_id))
        = true →
      delete_application u app_id nm now s =
        .ok (s.setAudit { ta with rows := ta.rows ++
          [newRowFor ta
            (auditAssigns u "DELETE" "Application" nm "" now)] },
          .pyNone)) ∧
    (∀ (s : DBState) (t ta : Table) (u nm now : String)
      (service_id : Int),
      s.it_services = some t →
      newServiceCols.all (fun c => c ∈ t.cols) = true →
      s.audit_log = some ta →
      auditCols.all (fun c => c ∈ ta.cols) = true →
      t.rows.all (fun r =>
        !(getVal t.cols r "id" == Value.int service_id)) = true →
      delete_it_service u service_id nm now s =
        .ok (s.setAudit { ta with rows := ta.rows ++
          [newRowFor ta
            (auditAssigns u "DELETE" "IT Service" nm "" now)] },
          .pyNone)) ∧
    (∀ (s : DBState) (t ta : Table) (u nm now : String) (infra_id : Int),
      s.infrastructure = some t →
      infraCanonCols.all (fun c => c ∈ t.cols) = true →
      s.audit_log = some ta →
      auditCols.all (fun c => c ∈ ta.cols) = true →
      t.rows.all (fun r => !(getVal t.cols r "id" == Value.int infra_id))
        = true →
      delete_infrastructure u infra_id nm now s =
        .ok (s.setAudit { ta with rows := ta.rows ++
          [newRowFor ta
            (auditAssigns u "DELETE" "Infrastructure" nm "" now)] },
          .pyNone)) ∧
    (∀ (s : DBState) (tu tapp tsvc tinf ta : Table)
      (u unm now : String) (unit_id : Int),
      s.it_units = some tu →
      itUnitCanonCols.all (fun c => c ∈ tu.cols) = true →
      s.applications = some tapp →
      newAppCols.all (fun c => c ∈ tapp.cols) = true →
      s.it_services = some tsvc →
      newServiceCols.all (fun c => c ∈ tsvc.cols) = true →
      s.infrastructure = some tinf →
      infraCanonCols.all (fun c => c ∈ tinf.cols) = true →
      s.audit_log = some ta →
      auditCols.all (fun c => c ∈ ta.cols) = true →
      tu.rows.all (fun r => !(getVal tu.cols r "id" == Value.int unit_id))
        = true →
      tapp.rows.all (fun r =>
        !(getVal tapp.cols r "it_unit_id" == Value.int unit_id)) = true →
      tsvc.rows.all (fun r =>
        !(getVal tsvc.cols r "it_unit_id" == Value.int unit_id)) = true →
      tinf.rows.all (fun r =>
        !(getVal tinf.cols r "it_unit_id" == Value.int unit_id)) = true →
      delete_it_unit u unit_id unm now s =
        .ok (s.setAudit { ta with rows := ta.rows ++
          [newRowFor ta (auditAssigns u "DELETE" "IT Unit" unm "" now)] },
          .pyNone)) := by
  refine ⟨?_, ?_, ?_, ?_, ?_⟩
  · intro s lt t ta u nm now item_id ht hcols hta hacols hnone
    rw [delete_lookup_item_eq s lt t ta u nm now item_id ht hcols hta
      hacols, deleteWhere_no_match t "id" (Value.int item_id) hnone,
      lookupSet_self s lt t ht]
    rfl
  · intro s t ta u nm now app_id ht hcols hta hacols hnone
    rw [delete_application_eq s t ta u nm now app_id ht hcols hta hacols,
      deleteWhere_no_match t "id" (Value.int app_id) hnone,
      setApplications_self s t ht]
  · intro s t ta u nm now service_id ht hcols hta hacols hnone
    rw [delete_it_service_eq s t ta u nm now service_id ht hcols hta
      hacols, deleteWhere_no_match t "id" (Value.int service_id) hnone,
      setItServices_self s t ht]
  · intro s t ta u nm now infra_id ht hcols hta hacols hnone
    rw [delete_infrastructure_eq s t ta u nm now infra_id ht hcols hta
      hacols, deleteWhere_no_match t "id" (Value.int infra_id) hnone,
      setInfrastructure_self s t ht]
  · intro s tu tapp tsvc tinf ta u unm now unit_id htu hucols htapp happ
      htsvc hsvc htinf hinf hta hacols hnu hna hns hni
    rw [delete_it_unit_eq s tu tapp tsvc tinf ta u unm now unit_id htu
      hucols htapp happ htsvc hsvc htinf hinf hta hacols,
      deleteWhere_no_match tu "id" (Value.int unit_id) hnu,
      updateWhere_no_match tapp [("it_unit_id", Value.null)] "it_unit_id"
        (Value.int unit_id) hna,
      updateWhere_no_match tsvc [("it_unit_id", Value.null)] "it_unit_id"
        (Value.int unit_id) hns,
      updateWhere_no_match tinf [("it_unit_id", Value.null)] "it_unit_id"
        (Value.int unit_id) hni,
      setItUnits_self s tu htu]
    rw [setApplications_self s tapp htapp, setItServices_self s tsvc
      htsvc, setInfrastructure_self s tinf htinf]

/-- Witness for the amended C10: deleting the absent Application 7 and
the absent IT Unit 9 on the freshly migrated store each succeed, change
no data row, and append exactly one DELETE audit record. -/
theorem delete_unmatched_id_audits_without_removal_witness :
    delete_application "u@x" 7 "Ghost" "t0" dbAfterInit =
      .ok (dbAfterInit.setAudit
        { Table.mk auditCols false [] with rows :=
            [newRowFor (Table.mk auditCols false [])
              (auditAssigns "u@x" "DELETE" "Application" "Ghost" ""
                "t0")] }, .pyNone) ∧
    delete_it_unit "u@x" 9 "Ghost" "t0" dbAfterInit =
      .ok (dbAfterInit.setAudit
        { Table.mk auditCols false [] with rows :=
            [newRowFor (Table.mk auditCols false [])
              (auditAssigns "u@x" "DELETE" "IT Unit" "Ghost" ""
                "t0")] }, .pyNone) :=
  ⟨delete_unmatched_id_audits_without_removal.2.1 dbAfterInit
      (Table.mk newAppCols false []) (Table.mk auditCols false [])
      "u@x" "Ghost" "t0" 7 rfl (by decide) rfl (by decide) rfl,
   delete_unmatched_id_audits_without_removal.2.2.2.2 dbAfterInit
      (Table.mk itUnitCanonCols true []) (Table.mk newAppCols false [])
      (Table.mk newServiceCols false []) (Table.mk infraCanonCols false
      []) (Table.mk auditCols false []) "u@x" "Ghost" "t0" 9 rfl
      (by decide) rfl (by decide) rfl (by decide) rfl (by decide) rfl
      (by decide) rfl rfl rfl rfl⟩

/- ------------------------------------------------------------------
C9 — the dashboard duplicate report.
------------------------------------------------------------------- -/

theorem insertLe_perm (le : α → α → Bool) (x : α) (l : List α) :
    (insertLe le x l).Perm (x :: l) := by
  induction l with
  | nil => exact List.Perm.refl _
  | cons y ys ih =>
    unfold insertLe
    by_cases h : le x y = true
    · rw [if_pos h]
    · rw [if_neg h]
      exact (ih.cons y).trans (List.Perm.swap x y ys)

theorem sortLe_perm (le : α → α → Bool) :
    ∀ (l : List α), (sortLe le l).Perm l
  | [] => List.Perm.refl _
  | x :: xs =>
    (insertLe_perm le x (sortLe le xs)).trans
      ((sortLe_perm le xs).cons x)

theorem mem_insertLe (le : α → α → Bool) (x : α) (l : List α) (z : α) :
    z ∈ insertLe le x l ↔ z = x ∨ z ∈ l := by
  rw [(insertLe_perm le x l).mem_iff, List.mem_cons]

theorem pairwise_insertLe (le : α → α → Bool)
    (htot : ∀ a b, le a b = true ∨ le b a = true)
    (htrans : ∀ a b c, le a b = true → le b c = true → le a c = true)
    (x : α) (l : List α)
    (hl : List.Pairwise (fun a b => le a b = true) l) :
    List.Pairwise (fun a b => le a b = true) (insertLe le x l) := by
  induction l with
  | nil => simp [insertLe]
  | cons y ys ih =>
    unfold insertLe
    rcases List.pairwise_cons.mp hl with ⟨hy, hys⟩
    by_cases h : le x y = true
    · rw [if_pos h]
      refine List.pairwise_cons.mpr ⟨?_, hl⟩
      intro z hz
      rcases List.mem_cons.mp hz with rfl | hz2
      · exact h
      · exact htrans x y z h (hy z hz2)
    · rw [if_neg h]
      refine List.pairwise_cons.mpr ⟨?_, ih hys⟩
      intro z hz
      rcases (mem_insertLe le x ys z).mp hz with hzx | hz2
      · rw [hzx]
        rcases htot x y with h1 | h1
        · exact absurd h1 h
        · exact h1
      · exact hy z hz2

theorem sortLe_pairwise (le : α → α → Bool)
    (htot : ∀ a b, le a b = true ∨ le b a = true)
    (htrans : ∀ a b c, le a b = true → le b c = true → le a c = true) :
    ∀ (l : List α),
    List.Pairwise (fun a b => le a b = true) (sortLe le l)
  | [] => List.Pairwise.nil
  | x :: xs =>
    pairwise_insertLe le htot htrans x (sortLe le xs)
      (sortLe_pairwise le htot htrans xs)

theorem charListLe_total : ∀ (x y : List Char),
    charListLe x y = true ∨ charListLe y x = true
  | [], _ => Or.inl rfl
  | _ :: _, [] => Or.inr rfl
  | a :: as, b :: bs => by
    unfold charListLe
    by_cases h1 : a.toNat < b.toNat
    · left
      rw [if_pos h1]
    · by_cases h2 : b.toNat < a.toNat
      · right
        rw [if_pos h2]
      · rcases charListLe_total as bs with ih | ih
        · left
          rw [if_neg h1, if_neg h2]
          exact ih
        · right
          rw [if_neg h2, if_neg h1]
          exact ih

theorem charListLe_trans : ∀ (x y z : List Char),
    charListLe x y = true → charListLe y z = true →
    charListLe x z = true
  | [], _, _ => fun _ _ => rfl
  | _ :: _, [], _ => fun h1 _ => by simp [charListLe] at h1
  | _ :: _, _ :: _, [] => fun _ h2 => by simp [charListLe] at h2
  | a :: as, b :: bs, c :: cs => by
    unfold charListLe
    intro h1 h2
    by_cases hab : a.toNat < b.toNat
    · by_cases hbc : b.toNat < c.toNat
      · rw [if_pos (show a.toNat < c.toNat by omega)]
      · by_cases hcb : c.toNat < b.toNat
        · rw [if_neg hbc, if_pos hcb] at h2
          simp at h2
        · rw [if_pos (show a.toNat < c.toNat by omega)]
    · by_cases hba : b.toNat < a.toNat
      · rw [if_neg hab, if_pos hba] at h1
        simp at h1
      · by_cases hbc : b.toNat < c.toNat
        · rw [if_pos (show a.toNat < c.toNat by omega)]
        · by_cases hcb : c.toNat < b.toNat
          · rw [if_neg hbc, if_pos hcb] at h2
            simp at h2
          · rw [if_neg hab, if_neg hba] at h1
            rw [if_neg hbc, if_neg hcb] at h2
            rw [if_neg (show ¬ a.toNat < c.toNat by omega),
                if_neg (show ¬ c.toNat < a.toNat by omega)]
            exact charListLe_trans as bs cs h1 h2

theorem strLe_total (a b : String) :
    strLe a b = true ∨ strLe b a = true :=
  charListLe_total a.data b.data

theorem strLe_trans (a b c : String) (h1 : strLe a b = true)
    (h2 : strLe b c = true) : strLe a c = true :=
  charListLe_trans a.data b.data c.data h1 h2

theorem valueLe_total (a b : Value) :
    valueLe a b = true ∨ valueLe b a = true := by
  cases a <;> cases b <;> simp [valueLe] <;>
    first
    | exact le_total _ _
    | exact strLe_total _ _

theorem valueLe_trans (a b c : Value) :
    valueLe a b = true → valueLe b c = true → valueLe a c = true := by
  cases a <;> cases b <;> cases c <;> simp [valueLe] <;>
    (intro h1 h2
     first
     | exact le_trans h1 h2
     | exact strLe_trans _ _ _ h1 h2)

/-- Application row "VPN" with id 1. -/
def vpnRow1 : List Value :=
  newRowFor (Table.mk newAppCols false [])
    (appInsertAssigns "VPN" (some 1) (some 1) (some 1) (some 1) 10 "" ""
      "" "" "" "Active")

/-- A second, distinct application row also named "VPN" (id 2). -/
def vpnRow2 : List Value :=
  newRowFor (Table.mk newAppCols false [vpnRow1])
    (appInsertAssigns "VPN" (some 2) (some 2) (some 2) (some 2) 20 "" ""
      "" "" "" "Active")

/-- Application row "Email" with id 3 — its name is unique. -/
def emailRow : List Value :=
  newRowFor (Table.mk newAppCols false [vpnRow1, vpnRow2])
    (appInsertAssigns "Email" (some 1) (some 3) (some 1) (some 1) 30 ""
      "" "" "" "" "Active")

def c9Rows : List (List Value) := [vpnRow1, vpnRow2, emailRow]

/-- C9.  The dashboard duplicate report returns, as a permutation,
exactly the rows whose key value occurs at least twice in the listing
(so a row is in the report iff it is in the listing and its key-group has
size at least two — every unique-keyed row is excluded), the report is
sorted by the key, and on applications named VPN, VPN, Email grouped by
name it is exactly the two VPN rows. -/
theorem find_duplicates_spec :
    (∀ (rows : List (List Value)) (cols : List String) (key : String),
      (find_duplicates rows cols key).Perm
        (rows.filter (fun r => 2 ≤ rows.countP
          (fun r2 => getVal cols r2 key == getVal cols r key))) ∧
      List.Pairwise (fun a b =>
        valueLe (getVal cols a key) (getVal cols b key) = true)
        (find_duplicates rows cols key) ∧
      (∀ r, r ∈ find_duplicates rows cols key ↔ r ∈ rows ∧
        2 ≤ rows.countP (fun r2 =>
          getVal cols r2 key == getVal cols r key))) ∧
    find_duplicates c9Rows newAppCols "name" = [vpnRow1, vpnRow2] := by
  refine ⟨fun rows cols key => ⟨?_, ?_, ?_⟩, ?_⟩
  · exact sortLe_perm _ _
  · unfold find_duplicates
    exact sortLe_pairwise
      (fun a b => valueLe (getVal cols a key) (getVal cols b key))
      (fun a b => valueLe_total _ _)
      (fun a b c h1 h2 => valueLe_trans _ _ _ h1 h2) _
  · intro r
    unfold find_duplicates
    rw [(sortLe_perm _ _).mem_iff, List.mem_filter]
    simp
  · rfl

/-- Witness for C9: the membership characterization evaluated at the
first VPN row of the concrete listing. -/
theorem find_duplicates_spec_witness :
    vpnRow1 ∈ find_duplicates c9Rows newAppCols "name" ↔
      vpnRow1 ∈ c9Rows ∧ 2 ≤ c9Rows.countP (fun r2 =>
        getVal newAppCols r2 "name" == getVal newAppCols vpnRow1 "name")
    :=
  (find_duplicates_spec.1 c9Rows newAppCols "name").2.2 vpnRow1
